import Mathlib

/-!
Verification development for the gworkspace-helper library (Go).

The library wraps three Google Workspace REST APIs (Docs, Drive, Calendar).
We shallowly embed each exported helper as a pure Lean function from an
explicit environment (the responses the remote service and the local
side-effects would deliver) to an outcome together with the list of
observable effects (authentication, client construction, service
construction, API invocations) the helper performs, in order.

All definitions are transcribed from the Go sources:
  - gdocsHelper (document helpers),
  - gDriveHelper (drive helpers),
  - gMeetHelper (calendar helpers),
  - auth (OAuth2 / service-account client acquisition),
  - main (the end-to-end demo driver).
-/

namespace GW

/-! ### Model of the Go string primitives used by the sources

Go string indices and lengths are byte (UTF-8) based; `strings.TrimSpace`
trims Unicode white space; `strings.Index` returns the byte offset of the
first occurrence of a substring, or -1.
-/

/-- `unicode.IsSpace` (the Latin-1 cases plus the Unicode space code points),
as used by Go's `strings.TrimSpace`. -/
def goIsSpace (c : Char) : Bool :=
  c = ' ' || c = '\t' || c = '\n' || c.toNat = 11 || c.toNat = 12 || c = '\r' ||
  c.toNat = 0x85 || c.toNat = 0xA0 || c.toNat = 0x1680 ||
  (0x2000 ≤ c.toNat && c.toNat ≤ 0x200A) ||
  c.toNat = 0x2028 || c.toNat = 0x2029 || c.toNat = 0x202F ||
  c.toNat = 0x205F || c.toNat = 0x3000

/-- Go `strings.TrimSpace`. -/
def goTrimSpace (s : String) : String :=
  String.mk (((s.data.dropWhile goIsSpace).reverse.dropWhile goIsSpace).reverse)

/-- UTF-8 byte width of one code point (Go counts string length in bytes). -/
def charUtf8Size (c : Char) : Nat :=
  if c.toNat < 0x80 then 1
  else if c.toNat < 0x800 then 2
  else if c.toNat < 0x10000 then 3
  else 4

/-- Go `len(s)` for a string: its UTF-8 byte length. -/
def goLen (s : String) : Int :=
  Int.ofNat (s.data.foldl (fun n c => n + charUtf8Size c) 0)

/-- Byte offset of the first occurrence of `sub` in `s` (`none` if absent). -/
def goIndexAux (sub : List Char) : List Char → Nat → Option Nat
  | s, acc =>
    if sub.isPrefixOf s then some acc
    else
      match s with
      | [] => none
      | c :: rest => goIndexAux sub rest (acc + charUtf8Size c)

/-- Go `strings.Index s sub`: byte index of the first occurrence, or -1. -/
def goIndex (s sub : String) : Int :=
  match goIndexAux sub.data s.data 0 with
  | some n => Int.ofNat n
  | none => -1

/-! ### Data model of a fetched Google Doc (the fields the sources read) -/

/-- `docs.TextRun` (the `Content` field is the only one read). -/
structure TextRun where
  content : String
deriving DecidableEq, Repr

/-- `docs.ParagraphElement`: a text run with its character offsets. -/
structure ParagraphElement where
  startIndex : Int
  endIndex : Int
  textRun : Option TextRun
deriving DecidableEq, Repr

/-- `docs.Paragraph`. -/
structure Paragraph where
  elements : List ParagraphElement
deriving DecidableEq, Repr

/-- `docs.TableCell` (only `StartIndex` is read). -/
structure TableCell where
  startIndex : Int
deriving DecidableEq, Repr

/-- `docs.TableRow`. -/
structure TableRow where
  tableCells : List TableCell
deriving DecidableEq, Repr

/-- `docs.Table`. -/
structure Table where
  tableRows : List TableRow
deriving DecidableEq, Repr

/-- `docs.StructuralElement`: a node of the body content tree. `Paragraph`
and `Table` are nil-able pointers in Go, hence `Option` here. -/
structure StructuralElement where
  startIndex : Int
  endIndex : Int
  paragraph : Option Paragraph
  table : Option Table
deriving DecidableEq, Repr

/-- `docs.Body`. -/
structure Body where
  content : List StructuralElement
deriving DecidableEq, Repr

/-- `docs.Document` (the fields the sources read). -/
structure GDocument where
  title : String
  body : Body
deriving DecidableEq, Repr

/-! ### The text-location-resolution scans (gdocsHelper)

Each scan below transcribes the loop nest of one helper. The `break`
statements in the Go sources terminate only the inner loop over
`element.Paragraph.Elements`; the outer loop over `doc.Body.Content`
always runs to completion.
-/

/-- Inner loop of `AddTextAfterLine`: first element of the paragraph whose
trimmed text-run content equals `lineContent`; yields its `EndIndex`. -/
def scanParagraphAfterLine (lineContent : String) : List ParagraphElement → Option Int
  | [] => none
  | e :: rest =>
    match e.textRun with
    | some tr =>
      if tr.content ≠ "" && goTrimSpace tr.content = lineContent then some e.endIndex
      else scanParagraphAfterLine lineContent rest
    | none => scanParagraphAfterLine lineContent rest

/-- Outer loop of `AddTextAfterLine`: `insertIndex` starts at -1 and is
overwritten by every paragraph that contains a matching run. -/
def findInsertIndexAfterLine (lineContent : String) (content : List StructuralElement) : Int :=
  content.foldl
    (fun acc el =>
      match el.paragraph with
      | some p =>
        match scanParagraphAfterLine lineContent p.elements with
        | some i => i
        | none => acc
      | none => acc)
    (-1)

/-- Inner loop of `AddTextAfterPatternInLine`: first element of the paragraph
whose text-run content contains `pattern`; yields
`StartIndex + idx + len(pattern)`. -/
def scanParagraphPattern (pattern : String) : List ParagraphElement → Option Int
  | [] => none
  | e :: rest =>
    match e.textRun with
    | some tr =>
      if tr.content ≠ "" && goIndex tr.content pattern ≠ -1 then
        some (e.startIndex + goIndex tr.content pattern + goLen pattern)
      else scanParagraphPattern pattern rest
    | none => scanParagraphPattern pattern rest

/-- Outer loop of `AddTextAfterPatternInLine`. -/
def findInsertIndexAfterPattern (pattern : String) (content : List StructuralElement) : Int :=
  content.foldl
    (fun acc el =>
      match el.paragraph with
      | some p =>
        match scanParagraphPattern pattern p.elements with
        | some i => i
        | none => acc
      | none => acc)
    (-1)

/-- Inner loop of `AddLinkToText`: first element of the paragraph whose
text-run content contains `searchText`; yields the styled range
`(StartIndex + idx, StartIndex + idx + len(searchText))`. -/
def scanParagraphLink (searchText : String) : List ParagraphElement → Option (Int × Int)
  | [] => none
  | e :: rest =>
    match e.textRun with
    | some tr =>
      if tr.content ≠ "" && goIndex tr.content searchText ≠ -1 then
        some (e.startIndex + goIndex tr.content searchText,
              e.startIndex + goIndex tr.content searchText + goLen searchText)
      else scanParagraphLink searchText rest
    | none => scanParagraphLink searchText rest

/-- Outer loop of `AddLinkToText`: the pair `(startIndex, endIndex)` starts at
`(-1, -1)` and is overwritten by every paragraph that contains a match. -/
def findLinkRange (searchText : String) (content : List StructuralElement) : Int × Int :=
  content.foldl
    (fun acc el =>
      match el.paragraph with
      | some p =>
        match scanParagraphLink searchText p.elements with
        | some r => r
        | none => acc
      | none => acc)
    (-1, -1)

/-- Loop of `AddTextBetweenLines`: `startIndex` / `endIndex` are guarded by
`== -1` checks, so each keeps its first match. -/
def findBetweenIndices (startLine endLine : String) (content : List StructuralElement) : Int × Int :=
  content.foldl
    (fun acc el =>
      match el.paragraph with
      | some p =>
        p.elements.foldl
          (fun acc2 e =>
            match e.textRun with
            | some tr =>
              if tr.content ≠ "" then
                if goTrimSpace tr.content = startLine && acc2.1 = -1 then (e.startIndex, acc2.2)
                else if goTrimSpace tr.content = endLine && acc2.2 = -1 then (acc2.1, e.startIndex)
                else acc2
              else acc2
            | none => acc2)
          acc
      | none => acc)
    (-1, -1)

/-- Table-search loop of `AddTextToTableCell` / `SetColorToTableCell`:
`tableCount` advances only past non-matching tables; the loop breaks at the
`tableIndex`-th table, remembering the element (whose `Table` is non-nil). -/
def findTableAux (tableIndex : Int) : List StructuralElement → Int → Option (StructuralElement × Table)
  | [], _ => none
  | el :: rest, count =>
    match el.table with
    | some tb => if count = tableIndex then some (el, tb) else findTableAux tableIndex rest (count + 1)
    | none => findTableAux tableIndex rest count

/-- The table lookup starting with `tableCount = 0`. -/
def findTable (tableIndex : Int) (content : List StructuralElement) : Option (StructuralElement × Table) :=
  findTableAux tableIndex content 0

/-- Go slice indexing `xs[i]` with an `int64` index: `none` models the
run-time panic on a negative or out-of-range index. -/
def goSliceGet {α : Type} (xs : List α) (i : Int) : Option α :=
  if i < 0 then none else xs.get? i.toNat

/-! ### The auth module

`auth.GetClient` returns an `(*oauth2.Config, *oauth2.Token)` pair. The
config pointer is nil-able (`Option`), and in the service-account branch it
is returned nil. The OAuth branch reads and possibly writes the token file,
so it is modelled as a function of an explicit file-system state.
-/

/-- Abstract `*oauth2.Config` value (non-nil). -/
structure OAuthConfig where
  id : Nat
deriving DecidableEq, Repr

/-- Abstract `*oauth2.Token` value (non-nil). -/
structure Token where
  id : Nat
deriving DecidableEq, Repr

/-- `auth.Config`. -/
structure AuthConfig where
  useServiceAccount : Bool
  credentialsFile : String
  tokenFile : String
  scopes : List String
deriving DecidableEq, Repr

/-- Results of the external operations inside the auth module:
file reads, credential parsing, token sources, and the web exchange. -/
structure AuthEnv where
  readCredentialsFile : Except String String
  credentialsFromJSON : Except String Unit
  tokenSourceToken : Except String Token
  configFromJSON : Except String OAuthConfig
  webToken : Except String Token
deriving Repr

/-- The local state the auth module touches: the contents of the token file
(`none` models an absent or undecodable file, the cases where
`tokenFromFile` fails). -/
structure AuthState where
  tokenFileContents : Option Token
deriving DecidableEq, Repr

/-- Observable effects of one auth-module invocation. -/
inductive AuthEvent where
  | readCredFile
  | readTokenFile
  | webExchange
  | saveTokenFile
deriving DecidableEq, Repr

/-- `auth.getServiceAccountClient`: on success returns a NIL config together
with the token obtained from the credentials' token source. -/
def getServiceAccountClient (env : AuthEnv) :
    Except String (Option OAuthConfig × Token) :=
  match env.readCredentialsFile with
  | .error e => .error ("auth: failed to read service account file: " ++ e)
  | .ok _ =>
    match env.credentialsFromJSON with
    | .error e => .error ("auth: failed to parse service account credentials: " ++ e)
    | .ok _ =>
      match env.tokenSourceToken with
      | .error e => .error ("auth: error when getting token: " ++ e)
      | .ok token => .ok (none, token)

/-- `auth.getOAuthClient`: reads the client secret, then tries the token
file; on a miss it runs the web exchange and, on success, SAVES the token to
the token file (`saveToken`), mutating the local state. -/
def getOAuthClient (env : AuthEnv) (st : AuthState) :
    Except String (Option OAuthConfig × Token) × AuthState × List AuthEvent :=
  match env.readCredentialsFile with
  | .error e => (.error ("auth: unable to read client secret file: " ++ e), st, [.readCredFile])
  | .ok _ =>
    match env.configFromJSON with
    | .error e => (.error ("auth: unable to parse client secret file to config: " ++ e), st,
        [.readCredFile])
    | .ok conf =>
      match st.tokenFileContents with
      | some tok => (.ok (some conf, tok), st, [.readCredFile, .readTokenFile])
      | none =>
        match env.webToken with
        | .error e => (.error ("auth: unable to retrieve token from web: " ++ e), st,
            [.readCredFile, .readTokenFile, .webExchange])
        | .ok tok =>
          (.ok (some conf, tok), { st with tokenFileContents := some tok },
            [.readCredFile, .readTokenFile, .webExchange, .saveTokenFile])

/-- `auth.GetClient`: dispatches on `UseServiceAccount`. -/
def GetClient (config : AuthConfig) (env : AuthEnv) (st : AuthState) :
    Except String (Option OAuthConfig × Token) × AuthState × List AuthEvent :=
  if config.useServiceAccount then
    (getServiceAccountClient env, st, [.readCredFile])
  else
    getOAuthClient env st

/-! ### Model of Go `time` as used by gMeetHelper

`CreateCalendarEvent` converts both inputs with `t.In(jst)` (which changes
only the location, not the instant) and renders them with
`Format(time.RFC3339)`. We model instants at second precision; an RFC3339
string is modelled by the local wall-clock seconds it displays together with
the zone offset it carries, so the instant it denotes is `wall - offset`.
-/

/-- A `*time.Location` as a fixed offset (Asia/Tokyo has no DST). -/
structure GoLocation where
  name : String
  offsetSec : Int
deriving DecidableEq, Repr

/-- The location `time.LoadLocation "Asia/Tokyo"` yields on success. -/
def jstLocation : GoLocation := { name := "Asia/Tokyo", offsetSec := 9 * 3600 }

/-- A `time.Time`: an instant (unix seconds) plus a display location. -/
structure GoTime where
  unixSec : Int
  loc : GoLocation
deriving DecidableEq, Repr

/-- `t.In(l)`: same instant, different display location. -/
def GoTime.inLoc (t : GoTime) (l : GoLocation) : GoTime :=
  { unixSec := t.unixSec, loc := l }

/-- The content of an RFC3339 rendering: the local wall-clock seconds shown
and the zone offset suffix. -/
structure FormattedTime where
  wallSec : Int
  offsetSec : Int
deriving DecidableEq, Repr

/-- `t.Format(time.RFC3339)`. -/
def formatRFC3339 (t : GoTime) : FormattedTime :=
  { wallSec := t.unixSec + t.loc.offsetSec, offsetSec := t.loc.offsetSec }

/-- The instant an RFC3339 string denotes. -/
def FormattedTime.instant (f : FormattedTime) : Int :=
  f.wallSec - f.offsetSec

/-! ### Calendar / Drive payloads -/

/-- `calendar.EventDateTime` (the fields the sources set). -/
structure EventDateTime where
  dateTime : FormattedTime
  timeZone : String
deriving DecidableEq, Repr

/-- `calendar.EventAttachment`. -/
structure EventAttachment where
  fileId : String
  fileUrl : String
  title : String
  mimeType : String
deriving DecidableEq, Repr

/-- `calendar.Event` (the fields the sources read or set; `End` is named
`endTime` since `end` is reserved). -/
structure CalEvent where
  id : String
  summary : String
  location : String
  description : String
  start : EventDateTime
  endTime : EventDateTime
  attendees : List String
  attachments : List EventAttachment
  conferenceRequestId : String
  conferenceSolutionType : String
deriving DecidableEq, Repr

/-- `drive.File` (the fields the sources read). -/
structure DriveFile where
  id : String
  name : String
deriving DecidableEq, Repr

/-- File metadata fetched by `AttachFileToEvent`. -/
structure FileMeta where
  webViewLink : String
  name : String
  mimeType : String
deriving DecidableEq, Repr

/-- `drive.Permission` (the fields `RemoveFolderPermission` reads). -/
structure DrivePermission where
  id : String
  emailAddress : String
deriving DecidableEq, Repr

/-! ### Effect traces of the helper functions -/

/-- A single `docs.Request` operation, by the fields the sources set. -/
inductive DocsRequest where
  | insertText (text : String) (index : Int)
  | insertTable (rows columns : Int) (index : Int)
  | replaceAllText (oldText newText : String) (matchCase : Bool)
  | updateTextStyleLink (startIndex endIndex : Int) (url : String)
  | updateTableCellStyle (tableStartIndex rowIndex columnIndex : Int)
deriving DecidableEq, Repr

/-- Which Google SDK service a helper constructs. -/
inductive ServiceKind where
  | docs
  | drive
  | calendar
deriving DecidableEq, Repr

/-- A remote API invocation, with the payloads the claims talk about. -/
inductive ApiMethod where
  | documentsCreate (title : String)
  | documentsGet (docID : String)
  | batchUpdate (docID : String) (requests : List DocsRequest)
  | filesCreate
  | filesCopy
  | filesUpdate
  | filesDelete
  | filesGet
  | filesExportDownload
  | permissionsCreate
  | permissionsList
  | permissionsDelete
  | eventsInsert (event : CalEvent)
  | eventsGet (eventID : String)
  | eventsUpdate (event : CalEvent)
deriving DecidableEq, Repr

/-- An observable effect of a helper invocation: the `auth.GetClient` call,
the `conf.Client` call (recording whether `conf` was nil), an SDK service
construction, or an API invocation. -/
inductive Event where
  | auth
  | client (confNil : Bool)
  | newService (kind : ServiceKind)
  | api (m : ApiMethod)
deriving DecidableEq, Repr

/-- Outcome of a helper invocation: a value, a Go error, or a run-time
panic (nil dereference / slice index out of range). -/
inductive Outcome (α : Type) where
  | ok : α → Outcome α
  | err : String → Outcome α
  | panicked : Outcome α
deriving DecidableEq, Repr

/-- The environment a helper runs against: the result each external step
would deliver if reached. No helper invokes the same step twice. -/
structure Env where
  getClient : Except String (Option OAuthConfig × Token)
  docsNewService : Except String Unit
  driveNewService : Except String Unit
  calendarNewService : Except String Unit
  documentsCreate : Except String GDocument
  documentsGet : Except String GDocument
  batchUpdate : Except String Unit
  filesCreate : Except String DriveFile
  filesCopy : Except String DriveFile
  filesUpdate : Except String Unit
  filesDelete : Except String Unit
  filesGet : Except String FileMeta
  filesExportDownload : Except String Unit
  readAllBody : Except String String
  permissionsCreate : Except String Unit
  permissionsList : Except String (List DrivePermission)
  permissionsDelete : Except String Unit
  eventsInsert : Except String CalEvent
  eventsGet : Except String CalEvent
  eventsUpdate : Except String Unit
  loadLocationJST : Except String Unit
deriving Repr

/-! ### gdocsHelper -/

namespace gdocsHelper

/-- `gdocsHelper.CreateGoogleDoc`. -/
def CreateGoogleDoc (env : Env) (title : String) : Outcome GDocument × List Event :=
  match env.getClient with
  | .error e => (.err ("gdocsHelper: failed to get authenticated client: " ++ e), [.auth])
  | .ok (conf, _tok) =>
    match env.docsNewService with
    | .error e => (.err ("gdocsHelper: unable to create docs service: " ++ e),
        [.auth, .client conf.isNone, .newService .docs])
    | .ok _ =>
      match env.documentsCreate with
      | .error e => (.err ("gdocsHelper: unable to create document: " ++ e),
          [.auth, .client conf.isNone, .newService .docs, .api (.documentsCreate title)])
      | .ok createdDoc => (.ok createdDoc,
          [.auth, .client conf.isNone, .newService .docs, .api (.documentsCreate title)])

/-- `gdocsHelper.AddText`: fetches the document, then inserts at
`Content[len-1].EndIndex - 1`. The indexing panics on empty content. -/
def AddText (env : Env) (docID text : String) : Outcome Unit × List Event :=
  match env.getClient with
  | .error e => (.err ("gdocsHelper: failed to get authenticated client: " ++ e), [.auth])
  | .ok (conf, _tok) =>
    match env.docsNewService with
    | .error e => (.err ("gdocsHelper: unable to create docs service: " ++ e),
        [.auth, .client conf.isNone, .newService .docs])
    | .ok _ =>
      match env.documentsGet with
      | .error e => (.err ("gdocsHelper: unable to retrieve document: " ++ e),
          [.auth, .client conf.isNone, .newService .docs, .api (.documentsGet docID)])
      | .ok doc =>
        match doc.body.content.getLast? with
        | none => (.panicked,
            [.auth, .client conf.isNone, .newService .docs, .api (.documentsGet docID)])
        | some lastEl =>
          let endIndex := lastEl.endIndex - 1
          let requests := [DocsRequest.insertText text endIndex]
          match env.batchUpdate with
          | .error e => (.err ("gdocsHelper: unable to add text to document: " ++ e),
              [.auth, .client conf.isNone, .newService .docs, .api (.documentsGet docID),
               .api (.batchUpdate docID requests)])
          | .ok _ => (.ok (),
              [.auth, .client conf.isNone, .newService .docs, .api (.documentsGet docID),
               .api (.batchUpdate docID requests)])

/-- `gdocsHelper.ReplaceText`: issues a single `ReplaceAllText` batch update
without fetching the document first. -/
def ReplaceText (env : Env) (docID oldText newText : String) : Outcome Unit × List Event :=
  match env.getClient with
  | .error e => (.err ("gdocsHelper: failed to get authenticated client: " ++ e), [.auth])
  | .ok (conf, _tok) =>
    match env.docsNewService with
    | .error e => (.err ("gdocsHelper: unable to create docs service: " ++ e),
        [.auth, .client conf.isNone, .newService .docs])
    | .ok _ =>
      let requests := [DocsRequest.replaceAllText oldText newText true]
      match env.batchUpdate with
      | .error e => (.err ("gdocsHelper: unable to replace text in document: " ++ e),
          [.auth, .client conf.isNone, .newService .docs, .api (.batchUpdate docID requests)])
      | .ok _ => (.ok (),
          [.auth, .client conf.isNone, .newService .docs, .api (.batchUpdate docID requests)])

/-- `gdocsHelper.MakeCopyOfGoogleDoc`. -/
def MakeCopyOfGoogleDoc (env : Env) (fileID newTitle : String) : Outcome DriveFile × List Event :=
  match env.getClient with
  | .error e => (.err ("gdocsHelper: failed to get authenticated client: " ++ e), [.auth])
  | .ok (conf, _tok) =>
    match env.driveNewService with
    | .error e => (.err ("gdocsHelper: unable to create drive service: " ++ e),
        [.auth, .client conf.isNone, .newService .drive])
    | .ok _ =>
      match env.filesCopy with
      | .error e => (.err ("gdocsHelper: unable to copy file: " ++ e),
          [.auth, .client conf.isNone, .newService .drive, .api .filesCopy])
      | .ok file => (.ok file,
          [.auth, .client conf.isNone, .newService .drive, .api .filesCopy])

/-- `gdocsHelper.ExportGoogleDocAsText`. -/
def ExportGoogleDocAsText (env : Env) (fileID : String) : Outcome String × List Event :=
  match env.getClient with
  | .error e => (.err ("gdocsHelper: failed to get authenticated client: " ++ e), [.auth])
  | .ok (conf, _tok) =>
    match env.driveNewService with
    | .error e => (.err ("gdocsHelper: unable to create drive service: " ++ e),
        [.auth, .client conf.isNone, .newService .drive])
    | .ok _ =>
      match env.filesExportDownload with
      | .error e => (.err ("gdocsHelper: unable to export file: " ++ e),
          [.auth, .client conf.isNone, .newService .drive, .api .filesExportDownload])
      | .ok _ =>
        match env.readAllBody with
        | .error e => (.err ("gdocsHelper: unable to read exported content: " ++ e),
            [.auth, .client conf.isNone, .newService .drive, .api .filesExportDownload])
        | .ok content => (.ok content,
            [.auth, .client conf.isNone, .newService .drive, .api .filesExportDownload])

/-- `gdocsHelper.RenameGoogleDoc`. -/
def RenameGoogleDoc (env : Env) (fileID newTitle : String) : Outcome Unit × List Event :=
  match env.getClient with
  | .error e => (.err ("gdocsHelper: failed to get authenticated client: " ++ e), [.auth])
  | .ok (conf, _tok) =>
    match env.driveNewService with
    | .error e => (.err ("gdocsHelper: unable to create drive service: " ++ e),
        [.auth, .client conf.isNone, .newService .drive])
    | .ok _ =>
      match env.filesUpdate with
      | .error e => (.err ("gdocsHelper: unable to rename file: " ++ e),
          [.auth, .client conf.isNone, .newService .drive, .api .filesUpdate])
      | .ok _ => (.ok (),
          [.auth, .client conf.isNone, .newService .drive, .api .filesUpdate])

/-- `gdocsHelper.AddTextBetweenLines`. -/
def AddTextBetweenLines (env : Env) (docID startLine endLine textToAdd : String) :
    Outcome Unit × List Event :=
  match env.getClient with
  | .error e => (.err ("gdocsHelper: failed to get authenticated client: " ++ e), [.auth])
  | .ok (conf, _tok) =>
    match env.docsNewService with
    | .error e => (.err ("gdocsHelper: unable to create docs service: " ++ e),
        [.auth, .client conf.isNone, .newService .docs])
    | .ok _ =>
      match env.documentsGet with
      | .error e => (.err ("gdocsHelper: unable to retrieve document: " ++ e),
          [.auth, .client conf.isNone, .newService .docs, .api (.documentsGet docID)])
      | .ok doc =>
        let found := findBetweenIndices startLine endLine doc.body.content
        if found.1 = -1 then
          (.err ("gdocsHelper: start line '" ++ startLine ++ "' not found"),
           [.auth, .client conf.isNone, .newService .docs, .api (.documentsGet docID)])
        else if found.2 = -1 then
          (.err ("gdocsHelper: end line '" ++ endLine ++ "' not found"),
           [.auth, .client conf.isNone, .newService .docs, .api (.documentsGet docID)])
        else if found.2 ≤ found.1 then
          (.err "gdocsHelper: start line occurs after end line",
           [.auth, .client conf.isNone, .newService .docs, .api (.documentsGet docID)])
        else
          let insertIndex := found.1 + goLen startLine + 1
          let requests := [DocsRequest.insertText (textToAdd ++ "\n") insertIndex]
          match env.batchUpdate with
          | .error e => (.err ("gdocsHelper: unable to insert text between lines: " ++ e),
              [.auth, .client conf.isNone, .newService .docs, .api (.documentsGet docID),
               .api (.batchUpdate docID requests)])
          | .ok _ => (.ok (),
              [.auth, .client conf.isNone, .newService .docs, .api (.documentsGet docID),
               .api (.batchUpdate docID requests)])

/-- `gdocsHelper.AddTextAfterLine`. -/
def AddTextAfterLine (env : Env) (docID lineContent textToAdd : String) :
    Outcome Unit × List Event :=
  match env.getClient with
  | .error e => (.err ("gdocsHelper: failed to get authenticated client: " ++ e), [.auth])
  | .ok (conf, _tok) =>
    match env.docsNewService with
    | .error e => (.err ("gdocsHelper: unable to create docs service: " ++ e),
        [.auth, .client conf.isNone, .newService .docs])
    | .ok _ =>
      match env.documentsGet with
      | .error e => (.err ("gdocsHelper: unable to retrieve document: " ++ e),
          [.auth, .client conf.isNone, .newService .docs, .api (.documentsGet docID)])
      | .ok doc =>
        let insertIndex := findInsertIndexAfterLine lineContent doc.body.content
        if insertIndex = -1 then
          (.err ("gdocsHelper: line '" ++ lineContent ++ "' not found"),
           [.auth, .client conf.isNone, .newService .docs, .api (.documentsGet docID)])
        else
          let requests := [DocsRequest.insertText (textToAdd ++ "\n") insertIndex]
          match env.batchUpdate with
          | .error e => (.err ("gdocsHelper: unable to insert text after line: " ++ e),
              [.auth, .client conf.isNone, .newService .docs, .api (.documentsGet docID),
               .api (.batchUpdate docID requests)])
          | .ok _ => (.ok (),
              [.auth, .client conf.isNone, .newService .docs, .api (.documentsGet docID),
               .api (.batchUpdate docID requests)])

/-- `gdocsHelper.AddTextAfterPatternInLine`. -/
def AddTextAfterPatternInLine (env : Env) (docID pattern textToAdd : String) :
    Outcome Unit × List Event :=
  match env.getClient with
  | .error e => (.err ("gdocsHelper: failed to get authenticated client: " ++ e), [.auth])
  | .ok (conf, _tok) =>
    match env.docsNewService with
    | .error e => (.err ("gdocsHelper: unable to create docs service: " ++ e),
        [.auth, .client conf.isNone, .newService .docs])
    | .ok _ =>
      match env.documentsGet with
      | .error e => (.err ("gdocsHelper: unable to retrieve document: " ++ e),
          [.auth, .client conf.isNone, .newService .docs, .api (.documentsGet docID)])
      | .ok doc =>
        let insertIndex := findInsertIndexAfterPattern pattern doc.body.content
        if insertIndex = -1 then
          (.err ("gdocsHelper: pattern '" ++ pattern ++ "' not found"),
           [.auth, .client conf.isNone, .newService .docs, .api (.documentsGet docID)])
        else
          let requests := [DocsRequest.insertText textToAdd insertIndex]
          match env.batchUpdate with
          | .error e => (.err ("gdocsHelper: unable to insert text after pattern: " ++ e),
              [.auth, .client conf.isNone, .newService .docs, .api (.documentsGet docID),
               .api (.batchUpdate docID requests)])
          | .ok _ => (.ok (),
              [.auth, .client conf.isNone, .newService .docs, .api (.documentsGet docID),
               .api (.batchUpdate docID requests)])

/-- `gdocsHelper.AddTable`: inserts at `Content[len-1].EndIndex - 1`
(panics on empty content). -/
def AddTable (env : Env) (docID : String) (rows columns : Int) : Outcome Unit × List Event :=
  match env.getClient with
  | .error e => (.err ("gdocsHelper: failed to get authenticated client: " ++ e), [.auth])
  | .ok (conf, _tok) =>
    match env.docsNewService with
    | .error e => (.err ("gdocsHelper: unable to create docs service: " ++ e),
        [.auth, .client conf.isNone, .newService .docs])
    | .ok _ =>
      match env.documentsGet with
      | .error e => (.err ("gdocsHelper: unable to retrieve document: " ++ e),
          [.auth, .client conf.isNone, .newService .docs, .api (.documentsGet docID)])
      | .ok doc =>
        match doc.body.content.getLast? with
        | none => (.panicked,
            [.auth, .client conf.isNone, .newService .docs, .api (.documentsGet docID)])
        | some lastEl =>
          let endIndex := lastEl.endIndex - 1
          let requests := [DocsRequest.insertTable rows columns endIndex]
          match env.batchUpdate with
          | .error e => (.err ("gdocsHelper: unable to add table: " ++ e),
              [.auth, .client conf.isNone, .newService .docs, .api (.documentsGet docID),
               .api (.batchUpdate docID requests)])
          | .ok _ => (.ok (),
              [.auth, .client conf.isNone, .newService .docs, .api (.documentsGet docID),
               .api (.batchUpdate docID requests)])

/-- `gdocsHelper.AddTextToTableCell`: a missing table is an error, but
`TableRows[rowIndex].TableCells[columnIndex]` is not bounds-checked, so an
out-of-range row or column index panics. -/
def AddTextToTableCell (env : Env) (docID : String) (tableIndex rowIndex columnIndex : Int)
    (text : String) : Outcome Unit × List Event :=
  match env.getClient with
  | .error e => (.err ("gdocsHelper: failed to get authenticated client: " ++ e), [.auth])
  | .ok (conf, _tok) =>
    match env.docsNewService with
    | .error e => (.err ("gdocsHelper: unable to create docs service: " ++ e),
        [.auth, .client conf.isNone, .newService .docs])
    | .ok _ =>
      match env.documentsGet with
      | .error e => (.err ("gdocsHelper: unable to retrieve document: " ++ e),
          [.auth, .client conf.isNone, .newService .docs, .api (.documentsGet docID)])
      | .ok doc =>
        match findTable tableIndex doc.body.content with
        | none => (.err ("gdocsHelper: table at index " ++ toString tableIndex ++ " not found"),
            [.auth, .client conf.isNone, .newService .docs, .api (.documentsGet docID)])
        | some (_tableContent, tb) =>
          match goSliceGet tb.tableRows rowIndex with
          | none => (.panicked,
              [.auth, .client conf.isNone, .newService .docs, .api (.documentsGet docID)])
          | some row =>
            match goSliceGet row.tableCells columnIndex with
            | none => (.panicked,
                [.auth, .client conf.isNone, .newService .docs, .api (.documentsGet docID)])
            | some cell =>
              let insertIndex := cell.startIndex + 1
              let requests := [DocsRequest.insertText text insertIndex]
              match env.batchUpdate with
              | .error e => (.err ("gdocsHelper: unable to add text to table cell: " ++ e),
                  [.auth, .client conf.isNone, .newService .docs, .api (.documentsGet docID),
                   .api (.batchUpdate docID requests)])
              | .ok _ => (.ok (),
                  [.auth, .client conf.isNone, .newService .docs, .api (.documentsGet docID),
                   .api (.batchUpdate docID requests)])

/-- `gdocsHelper.AddLinkToText`. -/
def AddLinkToText (env : Env) (docID searchText url : String) : Outcome Unit × List Event :=
  match env.getClient with
  | .error e => (.err ("gdocsHelper: failed to get authenticated client: " ++ e), [.auth])
  | .ok (conf, _tok) =>
    match env.docsNewService with
    | .error e => (.err ("gdocsHelper: unable to create docs service: " ++ e),
        [.auth, .client conf.isNone, .newService .docs])
    | .ok _ =>
      match env.documentsGet with
      | .error e => (.err ("gdocsHelper: unable to retrieve document: " ++ e),
          [.auth, .client conf.isNone, .newService .docs, .api (.documentsGet docID)])
      | .ok doc =>
        let range := findLinkRange searchText doc.body.content
        if range.1 = -1 || range.2 = -1 then
          (.err ("gdocsHelper: text '" ++ searchText ++ "' not found"),
           [.auth, .client conf.isNone, .newService .docs, .api (.documentsGet docID)])
        else
          let requests := [DocsRequest.updateTextStyleLink range.1 range.2 url]
          match env.batchUpdate with
          | .error e => (.err ("gdocsHelper: unable to add link to text: " ++ e),
              [.auth, .client conf.isNone, .newService .docs, .api (.documentsGet docID),
               .api (.batchUpdate docID requests)])
          | .ok _ => (.ok (),
              [.auth, .client conf.isNone, .newService .docs, .api (.documentsGet docID),
               .api (.batchUpdate docID requests)])

/-- `gdocsHelper.ReplaceMultipleTexts`: one `ReplaceAllText` operation per
entry, all in one batch update, with no document fetch. (Go iterates the
map in unspecified order; the model fixes the entry order as given.) -/
def ReplaceMultipleTexts (env : Env) (docID : String) (replacements : List (String × String)) :
    Outcome Unit × List Event :=
  match env.getClient with
  | .error e => (.err ("gdocsHelper: failed to get authenticated client: " ++ e), [.auth])
  | .ok (conf, _tok) =>
    match env.docsNewService with
    | .error e => (.err ("gdocsHelper: unable to create docs service: " ++ e),
        [.auth, .client conf.isNone, .newService .docs])
    | .ok _ =>
      let requests := replacements.map (fun r => DocsRequest.replaceAllText r.1 r.2 true)
      match env.batchUpdate with
      | .error e => (.err ("gdocsHelper: unable to replace multiple texts: " ++ e),
          [.auth, .client conf.isNone, .newService .docs, .api (.batchUpdate docID requests)])
      | .ok _ => (.ok (),
          [.auth, .client conf.isNone, .newService .docs, .api (.batchUpdate docID requests)])

/-- `gdocsHelper.SetColorToTableCell`. -/
def SetColorToTableCell (env : Env) (docID : String) (tableIndex rowIndex columnIndex : Int) :
    Outcome Unit × List Event :=
  match env.getClient with
  | .error e => (.err ("gdocsHelper: failed to get authenticated client: " ++ e), [.auth])
  | .ok (conf, _tok) =>
    match env.docsNewService with
    | .error e => (.err ("gdocsHelper: unable to create docs service: " ++ e),
        [.auth, .client conf.isNone, .newService .docs])
    | .ok _ =>
      match env.documentsGet with
      | .error e => (.err ("gdocsHelper: unable to retrieve document: " ++ e),
          [.auth, .client conf.isNone, .newService .docs, .api (.documentsGet docID)])
      | .ok doc =>
        match findTable tableIndex doc.body.content with
        | none => (.err ("gdocsHelper: table at index " ++ toString tableIndex ++ " not found"),
            [.auth, .client conf.isNone, .newService .docs, .api (.documentsGet docID)])
        | some (tableContent, _tb) =>
          let requests :=
            [DocsRequest.updateTableCellStyle tableContent.startIndex rowIndex columnIndex]
          match env.batchUpdate with
          | .error e => (.err ("gdocsHelper: unable to set color to table cell: " ++ e),
              [.auth, .client conf.isNone, .newService .docs, .api (.documentsGet docID),
               .api (.batchUpdate docID requests)])
          | .ok _ => (.ok (),
              [.auth, .client conf.isNone, .newService .docs, .api (.documentsGet docID),
               .api (.batchUpdate docID requests)])

/-- `gdocsHelper.AddFilePermission`. -/
def AddFilePermission (env : Env) (fileID email role : String) : Outcome Unit × List Event :=
  match env.getClient with
  | .error e => (.err ("gdocsHelper: failed to get authenticated client: " ++ e), [.auth])
  | .ok (conf, _tok) =>
    match env.driveNewService with
    | .error e => (.err ("gdocsHelper: unable to create drive service: " ++ e),
        [.auth, .client conf.isNone, .newService .drive])
    | .ok _ =>
      match env.permissionsCreate with
      | .error e => (.err ("gdocsHelper: unable to add permission to file: " ++ e),
          [.auth, .client conf.isNone, .newService .drive, .api .permissionsCreate])
      | .ok _ => (.ok (),
          [.auth, .client conf.isNone, .newService .drive, .api .permissionsCreate])

/-- `gdocsHelper.InsertTextWithLinkAndRender`: bundles the `InsertText`
operation and the link `UpdateTextStyle` operation over
`[locationIndex, locationIndex + len(text))` into one batch update. -/
def InsertTextWithLinkAndRender (env : Env) (docID text url : String) (locationIndex : Int) :
    Outcome Unit × List Event :=
  match env.getClient with
  | .error e => (.err ("gdocsHelper: failed to get authenticated client: " ++ e), [.auth])
  | .ok (conf, _tok) =>
    match env.docsNewService with
    | .error e => (.err ("gdocsHelper: unable to create docs service: " ++ e),
        [.auth, .client conf.isNone, .newService .docs])
    | .ok _ =>
      let textLength := goLen text
      let requests :=
        [DocsRequest.insertText text locationIndex,
         DocsRequest.updateTextStyleLink locationIndex (locationIndex + textLength) url]
      match env.batchUpdate with
      | .error e => (.err ("gdocsHelper: unable to insert text with link: " ++ e),
          [.auth, .client conf.isNone, .newService .docs, .api (.batchUpdate docID requests)])
      | .ok _ => (.ok (),
          [.auth, .client conf.isNone, .newService .docs, .api (.batchUpdate docID requests)])

/-- `gdocsHelper.GetDocumentEndIndex`: reads `Content[len-1].EndIndex`
(panics on empty content). -/
def GetDocumentEndIndex (env : Env) (docID : String) : Outcome Int × List Event :=
  match env.getClient with
  | .error e => (.err ("gdocsHelper: failed to get authenticated client: " ++ e), [.auth])
  | .ok (conf, _tok) =>
    match env.docsNewService with
    | .error e => (.err ("gdocsHelper: unable to create docs service: " ++ e),
        [.auth, .client conf.isNone, .newService .docs])
    | .ok _ =>
      match env.documentsGet with
      | .error e => (.err ("gdocsHelper: unable to retrieve document: " ++ e),
          [.auth, .client conf.isNone, .newService .docs, .api (.documentsGet docID)])
      | .ok doc =>
        match doc.body.content.getLast? with
        | none => (.panicked,
            [.auth, .client conf.isNone, .newService .docs, .api (.documentsGet docID)])
        | some lastEl => (.ok lastEl.endIndex,
            [.auth, .client conf.isNone, .newService .docs, .api (.documentsGet docID)])

/-- `gdocsHelper.GetDocumentURL`: pure string formatting; performs no
authentication and no API call. -/
def GetDocumentURL (fileID : String) : String :=
  "https://docs.google.com/document/d/" ++ fileID ++ "/edit"

end gdocsHelper

/-! ### gDriveHelper -/

namespace gDriveHelper

/-- `gDriveHelper.CreateFolder`. -/
def CreateFolder (env : Env) (name : String) : Outcome DriveFile × List Event :=
  match env.getClient with
  | .error e => (.err ("gDriveHelper: failed to get authenticated client: " ++ e), [.auth])
  | .ok (conf, _tok) =>
    match env.driveNewService with
    | .error e => (.err ("gDriveHelper: unable to create drive service: " ++ e),
        [.auth, .client conf.isNone, .newService .drive])
    | .ok _ =>
      match env.filesCreate with
      | .error e => (.err ("gDriveHelper: unable to create folder: " ++ e),
          [.auth, .client conf.isNone, .newService .drive, .api .filesCreate])
      | .ok createdFolder => (.ok createdFolder,
          [.auth, .client conf.isNone, .newService .drive, .api .filesCreate])

/-- `gDriveHelper.AddFolderPermission`. -/
def AddFolderPermission (env : Env) (folderID email role : String) : Outcome Unit × List Event :=
  match env.getClient with
  | .error e => (.err ("gDriveHelper: failed to get authenticated client: " ++ e), [.auth])
  | .ok (conf, _tok) =>
    match env.driveNewService with
    | .error e => (.err ("gDriveHelper: unable to create drive service: " ++ e),
        [.auth, .client conf.isNone, .newService .drive])
    | .ok _ =>
      match env.permissionsCreate with
      | .error e => (.err ("gDriveHelper: unable to add permission to folder: " ++ e),
          [.auth, .client conf.isNone, .newService .drive, .api .permissionsCreate])
      | .ok _ => (.ok (),
          [.auth, .client conf.isNone, .newService .drive, .api .permissionsCreate])

/-- `gDriveHelper.CopyFileToFolder`. -/
def CopyFileToFolder (env : Env) (fileID folderID : String) : Outcome DriveFile × List Event :=
  match env.getClient with
  | .error e => (.err ("gDriveHelper: failed to get authenticated client: " ++ e), [.auth])
  | .ok (conf, _tok) =>
    match env.driveNewService with
    | .error e => (.err ("gDriveHelper: unable to create drive service: " ++ e),
        [.auth, .client conf.isNone, .newService .drive])
    | .ok _ =>
      match env.filesCopy with
      | .error e => (.err ("gDriveHelper: unable to copy file to folder: " ++ e),
          [.auth, .client conf.isNone, .newService .drive, .api .filesCopy])
      | .ok file => (.ok file,
          [.auth, .client conf.isNone, .newService .drive, .api .filesCopy])

/-- Permission-ID lookup loop of `RemoveFolderPermission`: the `Id` of the
first permission whose `EmailAddress` equals `email`, defaulting to `""`. -/
def findPermissionID (email : String) (perms : List DrivePermission) : String :=
  match perms.find? (fun p => p.emailAddress = email) with
  | some p => p.id
  | none => ""

/-- `gDriveHelper.RemoveFolderPermission`: lists permissions, finds the ID
for the email, then deletes it. -/
def RemoveFolderPermission (env : Env) (folderID email : String) : Outcome Unit × List Event :=
  match env.getClient with
  | .error e => (.err ("gDriveHelper: failed to get authenticated client: " ++ e), [.auth])
  | .ok (conf, _tok) =>
    match env.driveNewService with
    | .error e => (.err ("gDriveHelper: unable to create drive service: " ++ e),
        [.auth, .client conf.isNone, .newService .drive])
    | .ok _ =>
      match env.permissionsList with
      | .error e => (.err ("gDriveHelper: unable to list permissions for folder: " ++ e),
          [.auth, .client conf.isNone, .newService .drive, .api .permissionsList])
      | .ok perms =>
        let permissionID := findPermissionID email perms
        if permissionID = "" then
          (.err ("gDriveHelper: no permission found for email " ++ email),
           [.auth, .client conf.isNone, .newService .drive, .api .permissionsList])
        else
          match env.permissionsDelete with
          | .error e => (.err ("gDriveHelper: unable to remove permission: " ++ e),
              [.auth, .client conf.isNone, .newService .drive, .api .permissionsList,
               .api .permissionsDelete])
          | .ok _ => (.ok (),
              [.auth, .client conf.isNone, .newService .drive, .api .permissionsList,
               .api .permissionsDelete])

/-- `gDriveHelper.RenameFolder`. -/
def RenameFolder (env : Env) (folderID newName : String) : Outcome Unit × List Event :=
  match env.getClient with
  | .error e => (.err ("gDriveHelper: failed to get authenticated client: " ++ e), [.auth])
  | .ok (conf, _tok) =>
    match env.driveNewService with
    | .error e => (.err ("gDriveHelper: unable to create drive service: " ++ e),
        [.auth, .client conf.isNone, .newService .drive])
    | .ok _ =>
      match env.filesUpdate with
      | .error e => (.err ("gDriveHelper: unable to rename folder: " ++ e),
          [.auth, .client conf.isNone, .newService .drive, .api .filesUpdate])
      | .ok _ => (.ok (),
          [.auth, .client conf.isNone, .newService .drive, .api .filesUpdate])

/-- `gDriveHelper.DeleteFileOrFolder`. -/
def DeleteFileOrFolder (env : Env) (folderFileID : String) : Outcome Unit × List Event :=
  match env.getClient with
  | .error e => (.err ("gDriveHelper: failed to get authenticated client: " ++ e), [.auth])
  | .ok (conf, _tok) =>
    match env.driveNewService with
    | .error e => (.err ("gDriveHelper: unable to create drive service: " ++ e),
        [.auth, .client conf.isNone, .newService .drive])
    | .ok _ =>
      match env.filesDelete with
      | .error e => (.err ("gDriveHelper: unable to delete folder or file: " ++ e),
          [.auth, .client conf.isNone, .newService .drive, .api .filesDelete])
      | .ok _ => (.ok (),
          [.auth, .client conf.isNone, .newService .drive, .api .filesDelete])

end gDriveHelper

/-! ### gMeetHelper -/

namespace gMeetHelper

/-- The event object `CreateCalendarEvent` builds: both datetimes are the
inputs converted to JST and formatted RFC3339, with `TimeZone` fixed to
`"Asia/Tokyo"`. -/
def buildCalendarEvent (summary location description : String) (startTime endTime : GoTime) :
    CalEvent :=
  { id := ""
    summary := summary
    location := location
    description := description
    start := { dateTime := formatRFC3339 (startTime.inLoc jstLocation), timeZone := "Asia/Tokyo" }
    endTime := { dateTime := formatRFC3339 (endTime.inLoc jstLocation), timeZone := "Asia/Tokyo" }
    attendees := []
    attachments := []
    conferenceRequestId := "unique-request-id"
    conferenceSolutionType := "hangoutsMeet" }

/-- `gMeetHelper.CreateCalendarEvent`. -/
def CreateCalendarEvent (env : Env) (summary location description : String)
    (startTime endTime : GoTime) : Outcome CalEvent × List Event :=
  match env.getClient with
  | .error e => (.err ("gMeetHelper: failed to get authenticated client: " ++ e), [.auth])
  | .ok (conf, _tok) =>
    match env.calendarNewService with
    | .error e => (.err ("gMeetHelper: unable to create calendar service: " ++ e),
        [.auth, .client conf.isNone, .newService .calendar])
    | .ok _ =>
      match env.loadLocationJST with
      | .error e => (.err ("gMeetHelper: unable to load Japanese timezone: " ++ e),
          [.auth, .client conf.isNone, .newService .calendar])
      | .ok _ =>
        let event := buildCalendarEvent summary location description startTime endTime
        match env.eventsInsert with
        | .error e => (.err ("gMeetHelper: unable to create calendar event: " ++ e),
            [.auth, .client conf.isNone, .newService .calendar, .api (.eventsInsert event)])
        | .ok createdEvent => (.ok createdEvent,
            [.auth, .client conf.isNone, .newService .calendar, .api (.eventsInsert event)])

/-- `gMeetHelper.AddAttendeesToEvent`: fetches the event, appends the
attendees, and updates it. -/
def AddAttendeesToEvent (env : Env) (eventID : String) (attendees : List String) :
    Outcome Unit × List Event :=
  match env.getClient with
  | .error e => (.err ("gMeetHelper: failed to get authenticated client: " ++ e), [.auth])
  | .ok (conf, _tok) =>
    match env.calendarNewService with
    | .error e => (.err ("gMeetHelper: unable to create calendar service: " ++ e),
        [.auth, .client conf.isNone, .newService .calendar])
    | .ok _ =>
      match env.eventsGet with
      | .error e => (.err ("gMeetHelper: unable to retrieve event: " ++ e),
          [.auth, .client conf.isNone, .newService .calendar, .api (.eventsGet eventID)])
      | .ok event =>
        let updated := { event with attendees := event.attendees ++ attendees }
        match env.eventsUpdate with
        | .error e => (.err ("gMeetHelper: unable to add attendees to event: " ++ e),
            [.auth, .client conf.isNone, .newService .calendar, .api (.eventsGet eventID),
             .api (.eventsUpdate updated)])
        | .ok _ => (.ok (),
            [.auth, .client conf.isNone, .newService .calendar, .api (.eventsGet eventID),
             .api (.eventsUpdate updated)])

/-- `gMeetHelper.AttachFileToEvent`: builds a Drive service, fetches the
file metadata, builds a Calendar service, fetches the event, appends the
attachment, and updates the event — three API calls in one invocation. -/
def AttachFileToEvent (env : Env) (eventID fileID : String) : Outcome Unit × List Event :=
  match env.getClient with
  | .error e => (.err ("gMeetHelper: failed to get authenticated client: " ++ e), [.auth])
  | .ok (conf, _tok) =>
    match env.driveNewService with
    | .error e => (.err ("gMeetHelper: unable to create Drive service: " ++ e),
        [.auth, .client conf.isNone, .newService .drive])
    | .ok _ =>
      match env.filesGet with
      | .error e => (.err ("gMeetHelper: unable to retrieve file metadata: " ++ e),
          [.auth, .client conf.isNone, .newService .drive, .api .filesGet])
      | .ok file =>
        match env.calendarNewService with
        | .error e => (.err ("gMeetHelper: unable to create Calendar service: " ++ e),
            [.auth, .client conf.isNone, .newService .drive, .api .filesGet,
             .newService .calendar])
        | .ok _ =>
          match env.eventsGet with
          | .error e => (.err ("gMeetHelper: unable to retrieve event: " ++ e),
              [.auth, .client conf.isNone, .newService .drive, .api .filesGet,
               .newService .calendar, .api (.eventsGet eventID)])
          | .ok event =>
            let attachment : EventAttachment :=
              { fileId := fileID, fileUrl := file.webViewLink,
                title := file.name, mimeType := file.mimeType }
            let updated := { event with attachments := event.attachments ++ [attachment] }
            match env.eventsUpdate with
            | .error e => (.err ("gMeetHelper: unable to attach file to event: " ++ e),
                [.auth, .client conf.isNone, .newService .drive, .api .filesGet,
                 .newService .calendar, .api (.eventsGet eventID), .api (.eventsUpdate updated)])
            | .ok _ => (.ok (),
                [.auth, .client conf.isNone, .newService .drive, .api .filesGet,
                 .newService .calendar, .api (.eventsGet eventID), .api (.eventsUpdate updated)])

end gMeetHelper

/-! ### The top-level driver (main.go)

`main` sequences the helper calls; every failure goes through
`log.Fatalf`, which terminates the program, so the trace simply stops at
the first failing call. Each step records the identifiers it is applied to.
-/

/-- One helper call made by `main`, with the identifiers it operates on. -/
inductive MainStep where
  | createDoc (title : String)
  | addText (docID text : String)
  | createFolder (name : String)
  | copyFileToFolder (fileID folderID : String)
  | createEvent (summary : String)
  | addAttendees (eventID : String) (attendees : List String)
  | attachFile (eventID fileID : String)
  | makeCopy (fileID newTitle : String)
  | exportDoc (fileID : String)
  | addTable (docID : String) (rows columns : Int)
  | addCellText (docID : String) (tableIndex rowIndex columnIndex : Int) (text : String)
  | setCellColor (docID : String) (tableIndex rowIndex columnIndex : Int)
  | getEndIndex (docID : String)
  | insertLink (docID text url : String) (index : Int)
  | addPermission (fileID email role : String)
  | removePermission (fileID email : String)
  | renameFolder (folderID newName : String)
  | deleteFile (fileID : String)
deriving DecidableEq, Repr

/-- The results `main`'s calls would return: identifiers for the calls whose
results are used later, and success/failure for the rest. -/
structure MainEnv where
  createDoc : Except String String
  addText : Except String Unit
  createFolder : Except String String
  copyFileToFolder : Except String String
  createEvent : Except String String
  addAttendees : Except String Unit
  attachFile : Except String Unit
  makeCopy : Except String String
  exportDoc : Except String String
  addTable : Except String Unit
  addCellText : Except String Unit
  setCellColor : Except String Unit
  getEndIndex : Except String Int
  insertLink : Except String Unit
  addPermission : Except String Unit
  removePermission : Except String Unit
  renameFolder : Except String Unit
  deleteFile : Except String Unit
deriving Repr

/-- The sequence of helper calls `main` performs, transcribed from main.go;
`log.Fatalf` aborts the program at the first failure. -/
def mainRun (env : MainEnv) : List MainStep :=
  [MainStep.createDoc "Sample Document"] ++
  match env.createDoc with
  | .error _ => []
  | .ok docID =>
    [MainStep.addText docID "Hello, World!"] ++
    match env.addText with
    | .error _ => []
    | .ok _ =>
      [MainStep.createFolder "Sample Folder"] ++
      match env.createFolder with
      | .error _ => []
      | .ok folderID =>
        [MainStep.copyFileToFolder docID folderID] ++
        match env.copyFileToFolder with
        | .error _ => []
        | .ok copiedID =>
          [MainStep.createEvent "Meeting"] ++
          match env.createEvent with
          | .error _ => []
          | .ok eventID =>
            [MainStep.addAttendees eventID ["user@gmail.com"]] ++
            match env.addAttendees with
            | .error _ => []
            | .ok _ =>
              [MainStep.attachFile eventID copiedID] ++
              match env.attachFile with
              | .error _ => []
              | .ok _ =>
                [MainStep.makeCopy docID "Copy of Document"] ++
                match env.makeCopy with
                | .error _ => []
                | .ok copied2ID =>
                  [MainStep.exportDoc docID] ++
                  match env.exportDoc with
                  | .error _ => []
                  | .ok _ =>
                    [MainStep.addTable copied2ID 3 3] ++
                    match env.addTable with
                    | .error _ => []
                    | .ok _ =>
                      [MainStep.addCellText copied2ID 0 1 1 "Cell Text"] ++
                      match env.addCellText with
                      | .error _ => []
                      | .ok _ =>
                        [MainStep.setCellColor copied2ID 0 1 1] ++
                        match env.setCellColor with
                        | .error _ => []
                        | .ok _ =>
                          [MainStep.getEndIndex copied2ID] ++
                          match env.getEndIndex with
                          | .error _ => []
                          | .ok endIndex =>
                            [MainStep.insertLink copied2ID
                              (gdocsHelper.GetDocumentURL docID)
                              (gdocsHelper.GetDocumentURL docID) (endIndex - 1)] ++
                            match env.insertLink with
                            | .error _ => []
                            | .ok _ =>
                              [MainStep.addPermission copied2ID "user@gmail.com" "reader"] ++
                              match env.addPermission with
                              | .error _ => []
                              | .ok _ =>
                                [MainStep.removePermission copied2ID "user@gmail.com"] ++
                                match env.removePermission with
                                | .error _ => []
                                | .ok _ =>
                                  [MainStep.renameFolder folderID "New folder name"] ++
                                  match env.renameFolder with
                                  | .error _ => []
                                  | .ok _ =>
                                    [MainStep.deleteFile docID] ++
                                    match env.deleteFile with
                                    | .error _ => []
                                    | .ok _ => []

/-! ### Event counting -/

/-- Is an event an API invocation? -/
def isApi : Event → Bool
  | .api _ => true
  | _ => false

/-- Is an event the `auth.GetClient` call? -/
def isAuth : Event → Bool
  | .auth => true
  | _ => false

/-- Is an event a `Documents.Get` fetch? -/
def isDocGet : Event → Bool
  | .api (.documentsGet _) => true
  | _ => false

/-- Is an event a `Documents.BatchUpdate` call? -/
def isBatchUpdate : Event → Bool
  | .api (.batchUpdate _ _) => true
  | _ => false

/-- Number of API invocations in a trace. -/
def apiCount (evs : List Event) : Nat := (evs.filter isApi).length

/-- Number of `auth.GetClient` calls in a trace. -/
def authCount (evs : List Event) : Nat := (evs.filter isAuth).length

/-- Number of `Documents.Get` fetches in a trace. -/
def docGetCount (evs : List Event) : Nat := (evs.filter isDocGet).length

/-! ### Characterization of the text-location scans (claim C1)

Per paragraph element, the value each scan would take from it (if any). -/

/-- Value `AddTextAfterLine` takes from one run: its `EndIndex`, when the
run is non-empty and trims to `lineContent`. -/
def lineRunVal (lineContent : String) (e : ParagraphElement) : Option Int :=
  match e.textRun with
  | some tr =>
    if tr.content ≠ "" && goTrimSpace tr.content = lineContent then some e.endIndex else none
  | none => none

/-- Value `AddTextAfterPatternInLine` takes from one run. -/
def patternRunVal (pattern : String) (e : ParagraphElement) : Option Int :=
  match e.textRun with
  | some tr =>
    if tr.content ≠ "" && goIndex tr.content pattern ≠ -1 then
      some (e.startIndex + goIndex tr.content pattern + goLen pattern)
    else none
  | none => none

/-- Range `AddLinkToText` takes from one run. -/
def linkRunVal (searchText : String) (e : ParagraphElement) : Option (Int × Int) :=
  match e.textRun with
  | some tr =>
    if tr.content ≠ "" && goIndex tr.content searchText ≠ -1 then
      some (e.startIndex + goIndex tr.content searchText,
            e.startIndex + goIndex tr.content searchText + goLen searchText)
    else none
  | none => none

/-- All paragraph elements of the body, in the order the linear scan visits
them. -/
def flatRuns (content : List StructuralElement) : List ParagraphElement :=
  content.flatMap (fun el =>
    match el.paragraph with
    | some p => p.elements
    | none => [])

/-- Modelled from the spec claim (C1): the offset resolved from the FIRST
matching text run encountered in the linear scan of the whole body. -/
def firstMatchAfterLine (lineContent : String) (content : List StructuralElement) : Option Int :=
  ((flatRuns content).filterMap (lineRunVal lineContent)).head?

/-- Modelled from the spec claim (C1), for `AddTextAfterPatternInLine`. -/
def firstMatchAfterPattern (pattern : String) (content : List StructuralElement) : Option Int :=
  ((flatRuns content).filterMap (patternRunVal pattern)).head?

/-- Modelled from the spec claim (C1), for `AddLinkToText`. -/
def firstMatchLinkRange (searchText : String) (content : List StructuralElement) :
    Option (Int × Int) :=
  ((flatRuns content).filterMap (linkRunVal searchText)).head?

/-- A fold that overwrites its accumulator with every produced value keeps
the LAST one. -/
theorem foldl_override {α β : Type} (g : α → Option β) (xs : List α) (init : β) :
    xs.foldl (fun acc el => (g el).getD acc) init
      = ((xs.filterMap g).getLast?).getD init := by
  induction xs generalizing init with
  | nil => rfl
  | cons x rest ih =>
    cases hg : g x with
    | none => simp only [List.foldl_cons, hg, Option.getD_none, List.filterMap_cons, ih]
    | some v =>
      simp only [List.foldl_cons, hg, Option.getD_some, List.filterMap_cons, ih,
        ← List.getLastD_eq_getLast?, List.getLastD_cons]

/-- The inner loop of `AddTextAfterLine` keeps the FIRST matching run of the
paragraph (its `break` leaves the inner loop). -/
theorem scanParagraphAfterLine_eq_first (lineContent : String) (elems : List ParagraphElement) :
    scanParagraphAfterLine lineContent elems
      = (elems.filterMap (lineRunVal lineContent)).head? := by
  induction elems with
  | nil => rfl
  | cons e rest ih =>
    cases htr : e.textRun with
    | none => simp [scanParagraphAfterLine, lineRunVal, htr, List.filterMap_cons, ih]
    | some tr =>
      simp only [scanParagraphAfterLine, lineRunVal, htr, List.filterMap_cons]
      split
      · simp
      · simpa [lineRunVal, htr] using ih

/-- The inner loop of `AddTextAfterPatternInLine` keeps the first matching
run of the paragraph. -/
theorem scanParagraphPattern_eq_first (pattern : String) (elems : List ParagraphElement) :
    scanParagraphPattern pattern elems
      = (elems.filterMap (patternRunVal pattern)).head? := by
  induction elems with
  | nil => rfl
  | cons e rest ih =>
    cases htr : e.textRun with
    | none => simp [scanParagraphPattern, patternRunVal, htr, List.filterMap_cons, ih]
    | some tr =>
      simp only [scanParagraphPattern, patternRunVal, htr, List.filterMap_cons]
      split
      · simp
      · simpa [patternRunVal, htr] using ih

/-- The inner loop of `AddLinkToText` keeps the first matching run of the
paragraph. -/
theorem scanParagraphLink_eq_first (searchText : String) (elems : List ParagraphElement) :
    scanParagraphLink searchText elems
      = (elems.filterMap (linkRunVal searchText)).head? := by
  induction elems with
  | nil => rfl
  | cons e rest ih =>
    cases htr : e.textRun with
    | none => simp [scanParagraphLink, linkRunVal, htr, List.filterMap_cons, ih]
    | some tr =>
      simp only [scanParagraphLink, linkRunVal, htr, List.filterMap_cons]
      split
      · simp
      · simpa [linkRunVal, htr] using ih

/-- Across structural elements, `AddTextAfterLine` keeps the LAST
paragraph's value. -/
theorem findInsertIndexAfterLine_eq_last (lineContent : String)
    (content : List StructuralElement) :
    findInsertIndexAfterLine lineContent content
      = ((content.filterMap (fun el =>
            el.paragraph.bind (fun p => scanParagraphAfterLine lineContent p.elements))).getLast?).getD
          (-1) := by
  have hb :
      (fun (acc : Int) (el : StructuralElement) =>
        match el.paragraph with
        | some p =>
          match scanParagraphAfterLine lineContent p.elements with
          | some i => i
          | none => acc
        | none => acc)
      = (fun (acc : Int) (el : StructuralElement) =>
        (el.paragraph.bind (fun p => scanParagraphAfterLine lineContent p.elements)).getD acc) := by
    funext acc el
    cases el.paragraph with
    | none => rfl
    | some p => cases h : scanParagraphAfterLine lineContent p.elements <;> simp [h]
  unfold findInsertIndexAfterLine
  rw [hb]
  exact foldl_override
    (fun el => el.paragraph.bind (fun p => scanParagraphAfterLine lineContent p.elements))
    content (-1)

/-- Across structural elements, `AddTextAfterPatternInLine` keeps the last
paragraph's value. -/
theorem findInsertIndexAfterPattern_eq_last (pattern : String)
    (content : List StructuralElement) :
    findInsertIndexAfterPattern pattern content
      = ((content.filterMap (fun el =>
            el.paragraph.bind (fun p => scanParagraphPattern pattern p.elements))).getLast?).getD
          (-1) := by
  have hb :
      (fun (acc : Int) (el : StructuralElement) =>
        match el.paragraph with
        | some p =>
          match scanParagraphPattern pattern p.elements with
          | some i => i
          | none => acc
        | none => acc)
      = (fun (acc : Int) (el : StructuralElement) =>
        (el.paragraph.bind (fun p => scanParagraphPattern pattern p.elements)).getD acc) := by
    funext acc el
    cases el.paragraph with
    | none => rfl
    | some p => cases h : scanParagraphPattern pattern p.elements <;> simp [h]
  unfold findInsertIndexAfterPattern
  rw [hb]
  exact foldl_override
    (fun el => el.paragraph.bind (fun p => scanParagraphPattern pattern p.elements))
    content (-1)

/-- Across structural elements, `AddLinkToText` keeps the last paragraph's
range. -/
theorem findLinkRange_eq_last (searchText : String) (content : List StructuralElement) :
    findLinkRange searchText content
      = ((content.filterMap (fun el =>
            el.paragraph.bind (fun p => scanParagraphLink searchText p.elements))).getLast?).getD
          (-1, -1) := by
  have hb :
      (fun (acc : Int × Int) (el : StructuralElement) =>
        match el.paragraph with
        | some p =>
          match scanParagraphLink searchText p.elements with
          | some r => r
          | none => acc
        | none => acc)
      = (fun (acc : Int × Int) (el : StructuralElement) =>
        (el.paragraph.bind (fun p => scanParagraphLink searchText p.elements)).getD acc) := by
    funext acc el
    cases el.paragraph with
    | none => rfl
    | some p => cases h : scanParagraphLink searchText p.elements <;> simp [h]
  unfold findLinkRange
  rw [hb]
  exact foldl_override
    (fun el => el.paragraph.bind (fun p => scanParagraphLink searchText p.elements))
    content (-1, -1)

/-! Concrete two-paragraph document on which the claimed first-match
semantics and the implemented semantics disagree. -/

/-- A run containing the line "a", at offsets 1..3. -/
def runA1 : ParagraphElement := { startIndex := 1, endIndex := 3, textRun := some { content := "a\n" } }

/-- A second run containing the line "a", at offsets 3..5. -/
def runA2 : ParagraphElement := { startIndex := 3, endIndex := 5, textRun := some { content := "a\n" } }

/-- A structural element holding one paragraph. -/
def paraOf (es : List ParagraphElement) : StructuralElement :=
  { startIndex := 0, endIndex := 0, paragraph := some { elements := es }, table := none }

/-- Body content with the searched text occurring in TWO paragraphs. -/
def twoParaContent : List StructuralElement := [paraOf [runA1], paraOf [runA2]]

/-- C1, counterexample: on a document whose body contains the searched line
(resp. pattern, search text) "a" in two different paragraphs, the offset
`AddTextAfterLine`, `AddTextAfterPatternInLine` and `AddLinkToText` resolve
comes from the run of the SECOND, later paragraph (5, 4, (3,4)), while the
first matching run of the linear scan gives 3, 2, (1,2): the claimed
first-match semantics fails — the Go `break` leaves only the inner loop and
later paragraphs overwrite the result. -/
theorem C1_first_match_counterexample :
    findInsertIndexAfterLine "a" twoParaContent = 5 ∧
      firstMatchAfterLine "a" twoParaContent = some 3 ∧
      findInsertIndexAfterPattern "a" twoParaContent = 4 ∧
      firstMatchAfterPattern "a" twoParaContent = some 2 ∧
      findLinkRange "a" twoParaContent = (3, 4) ∧
      firstMatchLinkRange "a" twoParaContent = some (1, 2) := by
  refine ⟨?_, ?_, ?_, ?_, ?_, ?_⟩ <;> rfl

/-- C1 (amended): the text-location-resolution logic of `AddTextAfterLine`,
`AddTextAfterPatternInLine` and `AddLinkToText` takes the FIRST matching
text run WITHIN each paragraph, but across paragraphs the LAST paragraph
containing a match wins: the resolved offset is the one contributed by the
last matching paragraph of the linear scan, not the first occurrence in the
document. -/
theorem C1_last_paragraph_first_run :
    (∀ lineContent elems,
      scanParagraphAfterLine lineContent elems
        = (elems.filterMap (lineRunVal lineContent)).head?) ∧
    (∀ lineContent content,
      findInsertIndexAfterLine lineContent content
        = ((content.filterMap (fun el =>
              el.paragraph.bind
                (fun p => scanParagraphAfterLine lineContent p.elements))).getLast?).getD (-1)) ∧
    (∀ pattern elems,
      scanParagraphPattern pattern elems
        = (elems.filterMap (patternRunVal pattern)).head?) ∧
    (∀ pattern content,
      findInsertIndexAfterPattern pattern content
        = ((content.filterMap (fun el =>
              el.paragraph.bind
                (fun p => scanParagraphPattern pattern p.elements))).getLast?).getD (-1)) ∧
    (∀ searchText elems,
      scanParagraphLink searchText elems
        = (elems.filterMap (linkRunVal searchText)).head?) ∧
    (∀ searchText content,
      findLinkRange searchText content
        = ((content.filterMap (fun el =>
              el.paragraph.bind
                (fun p => scanParagraphLink searchText p.elements))).getLast?).getD (-1, -1)) :=
  ⟨scanParagraphAfterLine_eq_first, findInsertIndexAfterLine_eq_last,
   scanParagraphPattern_eq_first, findInsertIndexAfterPattern_eq_last,
   scanParagraphLink_eq_first, findLinkRange_eq_last⟩

/-! ### Per-helper effect profiles (shared helper lemmas) -/

/-- Effect profile of `gdocsHelper.CreateGoogleDoc`: the trace starts with the auth call,
contains exactly one auth event and at most 1 API invocation(s); an auth
failure returns the wrapped error at once with no API call; a nil config
(service-account path) flows into the client construction unguarded. -/
theorem CreateGoogleDoc_profile :
    (∀ env (title : String), ((gdocsHelper.CreateGoogleDoc env title).2).head? = some Event.auth) ∧
    (∀ env (title : String), authCount (gdocsHelper.CreateGoogleDoc env title).2 = 1) ∧
    (∀ env (title : String), apiCount (gdocsHelper.CreateGoogleDoc env title).2 ≤ 1) ∧
    (∀ env (title : String) e, env.getClient = .error e →
      gdocsHelper.CreateGoogleDoc env title
        = (.err ("gdocsHelper: failed to get authenticated client: " ++ e), [Event.auth])) ∧
    (∀ env (title : String) tok, env.getClient = .ok (none, tok) →
      Event.client true ∈ (gdocsHelper.CreateGoogleDoc env title).2) := by
  refine ⟨fun env title => ?_, fun env title => ?_, fun env title => ?_,
    fun env title e h => ?_, fun env title tok h => ?_⟩
  · unfold gdocsHelper.CreateGoogleDoc
    (try dsimp only)
    (repeat' split) <;> rfl
  · unfold gdocsHelper.CreateGoogleDoc
    (try dsimp only)
    (repeat' split) <;> rfl
  · unfold gdocsHelper.CreateGoogleDoc
    (try dsimp only)
    (repeat' split) <;> simp [apiCount, isApi]
  · unfold gdocsHelper.CreateGoogleDoc
    rw [h]
  · unfold gdocsHelper.CreateGoogleDoc
    rw [h]
    (try dsimp only)
    (repeat' split) <;> simp_all

/-- Effect profile of `gdocsHelper.AddText`: the trace starts with the auth call,
contains exactly one auth event and at most 2 API invocation(s); an auth
failure returns the wrapped error at once with no API call; a nil config
(service-account path) flows into the client construction unguarded. -/
theorem AddText_profile :
    (∀ env (docID text : String), ((gdocsHelper.AddText env docID text).2).head? = some Event.auth) ∧
    (∀ env (docID text : String), authCount (gdocsHelper.AddText env docID text).2 = 1) ∧
    (∀ env (docID text : String), apiCount (gdocsHelper.AddText env docID text).2 ≤ 2) ∧
    (∀ env (docID text : String) e, env.getClient = .error e →
      gdocsHelper.AddText env docID text
        = (.err ("gdocsHelper: failed to get authenticated client: " ++ e), [Event.auth])) ∧
    (∀ env (docID text : String) tok, env.getClient = .ok (none, tok) →
      Event.client true ∈ (gdocsHelper.AddText env docID text).2) := by
  refine ⟨fun env docID text => ?_, fun env docID text => ?_, fun env docID text => ?_,
    fun env docID text e h => ?_, fun env docID text tok h => ?_⟩
  · unfold gdocsHelper.AddText
    (try dsimp only)
    (repeat' split) <;> rfl
  · unfold gdocsHelper.AddText
    (try dsimp only)
    (repeat' split) <;> rfl
  · unfold gdocsHelper.AddText
    (try dsimp only)
    (repeat' split) <;> simp [apiCount, isApi]
  · unfold gdocsHelper.AddText
    rw [h]
  · unfold gdocsHelper.AddText
    rw [h]
    (try dsimp only)
    (repeat' split) <;> simp_all

/-- Effect profile of `gdocsHelper.ReplaceText`: the trace starts with the auth call,
contains exactly one auth event and at most 1 API invocation(s); an auth
failure returns the wrapped error at once with no API call; a nil config
(service-account path) flows into the client construction unguarded. -/
theorem ReplaceText_profile :
    (∀ env (docID oldText newText : String), ((gdocsHelper.ReplaceText env docID oldText newText).2).head? = some Event.auth) ∧
    (∀ env (docID oldText newText : String), authCount (gdocsHelper.ReplaceText env docID oldText newText).2 = 1) ∧
    (∀ env (docID oldText newText : String), apiCount (gdocsHelper.ReplaceText env docID oldText newText).2 ≤ 1) ∧
    (∀ env (docID oldText newText : String) e, env.getClient = .error e →
      gdocsHelper.ReplaceText env docID oldText newText
        = (.err ("gdocsHelper: failed to get authenticated client: " ++ e), [Event.auth])) ∧
    (∀ env (docID oldText newText : String) tok, env.getClient = .ok (none, tok) →
      Event.client true ∈ (gdocsHelper.ReplaceText env docID oldText newText).2) := by
  refine ⟨fun env docID oldText newText => ?_, fun env docID oldText newText => ?_, fun env docID oldText newText => ?_,
    fun env docID oldText newText e h => ?_, fun env docID oldText newText tok h => ?_⟩
  · unfold gdocsHelper.ReplaceText
    (try dsimp only)
    (repeat' split) <;> rfl
  · unfold gdocsHelper.ReplaceText
    (try dsimp only)
    (repeat' split) <;> rfl
  · unfold gdocsHelper.ReplaceText
    (try dsimp only)
    (repeat' split) <;> simp [apiCount, isApi]
  · unfold gdocsHelper.ReplaceText
    rw [h]
  · unfold gdocsHelper.ReplaceText
    rw [h]
    (try dsimp only)
    (repeat' split) <;> simp_all

/-- Effect profile of `gdocsHelper.MakeCopyOfGoogleDoc`: the trace starts with the auth call,
contains exactly one auth event and at most 1 API invocation(s); an auth
failure returns the wrapped error at once with no API call; a nil config
(service-account path) flows into the client construction unguarded. -/
theorem MakeCopyOfGoogleDoc_profile :
    (∀ env (fileID newTitle : String), ((gdocsHelper.MakeCopyOfGoogleDoc env fileID newTitle).2).head? = some Event.auth) ∧
    (∀ env (fileID newTitle : String), authCount (gdocsHelper.MakeCopyOfGoogleDoc env fileID newTitle).2 = 1) ∧
    (∀ env (fileID newTitle : String), apiCount (gdocsHelper.MakeCopyOfGoogleDoc env fileID newTitle).2 ≤ 1) ∧
    (∀ env (fileID newTitle : String) e, env.getClient = .error e →
      gdocsHelper.MakeCopyOfGoogleDoc env fileID newTitle
        = (.err ("gdocsHelper: failed to get authenticated client: " ++ e), [Event.auth])) ∧
    (∀ env (fileID newTitle : String) tok, env.getClient = .ok (none, tok) →
      Event.client true ∈ (gdocsHelper.MakeCopyOfGoogleDoc env fileID newTitle).2) := by
  refine ⟨fun env fileID newTitle => ?_, fun env fileID newTitle => ?_, fun env fileID newTitle => ?_,
    fun env fileID newTitle e h => ?_, fun env fileID newTitle tok h => ?_⟩
  · unfold gdocsHelper.MakeCopyOfGoogleDoc
    (try dsimp only)
    (repeat' split) <;> rfl
  · unfold gdocsHelper.MakeCopyOfGoogleDoc
    (try dsimp only)
    (repeat' split) <;> rfl
  · unfold gdocsHelper.MakeCopyOfGoogleDoc
    (try dsimp only)
    (repeat' split) <;> simp [apiCount, isApi]
  · unfold gdocsHelper.MakeCopyOfGoogleDoc
    rw [h]
  · unfold gdocsHelper.MakeCopyOfGoogleDoc
    rw [h]
    (try dsimp only)
    (repeat' split) <;> simp_all

/-- Effect profile of `gdocsHelper.ExportGoogleDocAsText`: the trace starts with the auth call,
contains exactly one auth event and at most 1 API invocation(s); an auth
failure returns the wrapped error at once with no API call; a nil config
(service-account path) flows into the client construction unguarded. -/
theorem ExportGoogleDocAsText_profile :
    (∀ env (fileID : String), ((gdocsHelper.ExportGoogleDocAsText env fileID).2).head? = some Event.auth) ∧
    (∀ env (fileID : String), authCount (gdocsHelper.ExportGoogleDocAsText env fileID).2 = 1) ∧
    (∀ env (fileID : String), apiCount (gdocsHelper.ExportGoogleDocAsText env fileID).2 ≤ 1) ∧
    (∀ env (fileID : String) e, env.getClient = .error e →
      gdocsHelper.ExportGoogleDocAsText env fileID
        = (.err ("gdocsHelper: failed to get authenticated client: " ++ e), [Event.auth])) ∧
    (∀ env (fileID : String) tok, env.getClient = .ok (none, tok) →
      Event.client true ∈ (gdocsHelper.ExportGoogleDocAsText env fileID).2) := by
  refine ⟨fun env fileID => ?_, fun env fileID => ?_, fun env fileID => ?_,
    fun env fileID e h => ?_, fun env fileID tok h => ?_⟩
  · unfold gdocsHelper.ExportGoogleDocAsText
    (try dsimp only)
    (repeat' split) <;> rfl
  · unfold gdocsHelper.ExportGoogleDocAsText
    (try dsimp only)
    (repeat' split) <;> rfl
  · unfold gdocsHelper.ExportGoogleDocAsText
    (try dsimp only)
    (repeat' split) <;> simp [apiCount, isApi]
  · unfold gdocsHelper.ExportGoogleDocAsText
    rw [h]
  · unfold gdocsHelper.ExportGoogleDocAsText
    rw [h]
    (try dsimp only)
    (repeat' split) <;> simp_all

/-- Effect profile of `gdocsHelper.RenameGoogleDoc`: the trace starts with the auth call,
contains exactly one auth event and at most 1 API invocation(s); an auth
failure returns the wrapped error at once with no API call; a nil config
(service-account path) flows into the client construction unguarded. -/
theorem RenameGoogleDoc_profile :
    (∀ env (fileID newTitle : String), ((gdocsHelper.RenameGoogleDoc env fileID newTitle).2).head? = some Event.auth) ∧
    (∀ env (fileID newTitle : String), authCount (gdocsHelper.RenameGoogleDoc env fileID newTitle).2 = 1) ∧
    (∀ env (fileID newTitle : String), apiCount (gdocsHelper.RenameGoogleDoc env fileID newTitle).2 ≤ 1) ∧
    (∀ env (fileID newTitle : String) e, env.getClient = .error e →
      gdocsHelper.RenameGoogleDoc env fileID newTitle
        = (.err ("gdocsHelper: failed to get authenticated client: " ++ e), [Event.auth])) ∧
    (∀ env (fileID newTitle : String) tok, env.getClient = .ok (none, tok) →
      Event.client true ∈ (gdocsHelper.RenameGoogleDoc env fileID newTitle).2) := by
  refine ⟨fun env fileID newTitle => ?_, fun env fileID newTitle => ?_, fun env fileID newTitle => ?_,
    fun env fileID newTitle e h => ?_, fun env fileID newTitle tok h => ?_⟩
  · unfold gdocsHelper.RenameGoogleDoc
    (try dsimp only)
    (repeat' split) <;> rfl
  · unfold gdocsHelper.RenameGoogleDoc
    (try dsimp only)
    (repeat' split) <;> rfl
  · unfold gdocsHelper.RenameGoogleDoc
    (try dsimp only)
    (repeat' split) <;> simp [apiCount, isApi]
  · unfold gdocsHelper.RenameGoogleDoc
    rw [h]
  · unfold gdocsHelper.RenameGoogleDoc
    rw [h]
    (try dsimp only)
    (repeat' split) <;> simp_all

/-- Effect profile of `gdocsHelper.AddTextBetweenLines`: the trace starts with the auth call,
contains exactly one auth event and at most 2 API invocation(s); an auth
failure returns the wrapped error at once with no API call; a nil config
(service-account path) flows into the client construction unguarded. -/
theorem AddTextBetweenLines_profile :
    (∀ env (docID startLine endLine textToAdd : String), ((gdocsHelper.AddTextBetweenLines env docID startLine endLine textToAdd).2).head? = some Event.auth) ∧
    (∀ env (docID startLine endLine textToAdd : String), authCount (gdocsHelper.AddTextBetweenLines env docID startLine endLine textToAdd).2 = 1) ∧
    (∀ env (docID startLine endLine textToAdd : String), apiCount (gdocsHelper.AddTextBetweenLines env docID startLine endLine textToAdd).2 ≤ 2) ∧
    (∀ env (docID startLine endLine textToAdd : String) e, env.getClient = .error e →
      gdocsHelper.AddTextBetweenLines env docID startLine endLine textToAdd
        = (.err ("gdocsHelper: failed to get authenticated client: " ++ e), [Event.auth])) ∧
    (∀ env (docID startLine endLine textToAdd : String) tok, env.getClient = .ok (none, tok) →
      Event.client true ∈ (gdocsHelper.AddTextBetweenLines env docID startLine endLine textToAdd).2) := by
  refine ⟨fun env docID startLine endLine textToAdd => ?_, fun env docID startLine endLine textToAdd => ?_, fun env docID startLine endLine textToAdd => ?_,
    fun env docID startLine endLine textToAdd e h => ?_, fun env docID startLine endLine textToAdd tok h => ?_⟩
  · unfold gdocsHelper.AddTextBetweenLines
    (try dsimp only)
    (repeat' split) <;> rfl
  · unfold gdocsHelper.AddTextBetweenLines
    (try dsimp only)
    (repeat' split) <;> rfl
  · unfold gdocsHelper.AddTextBetweenLines
    (try dsimp only)
    (repeat' split) <;> simp [apiCount, isApi]
  · unfold gdocsHelper.AddTextBetweenLines
    rw [h]
  · unfold gdocsHelper.AddTextBetweenLines
    rw [h]
    (try dsimp only)
    (repeat' split) <;> simp_all

/-- Effect profile of `gdocsHelper.AddTextAfterLine`: the trace starts with the auth call,
contains exactly one auth event and at most 2 API invocation(s); an auth
failure returns the wrapped error at once with no API call; a nil config
(service-account path) flows into the client construction unguarded. -/
theorem AddTextAfterLine_profile :
    (∀ env (docID lineContent textToAdd : String), ((gdocsHelper.AddTextAfterLine env docID lineContent textToAdd).2).head? = some Event.auth) ∧
    (∀ env (docID lineContent textToAdd : String), authCount (gdocsHelper.AddTextAfterLine env docID lineContent textToAdd).2 = 1) ∧
    (∀ env (docID lineContent textToAdd : String), apiCount (gdocsHelper.AddTextAfterLine env docID lineContent textToAdd).2 ≤ 2) ∧
    (∀ env (docID lineContent textToAdd : String) e, env.getClient = .error e →
      gdocsHelper.AddTextAfterLine env docID lineContent textToAdd
        = (.err ("gdocsHelper: failed to get authenticated client: " ++ e), [Event.auth])) ∧
    (∀ env (docID lineContent textToAdd : String) tok, env.getClient = .ok (none, tok) →
      Event.client true ∈ (gdocsHelper.AddTextAfterLine env docID lineContent textToAdd).2) := by
  refine ⟨fun env docID lineContent textToAdd => ?_, fun env docID lineContent textToAdd => ?_, fun env docID lineContent textToAdd => ?_,
    fun env docID lineContent textToAdd e h => ?_, fun env docID lineContent textToAdd tok h => ?_⟩
  · unfold gdocsHelper.AddTextAfterLine
    (try dsimp only)
    (repeat' split) <;> rfl
  · unfold gdocsHelper.AddTextAfterLine
    (try dsimp only)
    (repeat' split) <;> rfl
  · unfold gdocsHelper.AddTextAfterLine
    (try dsimp only)
    (repeat' split) <;> simp [apiCount, isApi]
  · unfold gdocsHelper.AddTextAfterLine
    rw [h]
  · unfold gdocsHelper.AddTextAfterLine
    rw [h]
    (try dsimp only)
    (repeat' split) <;> simp_all

/-- Effect profile of `gdocsHelper.AddTextAfterPatternInLine`: the trace starts with the auth call,
contains exactly one auth event and at most 2 API invocation(s); an auth
failure returns the wrapped error at once with no API call; a nil config
(service-account path) flows into the client construction unguarded. -/
theorem AddTextAfterPatternInLine_profile :
    (∀ env (docID pattern textToAdd : String), ((gdocsHelper.AddTextAfterPatternInLine env docID pattern textToAdd).2).head? = some Event.auth) ∧
    (∀ env (docID pattern textToAdd : String), authCount (gdocsHelper.AddTextAfterPatternInLine env docID pattern textToAdd).2 = 1) ∧
    (∀ env (docID pattern textToAdd : String), apiCount (gdocsHelper.AddTextAfterPatternInLine env docID pattern textToAdd).2 ≤ 2) ∧
    (∀ env (docID pattern textToAdd : String) e, env.getClient = .error e →
      gdocsHelper.AddTextAfterPatternInLine env docID pattern textToAdd
        = (.err ("gdocsHelper: failed to get authenticated client: " ++ e), [Event.auth])) ∧
    (∀ env (docID pattern textToAdd : String) tok, env.getClient = .ok (none, tok) →
      Event.client true ∈ (gdocsHelper.AddTextAfterPatternInLine env docID pattern textToAdd).2) := by
  refine ⟨fun env docID pattern textToAdd => ?_, fun env docID pattern textToAdd => ?_, fun env docID pattern textToAdd => ?_,
    fun env docID pattern textToAdd e h => ?_, fun env docID pattern textToAdd tok h => ?_⟩
  · unfold gdocsHelper.AddTextAfterPatternInLine
    (try dsimp only)
    (repeat' split) <;> rfl
  · unfold gdocsHelper.AddTextAfterPatternInLine
    (try dsimp only)
    (repeat' split) <;> rfl
  · unfold gdocsHelper.AddTextAfterPatternInLine
    (try dsimp only)
    (repeat' split) <;> simp [apiCount, isApi]
  · unfold gdocsHelper.AddTextAfterPatternInLine
    rw [h]
  · unfold gdocsHelper.AddTextAfterPatternInLine
    rw [h]
    (try dsimp only)
    (repeat' split) <;> simp_all

/-- Effect profile of `gdocsHelper.AddTable`: the trace starts with the auth call,
contains exactly one auth event and at most 2 API invocation(s); an auth
failure returns the wrapped error at once with no API call; a nil config
(service-account path) flows into the client construction unguarded. -/
theorem AddTable_profile :
    (∀ env (docID : String) (rows columns : Int), ((gdocsHelper.AddTable env docID rows columns).2).head? = some Event.auth) ∧
    (∀ env (docID : String) (rows columns : Int), authCount (gdocsHelper.AddTable env docID rows columns).2 = 1) ∧
    (∀ env (docID : String) (rows columns : Int), apiCount (gdocsHelper.AddTable env docID rows columns).2 ≤ 2) ∧
    (∀ env (docID : String) (rows columns : Int) e, env.getClient = .error e →
      gdocsHelper.AddTable env docID rows columns
        = (.err ("gdocsHelper: failed to get authenticated client: " ++ e), [Event.auth])) ∧
    (∀ env (docID : String) (rows columns : Int) tok, env.getClient = .ok (none, tok) →
      Event.client true ∈ (gdocsHelper.AddTable env docID rows columns).2) := by
  refine ⟨fun env docID rows columns => ?_, fun env docID rows columns => ?_, fun env docID rows columns => ?_,
    fun env docID rows columns e h => ?_, fun env docID rows columns tok h => ?_⟩
  · unfold gdocsHelper.AddTable
    (try dsimp only)
    (repeat' split) <;> rfl
  · unfold gdocsHelper.AddTable
    (try dsimp only)
    (repeat' split) <;> rfl
  · unfold gdocsHelper.AddTable
    (try dsimp only)
    (repeat' split) <;> simp [apiCount, isApi]
  · unfold gdocsHelper.AddTable
    rw [h]
  · unfold gdocsHelper.AddTable
    rw [h]
    (try dsimp only)
    (repeat' split) <;> simp_all

/-- Effect profile of `gdocsHelper.AddTextToTableCell`: the trace starts with the auth call,
contains exactly one auth event and at most 2 API invocation(s); an auth
failure returns the wrapped error at once with no API call; a nil config
(service-account path) flows into the client construction unguarded. -/
theorem AddTextToTableCell_profile :
    (∀ env (docID : String) (tableIndex rowIndex columnIndex : Int) (text : String), ((gdocsHelper.AddTextToTableCell env docID tableIndex rowIndex columnIndex text).2).head? = some Event.auth) ∧
    (∀ env (docID : String) (tableIndex rowIndex columnIndex : Int) (text : String), authCount (gdocsHelper.AddTextToTableCell env docID tableIndex rowIndex columnIndex text).2 = 1) ∧
    (∀ env (docID : String) (tableIndex rowIndex columnIndex : Int) (text : String), apiCount (gdocsHelper.AddTextToTableCell env docID tableIndex rowIndex columnIndex text).2 ≤ 2) ∧
    (∀ env (docID : String) (tableIndex rowIndex columnIndex : Int) (text : String) e, env.getClient = .error e →
      gdocsHelper.AddTextToTableCell env docID tableIndex rowIndex columnIndex text
        = (.err ("gdocsHelper: failed to get authenticated client: " ++ e), [Event.auth])) ∧
    (∀ env (docID : String) (tableIndex rowIndex columnIndex : Int) (text : String) tok, env.getClient = .ok (none, tok) →
      Event.client true ∈ (gdocsHelper.AddTextToTableCell env docID tableIndex rowIndex columnIndex text).2) := by
  refine ⟨fun env docID tableIndex rowIndex columnIndex text => ?_, fun env docID tableIndex rowIndex columnIndex text => ?_, fun env docID tableIndex rowIndex columnIndex text => ?_,
    fun env docID tableIndex rowIndex columnIndex text e h => ?_, fun env docID tableIndex rowIndex columnIndex text tok h => ?_⟩
  · unfold gdocsHelper.AddTextToTableCell
    (try dsimp only)
    (repeat' split) <;> rfl
  · unfold gdocsHelper.AddTextToTableCell
    (try dsimp only)
    (repeat' split) <;> rfl
  · unfold gdocsHelper.AddTextToTableCell
    (try dsimp only)
    (repeat' split) <;> simp [apiCount, isApi]
  · unfold gdocsHelper.AddTextToTableCell
    rw [h]
  · unfold gdocsHelper.AddTextToTableCell
    rw [h]
    (try dsimp only)
    (repeat' split) <;> simp_all

/-- Effect profile of `gdocsHelper.AddLinkToText`: the trace starts with the auth call,
contains exactly one auth event and at most 2 API invocation(s); an auth
failure returns the wrapped error at once with no API call; a nil config
(service-account path) flows into the client construction unguarded. -/
theorem AddLinkToText_profile :
    (∀ env (docID searchText url : String), ((gdocsHelper.AddLinkToText env docID searchText url).2).head? = some Event.auth) ∧
    (∀ env (docID searchText url : String), authCount (gdocsHelper.AddLinkToText env docID searchText url).2 = 1) ∧
    (∀ env (docID searchText url : String), apiCount (gdocsHelper.AddLinkToText env docID searchText url).2 ≤ 2) ∧
    (∀ env (docID searchText url : String) e, env.getClient = .error e →
      gdocsHelper.AddLinkToText env docID searchText url
        = (.err ("gdocsHelper: failed to get authenticated client: " ++ e), [Event.auth])) ∧
    (∀ env (docID searchText url : String) tok, env.getClient = .ok (none, tok) →
      Event.client true ∈ (gdocsHelper.AddLinkToText env docID searchText url).2) := by
  refine ⟨fun env docID searchText url => ?_, fun env docID searchText url => ?_, fun env docID searchText url => ?_,
    fun env docID searchText url e h => ?_, fun env docID searchText url tok h => ?_⟩
  · unfold gdocsHelper.AddLinkToText
    (try dsimp only)
    (repeat' split) <;> rfl
  · unfold gdocsHelper.AddLinkToText
    (try dsimp only)
    (repeat' split) <;> rfl
  · unfold gdocsHelper.AddLinkToText
    (try dsimp only)
    (repeat' split) <;> simp [apiCount, isApi]
  · unfold gdocsHelper.AddLinkToText
    rw [h]
  · unfold gdocsHelper.AddLinkToText
    rw [h]
    (try dsimp only)
    (repeat' split) <;> simp_all

/-- Effect profile of `gdocsHelper.ReplaceMultipleTexts`: the trace starts with the auth call,
contains exactly one auth event and at most 1 API invocation(s); an auth
failure returns the wrapped error at once with no API call; a nil config
(service-account path) flows into the client construction unguarded. -/
theorem ReplaceMultipleTexts_profile :
    (∀ env (docID : String) (replacements : List (String × String)), ((gdocsHelper.ReplaceMultipleTexts env docID replacements).2).head? = some Event.auth) ∧
    (∀ env (docID : String) (replacements : List (String × String)), authCount (gdocsHelper.ReplaceMultipleTexts env docID replacements).2 = 1) ∧
    (∀ env (docID : String) (replacements : List (String × String)), apiCount (gdocsHelper.ReplaceMultipleTexts env docID replacements).2 ≤ 1) ∧
    (∀ env (docID : String) (replacements : List (String × String)) e, env.getClient = .error e →
      gdocsHelper.ReplaceMultipleTexts env docID replacements
        = (.err ("gdocsHelper: failed to get authenticated client: " ++ e), [Event.auth])) ∧
    (∀ env (docID : String) (replacements : List (String × String)) tok, env.getClient = .ok (none, tok) →
      Event.client true ∈ (gdocsHelper.ReplaceMultipleTexts env docID replacements).2) := by
  refine ⟨fun env docID replacements => ?_, fun env docID replacements => ?_, fun env docID replacements => ?_,
    fun env docID replacements e h => ?_, fun env docID replacements tok h => ?_⟩
  · unfold gdocsHelper.ReplaceMultipleTexts
    (try dsimp only)
    (repeat' split) <;> rfl
  · unfold gdocsHelper.ReplaceMultipleTexts
    (try dsimp only)
    (repeat' split) <;> rfl
  · unfold gdocsHelper.ReplaceMultipleTexts
    (try dsimp only)
    (repeat' split) <;> simp [apiCount, isApi]
  · unfold gdocsHelper.ReplaceMultipleTexts
    rw [h]
  · unfold gdocsHelper.ReplaceMultipleTexts
    rw [h]
    (try dsimp only)
    (repeat' split) <;> simp_all

/-- Effect profile of `gdocsHelper.SetColorToTableCell`: the trace starts with the auth call,
contains exactly one auth event and at most 2 API invocation(s); an auth
failure returns the wrapped error at once with no API call; a nil config
(service-account path) flows into the client construction unguarded. -/
theorem SetColorToTableCell_profile :
    (∀ env (docID : String) (tableIndex rowIndex columnIndex : Int), ((gdocsHelper.SetColorToTableCell env docID tableIndex rowIndex columnIndex).2).head? = some Event.auth) ∧
    (∀ env (docID : String) (tableIndex rowIndex columnIndex : Int), authCount (gdocsHelper.SetColorToTableCell env docID tableIndex rowIndex columnIndex).2 = 1) ∧
    (∀ env (docID : String) (tableIndex rowIndex columnIndex : Int), apiCount (gdocsHelper.SetColorToTableCell env docID tableIndex rowIndex columnIndex).2 ≤ 2) ∧
    (∀ env (docID : String) (tableIndex rowIndex columnIndex : Int) e, env.getClient = .error e →
      gdocsHelper.SetColorToTableCell env docID tableIndex rowIndex columnIndex
        = (.err ("gdocsHelper: failed to get authenticated client: " ++ e), [Event.auth])) ∧
    (∀ env (docID : String) (tableIndex rowIndex columnIndex : Int) tok, env.getClient = .ok (none, tok) →
      Event.client true ∈ (gdocsHelper.SetColorToTableCell env docID tableIndex rowIndex columnIndex).2) := by
  refine ⟨fun env docID tableIndex rowIndex columnIndex => ?_, fun env docID tableIndex rowIndex columnIndex => ?_, fun env docID tableIndex rowIndex columnIndex => ?_,
    fun env docID tableIndex rowIndex columnIndex e h => ?_, fun env docID tableIndex rowIndex columnIndex tok h => ?_⟩
  · unfold gdocsHelper.SetColorToTableCell
    (try dsimp only)
    (repeat' split) <;> rfl
  · unfold gdocsHelper.SetColorToTableCell
    (try dsimp only)
    (repeat' split) <;> rfl
  · unfold gdocsHelper.SetColorToTableCell
    (try dsimp only)
    (repeat' split) <;> simp [apiCount, isApi]
  · unfold gdocsHelper.SetColorToTableCell
    rw [h]
  · unfold gdocsHelper.SetColorToTableCell
    rw [h]
    (try dsimp only)
    (repeat' split) <;> simp_all

/-- Effect profile of `gdocsHelper.AddFilePermission`: the trace starts with the auth call,
contains exactly one auth event and at most 1 API invocation(s); an auth
failure returns the wrapped error at once with no API call; a nil config
(service-account path) flows into the client construction unguarded. -/
theorem AddFilePermission_profile :
    (∀ env (fileID email role : String), ((gdocsHelper.AddFilePermission env fileID email role).2).head? = some Event.auth) ∧
    (∀ env (fileID email role : String), authCount (gdocsHelper.AddFilePermission env fileID email role).2 = 1) ∧
    (∀ env (fileID email role : String), apiCount (gdocsHelper.AddFilePermission env fileID email role).2 ≤ 1) ∧
    (∀ env (fileID email role : String) e, env.getClient = .error e →
      gdocsHelper.AddFilePermission env fileID email role
        = (.err ("gdocsHelper: failed to get authenticated client: " ++ e), [Event.auth])) ∧
    (∀ env (fileID email role : String) tok, env.getClient = .ok (none, tok) →
      Event.client true ∈ (gdocsHelper.AddFilePermission env fileID email role).2) := by
  refine ⟨fun env fileID email role => ?_, fun env fileID email role => ?_, fun env fileID email role => ?_,
    fun env fileID email role e h => ?_, fun env fileID email role tok h => ?_⟩
  · unfold gdocsHelper.AddFilePermission
    (try dsimp only)
    (repeat' split) <;> rfl
  · unfold gdocsHelper.AddFilePermission
    (try dsimp only)
    (repeat' split) <;> rfl
  · unfold gdocsHelper.AddFilePermission
    (try dsimp only)
    (repeat' split) <;> simp [apiCount, isApi]
  · unfold gdocsHelper.AddFilePermission
    rw [h]
  · unfold gdocsHelper.AddFilePermission
    rw [h]
    (try dsimp only)
    (repeat' split) <;> simp_all

/-- Effect profile of `gdocsHelper.InsertTextWithLinkAndRender`: the trace starts with the auth call,
contains exactly one auth event and at most 1 API invocation(s); an auth
failure returns the wrapped error at once with no API call; a nil config
(service-account path) flows into the client construction unguarded. -/
theorem InsertTextWithLinkAndRender_profile :
    (∀ env (docID text url : String) (locationIndex : Int), ((gdocsHelper.InsertTextWithLinkAndRender env docID text url locationIndex).2).head? = some Event.auth) ∧
    (∀ env (docID text url : String) (locationIndex : Int), authCount (gdocsHelper.InsertTextWithLinkAndRender env docID text url locationIndex).2 = 1) ∧
    (∀ env (docID text url : String) (locationIndex : Int), apiCount (gdocsHelper.InsertTextWithLinkAndRender env docID text url locationIndex).2 ≤ 1) ∧
    (∀ env (docID text url : String) (locationIndex : Int) e, env.getClient = .error e →
      gdocsHelper.InsertTextWithLinkAndRender env docID text url locationIndex
        = (.err ("gdocsHelper: failed to get authenticated client: " ++ e), [Event.auth])) ∧
    (∀ env (docID text url : String) (locationIndex : Int) tok, env.getClient = .ok (none, tok) →
      Event.client true ∈ (gdocsHelper.InsertTextWithLinkAndRender env docID text url locationIndex).2) := by
  refine ⟨fun env docID text url locationIndex => ?_, fun env docID text url locationIndex => ?_, fun env docID text url locationIndex => ?_,
    fun env docID text url locationIndex e h => ?_, fun env docID text url locationIndex tok h => ?_⟩
  · unfold gdocsHelper.InsertTextWithLinkAndRender
    (try dsimp only)
    (repeat' split) <;> rfl
  · unfold gdocsHelper.InsertTextWithLinkAndRender
    (try dsimp only)
    (repeat' split) <;> rfl
  · unfold gdocsHelper.InsertTextWithLinkAndRender
    (try dsimp only)
    (repeat' split) <;> simp [apiCount, isApi]
  · unfold gdocsHelper.InsertTextWithLinkAndRender
    rw [h]
  · unfold gdocsHelper.InsertTextWithLinkAndRender
    rw [h]
    (try dsimp only)
    (repeat' split) <;> simp_all

/-- Effect profile of `gdocsHelper.GetDocumentEndIndex`: the trace starts with the auth call,
contains exactly one auth event and at most 1 API invocation(s); an auth
failure returns the wrapped error at once with no API call; a nil config
(service-account path) flows into the client construction unguarded. -/
theorem GetDocumentEndIndex_profile :
    (∀ env (docID : String), ((gdocsHelper.GetDocumentEndIndex env docID).2).head? = some Event.auth) ∧
    (∀ env (docID : String), authCount (gdocsHelper.GetDocumentEndIndex env docID).2 = 1) ∧
    (∀ env (docID : String), apiCount (gdocsHelper.GetDocumentEndIndex env docID).2 ≤ 1) ∧
    (∀ env (docID : String) e, env.getClient = .error e →
      gdocsHelper.GetDocumentEndIndex env docID
        = (.err ("gdocsHelper: failed to get authenticated client: " ++ e), [Event.auth])) ∧
    (∀ env (docID : String) tok, env.getClient = .ok (none, tok) →
      Event.client true ∈ (gdocsHelper.GetDocumentEndIndex env docID).2) := by
  refine ⟨fun env docID => ?_, fun env docID => ?_, fun env docID => ?_,
    fun env docID e h => ?_, fun env docID tok h => ?_⟩
  · unfold gdocsHelper.GetDocumentEndIndex
    (try dsimp only)
    (repeat' split) <;> rfl
  · unfold gdocsHelper.GetDocumentEndIndex
    (try dsimp only)
    (repeat' split) <;> rfl
  · unfold gdocsHelper.GetDocumentEndIndex
    (try dsimp only)
    (repeat' split) <;> simp [apiCount, isApi]
  · unfold gdocsHelper.GetDocumentEndIndex
    rw [h]
  · unfold gdocsHelper.GetDocumentEndIndex
    rw [h]
    (try dsimp only)
    (repeat' split) <;> simp_all

/-- Effect profile of `gDriveHelper.CreateFolder`: the trace starts with the auth call,
contains exactly one auth event and at most 1 API invocation(s); an auth
failure returns the wrapped error at once with no API call; a nil config
(service-account path) flows into the client construction unguarded. -/
theorem CreateFolder_profile :
    (∀ env (name : String), ((gDriveHelper.CreateFolder env name).2).head? = some Event.auth) ∧
    (∀ env (name : String), authCount (gDriveHelper.CreateFolder env name).2 = 1) ∧
    (∀ env (name : String), apiCount (gDriveHelper.CreateFolder env name).2 ≤ 1) ∧
    (∀ env (name : String) e, env.getClient = .error e →
      gDriveHelper.CreateFolder env name
        = (.err ("gDriveHelper: failed to get authenticated client: " ++ e), [Event.auth])) ∧
    (∀ env (name : String) tok, env.getClient = .ok (none, tok) →
      Event.client true ∈ (gDriveHelper.CreateFolder env name).2) := by
  refine ⟨fun env name => ?_, fun env name => ?_, fun env name => ?_,
    fun env name e h => ?_, fun env name tok h => ?_⟩
  · unfold gDriveHelper.CreateFolder
    (try dsimp only)
    (repeat' split) <;> rfl
  · unfold gDriveHelper.CreateFolder
    (try dsimp only)
    (repeat' split) <;> rfl
  · unfold gDriveHelper.CreateFolder
    (try dsimp only)
    (repeat' split) <;> simp [apiCount, isApi]
  · unfold gDriveHelper.CreateFolder
    rw [h]
  · unfold gDriveHelper.CreateFolder
    rw [h]
    (try dsimp only)
    (repeat' split) <;> simp_all

/-- Effect profile of `gDriveHelper.AddFolderPermission`: the trace starts with the auth call,
contains exactly one auth event and at most 1 API invocation(s); an auth
failure returns the wrapped error at once with no API call; a nil config
(service-account path) flows into the client construction unguarded. -/
theorem AddFolderPermission_profile :
    (∀ env (folderID email role : String), ((gDriveHelper.AddFolderPermission env folderID email role).2).head? = some Event.auth) ∧
    (∀ env (folderID email role : String), authCount (gDriveHelper.AddFolderPermission env folderID email role).2 = 1) ∧
    (∀ env (folderID email role : String), apiCount (gDriveHelper.AddFolderPermission env folderID email role).2 ≤ 1) ∧
    (∀ env (folderID email role : String) e, env.getClient = .error e →
      gDriveHelper.AddFolderPermission env folderID email role
        = (.err ("gDriveHelper: failed to get authenticated client: " ++ e), [Event.auth])) ∧
    (∀ env (folderID email role : String) tok, env.getClient = .ok (none, tok) →
      Event.client true ∈ (gDriveHelper.AddFolderPermission env folderID email role).2) := by
  refine ⟨fun env folderID email role => ?_, fun env folderID email role => ?_, fun env folderID email role => ?_,
    fun env folderID email role e h => ?_, fun env folderID email role tok h => ?_⟩
  · unfold gDriveHelper.AddFolderPermission
    (try dsimp only)
    (repeat' split) <;> rfl
  · unfold gDriveHelper.AddFolderPermission
    (try dsimp only)
    (repeat' split) <;> rfl
  · unfold gDriveHelper.AddFolderPermission
    (try dsimp only)
    (repeat' split) <;> simp [apiCount, isApi]
  · unfold gDriveHelper.AddFolderPermission
    rw [h]
  · unfold gDriveHelper.AddFolderPermission
    rw [h]
    (try dsimp only)
    (repeat' split) <;> simp_all

/-- Effect profile of `gDriveHelper.CopyFileToFolder`: the trace starts with the auth call,
contains exactly one auth event and at most 1 API invocation(s); an auth
failure returns the wrapped error at once with no API call; a nil config
(service-account path) flows into the client construction unguarded. -/
theorem CopyFileToFolder_profile :
    (∀ env (fileID folderID : String), ((gDriveHelper.CopyFileToFolder env fileID folderID).2).head? = some Event.auth) ∧
    (∀ env (fileID folderID : String), authCount (gDriveHelper.CopyFileToFolder env fileID folderID).2 = 1) ∧
    (∀ env (fileID folderID : String), apiCount (gDriveHelper.CopyFileToFolder env fileID folderID).2 ≤ 1) ∧
    (∀ env (fileID folderID : String) e, env.getClient = .error e →
      gDriveHelper.CopyFileToFolder env fileID folderID
        = (.err ("gDriveHelper: failed to get authenticated client: " ++ e), [Event.auth])) ∧
    (∀ env (fileID folderID : String) tok, env.getClient = .ok (none, tok) →
      Event.client true ∈ (gDriveHelper.CopyFileToFolder env fileID folderID).2) := by
  refine ⟨fun env fileID folderID => ?_, fun env fileID folderID => ?_, fun env fileID folderID => ?_,
    fun env fileID folderID e h => ?_, fun env fileID folderID tok h => ?_⟩
  · unfold gDriveHelper.CopyFileToFolder
    (try dsimp only)
    (repeat' split) <;> rfl
  · unfold gDriveHelper.CopyFileToFolder
    (try dsimp only)
    (repeat' split) <;> rfl
  · unfold gDriveHelper.CopyFileToFolder
    (try dsimp only)
    (repeat' split) <;> simp [apiCount, isApi]
  · unfold gDriveHelper.CopyFileToFolder
    rw [h]
  · unfold gDriveHelper.CopyFileToFolder
    rw [h]
    (try dsimp only)
    (repeat' split) <;> simp_all

/-- Effect profile of `gDriveHelper.RemoveFolderPermission`: the trace starts with the auth call,
contains exactly one auth event and at most 2 API invocation(s); an auth
failure returns the wrapped error at once with no API call; a nil config
(service-account path) flows into the client construction unguarded. -/
theorem RemoveFolderPermission_profile :
    (∀ env (folderID email : String), ((gDriveHelper.RemoveFolderPermission env folderID email).2).head? = some Event.auth) ∧
    (∀ env (folderID email : String), authCount (gDriveHelper.RemoveFolderPermission env folderID email).2 = 1) ∧
    (∀ env (folderID email : String), apiCount (gDriveHelper.RemoveFolderPermission env folderID email).2 ≤ 2) ∧
    (∀ env (folderID email : String) e, env.getClient = .error e →
      gDriveHelper.RemoveFolderPermission env folderID email
        = (.err ("gDriveHelper: failed to get authenticated client: " ++ e), [Event.auth])) ∧
    (∀ env (folderID email : String) tok, env.getClient = .ok (none, tok) →
      Event.client true ∈ (gDriveHelper.RemoveFolderPermission env folderID email).2) := by
  refine ⟨fun env folderID email => ?_, fun env folderID email => ?_, fun env folderID email => ?_,
    fun env folderID email e h => ?_, fun env folderID email tok h => ?_⟩
  · unfold gDriveHelper.RemoveFolderPermission
    (try dsimp only)
    (repeat' split) <;> rfl
  · unfold gDriveHelper.RemoveFolderPermission
    (try dsimp only)
    (repeat' split) <;> rfl
  · unfold gDriveHelper.RemoveFolderPermission
    (try dsimp only)
    (repeat' split) <;> simp [apiCount, isApi]
  · unfold gDriveHelper.RemoveFolderPermission
    rw [h]
  · unfold gDriveHelper.RemoveFolderPermission
    rw [h]
    (try dsimp only)
    (repeat' split) <;> simp_all

/-- Effect profile of `gDriveHelper.RenameFolder`: the trace starts with the auth call,
contains exactly one auth event and at most 1 API invocation(s); an auth
failure returns the wrapped error at once with no API call; a nil config
(service-account path) flows into the client construction unguarded. -/
theorem RenameFolder_profile :
    (∀ env (folderID newName : String), ((gDriveHelper.RenameFolder env folderID newName).2).head? = some Event.auth) ∧
    (∀ env (folderID newName : String), authCount (gDriveHelper.RenameFolder env folderID newName).2 = 1) ∧
    (∀ env (folderID newName : String), apiCount (gDriveHelper.RenameFolder env folderID newName).2 ≤ 1) ∧
    (∀ env (folderID newName : String) e, env.getClient = .error e →
      gDriveHelper.RenameFolder env folderID newName
        = (.err ("gDriveHelper: failed to get authenticated client: " ++ e), [Event.auth])) ∧
    (∀ env (folderID newName : String) tok, env.getClient = .ok (none, tok) →
      Event.client true ∈ (gDriveHelper.RenameFolder env folderID newName).2) := by
  refine ⟨fun env folderID newName => ?_, fun env folderID newName => ?_, fun env folderID newName => ?_,
    fun env folderID newName e h => ?_, fun env folderID newName tok h => ?_⟩
  · unfold gDriveHelper.RenameFolder
    (try dsimp only)
    (repeat' split) <;> rfl
  · unfold gDriveHelper.RenameFolder
    (try dsimp only)
    (repeat' split) <;> rfl
  · unfold gDriveHelper.RenameFolder
    (try dsimp only)
    (repeat' split) <;> simp [apiCount, isApi]
  · unfold gDriveHelper.RenameFolder
    rw [h]
  · unfold gDriveHelper.RenameFolder
    rw [h]
    (try dsimp only)
    (repeat' split) <;> simp_all

/-- Effect profile of `gDriveHelper.DeleteFileOrFolder`: the trace starts with the auth call,
contains exactly one auth event and at most 1 API invocation(s); an auth
failure returns the wrapped error at once with no API call; a nil config
(service-account path) flows into the client construction unguarded. -/
theorem DeleteFileOrFolder_profile :
    (∀ env (folderFileID : String), ((gDriveHelper.DeleteFileOrFolder env folderFileID).2).head? = some Event.auth) ∧
    (∀ env (folderFileID : String), authCount (gDriveHelper.DeleteFileOrFolder env folderFileID).2 = 1) ∧
    (∀ env (folderFileID : String), apiCount (gDriveHelper.DeleteFileOrFolder env folderFileID).2 ≤ 1) ∧
    (∀ env (folderFileID : String) e, env.getClient = .error e →
      gDriveHelper.DeleteFileOrFolder env folderFileID
        = (.err ("gDriveHelper: failed to get authenticated client: " ++ e), [Event.auth])) ∧
    (∀ env (folderFileID : String) tok, env.getClient = .ok (none, tok) →
      Event.client true ∈ (gDriveHelper.DeleteFileOrFolder env folderFileID).2) := by
  refine ⟨fun env folderFileID => ?_, fun env folderFileID => ?_, fun env folderFileID => ?_,
    fun env folderFileID e h => ?_, fun env folderFileID tok h => ?_⟩
  · unfold gDriveHelper.DeleteFileOrFolder
    (try dsimp only)
    (repeat' split) <;> rfl
  · unfold gDriveHelper.DeleteFileOrFolder
    (try dsimp only)
    (repeat' split) <;> rfl
  · unfold gDriveHelper.DeleteFileOrFolder
    (try dsimp only)
    (repeat' split) <;> simp [apiCount, isApi]
  · unfold gDriveHelper.DeleteFileOrFolder
    rw [h]
  · unfold gDriveHelper.DeleteFileOrFolder
    rw [h]
    (try dsimp only)
    (repeat' split) <;> simp_all

/-- Effect profile of `gMeetHelper.CreateCalendarEvent`: the trace starts with the auth call,
contains exactly one auth event and at most 1 API invocation(s); an auth
failure returns the wrapped error at once with no API call; a nil config
(service-account path) flows into the client construction unguarded. -/
theorem CreateCalendarEvent_profile :
    (∀ env (summary location description : String) (startTime endTime : GoTime), ((gMeetHelper.CreateCalendarEvent env summary location description startTime endTime).2).head? = some Event.auth) ∧
    (∀ env (summary location description : String) (startTime endTime : GoTime), authCount (gMeetHelper.CreateCalendarEvent env summary location description startTime endTime).2 = 1) ∧
    (∀ env (summary location description : String) (startTime endTime : GoTime), apiCount (gMeetHelper.CreateCalendarEvent env summary location description startTime endTime).2 ≤ 1) ∧
    (∀ env (summary location description : String) (startTime endTime : GoTime) e, env.getClient = .error e →
      gMeetHelper.CreateCalendarEvent env summary location description startTime endTime
        = (.err ("gMeetHelper: failed to get authenticated client: " ++ e), [Event.auth])) ∧
    (∀ env (summary location description : String) (startTime endTime : GoTime) tok, env.getClient = .ok (none, tok) →
      Event.client true ∈ (gMeetHelper.CreateCalendarEvent env summary location description startTime endTime).2) := by
  refine ⟨fun env summary location description startTime endTime => ?_, fun env summary location description startTime endTime => ?_, fun env summary location description startTime endTime => ?_,
    fun env summary location description startTime endTime e h => ?_, fun env summary location description startTime endTime tok h => ?_⟩
  · unfold gMeetHelper.CreateCalendarEvent
    (try dsimp only)
    (repeat' split) <;> rfl
  · unfold gMeetHelper.CreateCalendarEvent
    (try dsimp only)
    (repeat' split) <;> rfl
  · unfold gMeetHelper.CreateCalendarEvent
    (try dsimp only)
    (repeat' split) <;> simp [apiCount, isApi]
  · unfold gMeetHelper.CreateCalendarEvent
    rw [h]
  · unfold gMeetHelper.CreateCalendarEvent
    rw [h]
    (try dsimp only)
    (repeat' split) <;> simp_all

/-- Effect profile of `gMeetHelper.AddAttendeesToEvent`: the trace starts with the auth call,
contains exactly one auth event and at most 2 API invocation(s); an auth
failure returns the wrapped error at once with no API call; a nil config
(service-account path) flows into the client construction unguarded. -/
theorem AddAttendeesToEvent_profile :
    (∀ env (eventID : String) (attendees : List String), ((gMeetHelper.AddAttendeesToEvent env eventID attendees).2).head? = some Event.auth) ∧
    (∀ env (eventID : String) (attendees : List String), authCount (gMeetHelper.AddAttendeesToEvent env eventID attendees).2 = 1) ∧
    (∀ env (eventID : String) (attendees : List String), apiCount (gMeetHelper.AddAttendeesToEvent env eventID attendees).2 ≤ 2) ∧
    (∀ env (eventID : String) (attendees : List String) e, env.getClient = .error e →
      gMeetHelper.AddAttendeesToEvent env eventID attendees
        = (.err ("gMeetHelper: failed to get authenticated client: " ++ e), [Event.auth])) ∧
    (∀ env (eventID : String) (attendees : List String) tok, env.getClient = .ok (none, tok) →
      Event.client true ∈ (gMeetHelper.AddAttendeesToEvent env eventID attendees).2) := by
  refine ⟨fun env eventID attendees => ?_, fun env eventID attendees => ?_, fun env eventID attendees => ?_,
    fun env eventID attendees e h => ?_, fun env eventID attendees tok h => ?_⟩
  · unfold gMeetHelper.AddAttendeesToEvent
    (try dsimp only)
    (repeat' split) <;> rfl
  · unfold gMeetHelper.AddAttendeesToEvent
    (try dsimp only)
    (repeat' split) <;> rfl
  · unfold gMeetHelper.AddAttendeesToEvent
    (try dsimp only)
    (repeat' split) <;> simp [apiCount, isApi]
  · unfold gMeetHelper.AddAttendeesToEvent
    rw [h]
  · unfold gMeetHelper.AddAttendeesToEvent
    rw [h]
    (try dsimp only)
    (repeat' split) <;> simp_all

/-- Effect profile of `gMeetHelper.AttachFileToEvent`: the trace starts with the auth call,
contains exactly one auth event and at most 3 API invocation(s); an auth
failure returns the wrapped error at once with no API call; a nil config
(service-account path) flows into the client construction unguarded. -/
theorem AttachFileToEvent_profile :
    (∀ env (eventID fileID : String), ((gMeetHelper.AttachFileToEvent env eventID fileID).2).head? = some Event.auth) ∧
    (∀ env (eventID fileID : String), authCount (gMeetHelper.AttachFileToEvent env eventID fileID).2 = 1) ∧
    (∀ env (eventID fileID : String), apiCount (gMeetHelper.AttachFileToEvent env eventID fileID).2 ≤ 3) ∧
    (∀ env (eventID fileID : String) e, env.getClient = .error e →
      gMeetHelper.AttachFileToEvent env eventID fileID
        = (.err ("gMeetHelper: failed to get authenticated client: " ++ e), [Event.auth])) ∧
    (∀ env (eventID fileID : String) tok, env.getClient = .ok (none, tok) →
      Event.client true ∈ (gMeetHelper.AttachFileToEvent env eventID fileID).2) := by
  refine ⟨fun env eventID fileID => ?_, fun env eventID fileID => ?_, fun env eventID fileID => ?_,
    fun env eventID fileID e h => ?_, fun env eventID fileID tok h => ?_⟩
  · unfold gMeetHelper.AttachFileToEvent
    (try dsimp only)
    (repeat' split) <;> rfl
  · unfold gMeetHelper.AttachFileToEvent
    (try dsimp only)
    (repeat' split) <;> rfl
  · unfold gMeetHelper.AttachFileToEvent
    (try dsimp only)
    (repeat' split) <;> simp [apiCount, isApi]
  · unfold gMeetHelper.AttachFileToEvent
    rw [h]
  · unfold gMeetHelper.AttachFileToEvent
    rw [h]
    (try dsimp only)
    (repeat' split) <;> simp_all


/-! ### Concrete fixtures -/

/-- A sample fetched calendar event. -/
def sampleEvent : CalEvent :=
  { id := "ev1", summary := "Meeting", location := "Virtual", description := "d",
    start := { dateTime := { wallSec := 0, offsetSec := 0 }, timeZone := "UTC" },
    endTime := { dateTime := { wallSec := 0, offsetSec := 0 }, timeZone := "UTC" },
    attendees := [], attachments := [],
    conferenceRequestId := "", conferenceSolutionType := "" }

/-- A one-element document body. -/
def okDoc : GDocument :=
  { title := "Sample Document",
    body := { content := [{ startIndex := 0, endIndex := 2,
                            paragraph := some { elements := [] }, table := none }] } }

/-- A fetched document whose body content is EMPTY. -/
def emptyDoc : GDocument := { title := "empty", body := { content := [] } }

/-- A fetched document holding exactly one 1-by-1 table. -/
def oneCellDoc : GDocument :=
  { title := "tables",
    body := { content := [{ startIndex := 10, endIndex := 20, paragraph := none,
                            table := some { tableRows :=
                              [{ tableCells := [{ startIndex := 11 }] }] } }] } }

/-- An environment in which every external step succeeds. -/
def okEnv : Env :=
  { getClient := .ok (some { id := 0 }, { id := 0 })
    docsNewService := .ok ()
    driveNewService := .ok ()
    calendarNewService := .ok ()
    documentsCreate := .ok okDoc
    documentsGet := .ok okDoc
    batchUpdate := .ok ()
    filesCreate := .ok { id := "folder1", name := "Sample Folder" }
    filesCopy := .ok { id := "copy1", name := "Copy" }
    filesUpdate := .ok ()
    filesDelete := .ok ()
    filesGet := .ok { webViewLink := "link", name := "n", mimeType := "m" }
    filesExportDownload := .ok ()
    readAllBody := .ok "contents"
    permissionsCreate := .ok ()
    permissionsList := .ok [{ id := "perm1", emailAddress := "user@gmail.com" }]
    permissionsDelete := .ok ()
    eventsInsert := .ok sampleEvent
    eventsGet := .ok sampleEvent
    eventsUpdate := .ok ()
    loadLocationJST := .ok () }

/-- `okEnv` with a failing `auth.GetClient`. -/
def authFailEnv : Env := { okEnv with getClient := .error "boom" }

/-- `okEnv` as the service-account path would leave it: a nil config. -/
def nilConfEnv : Env := { okEnv with getClient := .ok (none, { id := 0 }) }

/-- `gdocsHelper.AddText` re-fetches the document right after the prologue:
whenever auth and service construction succeed, the first four events are
auth, client, service, `Documents.Get`, and the fetch happens exactly once. -/
theorem AddText_fetches_first :
    ∀ env (docID text : String) conf tok doc, env.getClient = .ok (conf, tok) →
      env.docsNewService = .ok () → env.documentsGet = .ok doc →
      ((gdocsHelper.AddText env docID text).2.take 4
          = [Event.auth, Event.client conf.isNone, Event.newService .docs,
             Event.api (.documentsGet docID)]) ∧
        docGetCount (gdocsHelper.AddText env docID text).2 = 1 := by
  intro env docID text conf tok doc hc hs hd
  unfold gdocsHelper.AddText
  rw [hc, hs, hd]
  (try dsimp only)
  refine ⟨?_, ?_⟩ <;> ((repeat' split) <;> rfl)

/-- `gdocsHelper.AddTextBetweenLines` re-fetches the document right after the prologue:
whenever auth and service construction succeed, the first four events are
auth, client, service, `Documents.Get`, and the fetch happens exactly once. -/
theorem AddTextBetweenLines_fetches_first :
    ∀ env (docID startLine endLine textToAdd : String) conf tok doc, env.getClient = .ok (conf, tok) →
      env.docsNewService = .ok () → env.documentsGet = .ok doc →
      ((gdocsHelper.AddTextBetweenLines env docID startLine endLine textToAdd).2.take 4
          = [Event.auth, Event.client conf.isNone, Event.newService .docs,
             Event.api (.documentsGet docID)]) ∧
        docGetCount (gdocsHelper.AddTextBetweenLines env docID startLine endLine textToAdd).2 = 1 := by
  intro env docID startLine endLine textToAdd conf tok doc hc hs hd
  unfold gdocsHelper.AddTextBetweenLines
  rw [hc, hs, hd]
  (try dsimp only)
  refine ⟨?_, ?_⟩ <;> ((repeat' split) <;> rfl)

/-- `gdocsHelper.AddTextAfterLine` re-fetches the document right after the prologue:
whenever auth and service construction succeed, the first four events are
auth, client, service, `Documents.Get`, and the fetch happens exactly once. -/
theorem AddTextAfterLine_fetches_first :
    ∀ env (docID lineContent textToAdd : String) conf tok doc, env.getClient = .ok (conf, tok) →
      env.docsNewService = .ok () → env.documentsGet = .ok doc →
      ((gdocsHelper.AddTextAfterLine env docID lineContent textToAdd).2.take 4
          = [Event.auth, Event.client conf.isNone, Event.newService .docs,
             Event.api (.documentsGet docID)]) ∧
        docGetCount (gdocsHelper.AddTextAfterLine env docID lineContent textToAdd).2 = 1 := by
  intro env docID lineContent textToAdd conf tok doc hc hs hd
  unfold gdocsHelper.AddTextAfterLine
  rw [hc, hs, hd]
  (try dsimp only)
  refine ⟨?_, ?_⟩ <;> ((repeat' split) <;> rfl)

/-- `gdocsHelper.AddTextAfterPatternInLine` re-fetches the document right after the prologue:
whenever auth and service construction succeed, the first four events are
auth, client, service, `Documents.Get`, and the fetch happens exactly once. -/
theorem AddTextAfterPatternInLine_fetches_first :
    ∀ env (docID pattern textToAdd : String) conf tok doc, env.getClient = .ok (conf, tok) →
      env.docsNewService = .ok () → env.documentsGet = .ok doc →
      ((gdocsHelper.AddTextAfterPatternInLine env docID pattern textToAdd).2.take 4
          = [Event.auth, Event.client conf.isNone, Event.newService .docs,
             Event.api (.documentsGet docID)]) ∧
        docGetCount (gdocsHelper.AddTextAfterPatternInLine env docID pattern textToAdd).2 = 1 := by
  intro env docID pattern textToAdd conf tok doc hc hs hd
  unfold gdocsHelper.AddTextAfterPatternInLine
  rw [hc, hs, hd]
  (try dsimp only)
  refine ⟨?_, ?_⟩ <;> ((repeat' split) <;> rfl)

/-- `gdocsHelper.AddTable` re-fetches the document right after the prologue:
whenever auth and service construction succeed, the first four events are
auth, client, service, `Documents.Get`, and the fetch happens exactly once. -/
theorem AddTable_fetches_first :
    ∀ env (docID : String) (rows columns : Int) conf tok doc, env.getClient = .ok (conf, tok) →
      env.docsNewService = .ok () → env.documentsGet = .ok doc →
      ((gdocsHelper.AddTable env docID rows columns).2.take 4
          = [Event.auth, Event.client conf.isNone, Event.newService .docs,
             Event.api (.documentsGet docID)]) ∧
        docGetCount (gdocsHelper.AddTable env docID rows columns).2 = 1 := by
  intro env docID rows columns conf tok doc hc hs hd
  unfold gdocsHelper.AddTable
  rw [hc, hs, hd]
  (try dsimp only)
  refine ⟨?_, ?_⟩ <;> ((repeat' split) <;> rfl)

/-- `gdocsHelper.AddTextToTableCell` re-fetches the document right after the prologue:
whenever auth and service construction succeed, the first four events are
auth, client, service, `Documents.Get`, and the fetch happens exactly once. -/
theorem AddTextToTableCell_fetches_first :
    ∀ env (docID : String) (tableIndex rowIndex columnIndex : Int) (text : String) conf tok doc, env.getClient = .ok (conf, tok) →
      env.docsNewService = .ok () → env.documentsGet = .ok doc →
      ((gdocsHelper.AddTextToTableCell env docID tableIndex rowIndex columnIndex text).2.take 4
          = [Event.auth, Event.client conf.isNone, Event.newService .docs,
             Event.api (.documentsGet docID)]) ∧
        docGetCount (gdocsHelper.AddTextToTableCell env docID tableIndex rowIndex columnIndex text).2 = 1 := by
  intro env docID tableIndex rowIndex columnIndex text conf tok doc hc hs hd
  unfold gdocsHelper.AddTextToTableCell
  rw [hc, hs, hd]
  (try dsimp only)
  refine ⟨?_, ?_⟩ <;> ((repeat' split) <;> rfl)

/-- `gdocsHelper.AddLinkToText` re-fetches the document right after the prologue:
whenever auth and service construction succeed, the first four events are
auth, client, service, `Documents.Get`, and the fetch happens exactly once. -/
theorem AddLinkToText_fetches_first :
    ∀ env (docID searchText url : String) conf tok doc, env.getClient = .ok (conf, tok) →
      env.docsNewService = .ok () → env.documentsGet = .ok doc →
      ((gdocsHelper.AddLinkToText env docID searchText url).2.take 4
          = [Event.auth, Event.client conf.isNone, Event.newService .docs,
             Event.api (.documentsGet docID)]) ∧
        docGetCount (gdocsHelper.AddLinkToText env docID searchText url).2 = 1 := by
  intro env docID searchText url conf tok doc hc hs hd
  unfold gdocsHelper.AddLinkToText
  rw [hc, hs, hd]
  (try dsimp only)
  refine ⟨?_, ?_⟩ <;> ((repeat' split) <;> rfl)

/-- `gdocsHelper.SetColorToTableCell` re-fetches the document right after the prologue:
whenever auth and service construction succeed, the first four events are
auth, client, service, `Documents.Get`, and the fetch happens exactly once. -/
theorem SetColorToTableCell_fetches_first :
    ∀ env (docID : String) (tableIndex rowIndex columnIndex : Int) conf tok doc, env.getClient = .ok (conf, tok) →
      env.docsNewService = .ok () → env.documentsGet = .ok doc →
      ((gdocsHelper.SetColorToTableCell env docID tableIndex rowIndex columnIndex).2.take 4
          = [Event.auth, Event.client conf.isNone, Event.newService .docs,
             Event.api (.documentsGet docID)]) ∧
        docGetCount (gdocsHelper.SetColorToTableCell env docID tableIndex rowIndex columnIndex).2 = 1 := by
  intro env docID tableIndex rowIndex columnIndex conf tok doc hc hs hd
  unfold gdocsHelper.SetColorToTableCell
  rw [hc, hs, hd]
  (try dsimp only)
  refine ⟨?_, ?_⟩ <;> ((repeat' split) <;> rfl)

/-- `gdocsHelper.ReplaceText` never fetches the document. -/
theorem ReplaceText_no_fetch :
    ∀ env (docID oldText newText : String), docGetCount (gdocsHelper.ReplaceText env docID oldText newText).2 = 0 := by
  intro env docID oldText newText
  unfold gdocsHelper.ReplaceText
  (try dsimp only)
  (repeat' split) <;> rfl

/-- `gdocsHelper.RenameGoogleDoc` never fetches the document. -/
theorem RenameGoogleDoc_no_fetch :
    ∀ env (fileID newTitle : String), docGetCount (gdocsHelper.RenameGoogleDoc env fileID newTitle).2 = 0 := by
  intro env fileID newTitle
  unfold gdocsHelper.RenameGoogleDoc
  (try dsimp only)
  (repeat' split) <;> rfl

/-- `gdocsHelper.ReplaceMultipleTexts` never fetches the document. -/
theorem ReplaceMultipleTexts_no_fetch :
    ∀ env (docID : String) (replacements : List (String × String)), docGetCount (gdocsHelper.ReplaceMultipleTexts env docID replacements).2 = 0 := by
  intro env docID replacements
  unfold gdocsHelper.ReplaceMultipleTexts
  (try dsimp only)
  (repeat' split) <;> rfl

/-- `gdocsHelper.InsertTextWithLinkAndRender` never fetches the document. -/
theorem InsertTextWithLinkAndRender_no_fetch :
    ∀ env (docID text url : String) (locationIndex : Int), docGetCount (gdocsHelper.InsertTextWithLinkAndRender env docID text url locationIndex).2 = 0 := by
  intro env docID text url locationIndex
  unfold gdocsHelper.InsertTextWithLinkAndRender
  (try dsimp only)
  (repeat' split) <;> rfl


/-! ### Step-by-step error propagation (claim C6) -/

/-- Every later step of `gdocsHelper.AddText` also fails fast: a service,
fetch, or batch-update failure returns the wrapped error at once. -/
theorem AddText_cascade :
    (∀ env docID text conf tok e, env.getClient = .ok (conf, tok) →
      env.docsNewService = .error e →
      gdocsHelper.AddText env docID text
        = (.err ("gdocsHelper: unable to create docs service: " ++ e),
           [Event.auth, Event.client conf.isNone, Event.newService .docs])) ∧
    (∀ env docID text conf tok e, env.getClient = .ok (conf, tok) →
      env.docsNewService = .ok () → env.documentsGet = .error e →
      gdocsHelper.AddText env docID text
        = (.err ("gdocsHelper: unable to retrieve document: " ++ e),
           [Event.auth, Event.client conf.isNone, Event.newService .docs,
            Event.api (.documentsGet docID)])) ∧
    (∀ env docID text conf tok doc lastEl e, env.getClient = .ok (conf, tok) →
      env.docsNewService = .ok () → env.documentsGet = .ok doc →
      doc.body.content.getLast? = some lastEl → env.batchUpdate = .error e →
      gdocsHelper.AddText env docID text
        = (.err ("gdocsHelper: unable to add text to document: " ++ e),
           [Event.auth, Event.client conf.isNone, Event.newService .docs,
            Event.api (.documentsGet docID),
            Event.api (.batchUpdate docID
              [DocsRequest.insertText text (lastEl.endIndex - 1)])])) := by
  refine ⟨fun env docID text conf tok e hc hs => ?_,
    fun env docID text conf tok e hc hs hd => ?_,
    fun env docID text conf tok doc lastEl e hc hs hd hl hb => ?_⟩
  · unfold gdocsHelper.AddText
    rw [hc, hs]
  · unfold gdocsHelper.AddText
    rw [hc, hs, hd]
  · unfold gdocsHelper.AddText
    rw [hc, hs, hd]
    (try dsimp only)
    rw [hl]
    (try dsimp only)
    rw [hb]

/-- Every later step of `gDriveHelper.CreateFolder` also fails fast. -/
theorem CreateFolder_cascade :
    (∀ env name conf tok e, env.getClient = .ok (conf, tok) →
      env.driveNewService = .error e →
      gDriveHelper.CreateFolder env name
        = (.err ("gDriveHelper: unable to create drive service: " ++ e),
           [Event.auth, Event.client conf.isNone, Event.newService .drive])) ∧
    (∀ env name conf tok e, env.getClient = .ok (conf, tok) →
      env.driveNewService = .ok () → env.filesCreate = .error e →
      gDriveHelper.CreateFolder env name
        = (.err ("gDriveHelper: unable to create folder: " ++ e),
           [Event.auth, Event.client conf.isNone, Event.newService .drive,
            Event.api .filesCreate])) := by
  refine ⟨fun env name conf tok e hc hs => ?_, fun env name conf tok e hc hs hf => ?_⟩
  · unfold gDriveHelper.CreateFolder
    rw [hc, hs]
  · unfold gDriveHelper.CreateFolder
    rw [hc, hs, hf]

/-! ### The service-account path of `auth.GetClient` (claim C8) -/

/-- Under `UseServiceAccount`, a fully successful `GetClient` returns a NIL
config together with the token, and touches no local state. -/
theorem GetClient_serviceAccount_nil_conf :
    ∀ (cfg : AuthConfig) (aenv : AuthEnv) (st : AuthState) (data : String) (tok : Token),
      cfg.useServiceAccount = true →
      aenv.readCredentialsFile = .ok data →
      aenv.credentialsFromJSON = .ok () →
      aenv.tokenSourceToken = .ok tok →
      GetClient cfg aenv st = (.ok (none, tok), st, [.readCredFile]) := by
  intro cfg aenv st data tok hu hr hj ht
  unfold GetClient getServiceAccountClient
  rw [hu, hr, hj, ht]
  rfl

/-! ### Statefulness of the OAuth path (claim C4) -/

/-- C4 (amended): the authentication module DOES persist state between
calls — `getOAuthClient` reads the token file: a cached token
short-circuits the web flow and leaves the state unchanged; a missing
token runs the web flow and, on success, WRITES the token to the token
file, so the state written by one invocation serves later ones; a failing
web flow propagates the error. (The helper modules themselves are
stateless functions of their environment.) -/
theorem getOAuthClient_cache :
    (∀ env st conf b tok, env.readCredentialsFile = .ok b → env.configFromJSON = .ok conf →
      st.tokenFileContents = some tok →
      getOAuthClient env st = (.ok (some conf, tok), st, [.readCredFile, .readTokenFile])) ∧
    (∀ env st conf b tok, env.readCredentialsFile = .ok b → env.configFromJSON = .ok conf →
      st.tokenFileContents = none → env.webToken = .ok tok →
      getOAuthClient env st
        = (.ok (some conf, tok), { st with tokenFileContents := some tok },
           [.readCredFile, .readTokenFile, .webExchange, .saveTokenFile])) ∧
    (∀ env st conf b e, env.readCredentialsFile = .ok b → env.configFromJSON = .ok conf →
      st.tokenFileContents = none → env.webToken = .error e →
      getOAuthClient env st
        = (.error ("auth: unable to retrieve token from web: " ++ e), st,
           [.readCredFile, .readTokenFile, .webExchange])) := by
  refine ⟨fun env st conf b tok hr hj htf => ?_,
    fun env st conf b tok hr hj htf hw => ?_,
    fun env st conf b e hr hj htf hw => ?_⟩
  · unfold getOAuthClient
    rw [hr, hj, htf]
  · unfold getOAuthClient
    rw [hr, hj, htf, hw]
  · unfold getOAuthClient
    rw [hr, hj, htf, hw]

/-- OAuth fixtures: a working web exchange, and the same environment with
the web exchange down. -/
def oauthEnvOk : AuthEnv :=
  { readCredentialsFile := .ok "secret", credentialsFromJSON := .ok (),
    tokenSourceToken := .error "unused", configFromJSON := .ok { id := 7 },
    webToken := .ok { id := 42 } }

/-- The same environment with the web exchange unreachable. -/
def oauthEnvWebDown : AuthEnv := { oauthEnvOk with webToken := .error "web unreachable" }

/-- No token file yet. -/
def noTokenState : AuthState := { tokenFileContents := none }

/-- The token file the first invocation leaves behind. -/
def cachedState : AuthState := { tokenFileContents := some { id := 42 } }

/-- The OAuth configuration `main` uses. -/
def oauthCfg : AuthConfig :=
  { useServiceAccount := false, credentialsFile := "auth/credentials.json",
    tokenFile := "auth/token.json",
    scopes := ["https://www.googleapis.com/auth/drive",
               "https://www.googleapis.com/auth/documents",
               "https://www.googleapis.com/auth/calendar"] }


/-! ### Per-step failure lemmas (claim C6) -/

/-- A service-construction failure makes `gdocsHelper.CreateGoogleDoc` return the wrapped error
at once, with no API call. -/
theorem CreateGoogleDoc_service_fail :
    ∀ env (title : String) e conf tok, env.getClient = .ok (conf, tok) →
      env.docsNewService = .error e →
      gdocsHelper.CreateGoogleDoc env title
        = (.err ("gdocsHelper: unable to create docs service: " ++ e),
           [Event.auth, Event.client conf.isNone, Event.newService .docs]) := by
  intro env title e conf tok hc hs
  unfold gdocsHelper.CreateGoogleDoc
  rw [hc, hs]

/-- A service-construction failure makes `gdocsHelper.AddText` return the wrapped error
at once, with no API call. -/
theorem AddText_service_fail :
    ∀ env (docID text : String) e conf tok, env.getClient = .ok (conf, tok) →
      env.docsNewService = .error e →
      gdocsHelper.AddText env docID text
        = (.err ("gdocsHelper: unable to create docs service: " ++ e),
           [Event.auth, Event.client conf.isNone, Event.newService .docs]) := by
  intro env docID text e conf tok hc hs
  unfold gdocsHelper.AddText
  rw [hc, hs]

/-- A service-construction failure makes `gdocsHelper.ReplaceText` return the wrapped error
at once, with no API call. -/
theorem ReplaceText_service_fail :
    ∀ env (docID oldText newText : String) e conf tok, env.getClient = .ok (conf, tok) →
      env.docsNewService = .error e →
      gdocsHelper.ReplaceText env docID oldText newText
        = (.err ("gdocsHelper: unable to create docs service: " ++ e),
           [Event.auth, Event.client conf.isNone, Event.newService .docs]) := by
  intro env docID oldText newText e conf tok hc hs
  unfold gdocsHelper.ReplaceText
  rw [hc, hs]

/-- A service-construction failure makes `gdocsHelper.MakeCopyOfGoogleDoc` return the wrapped error
at once, with no API call. -/
theorem MakeCopyOfGoogleDoc_service_fail :
    ∀ env (fileID newTitle : String) e conf tok, env.getClient = .ok (conf, tok) →
      env.driveNewService = .error e →
      gdocsHelper.MakeCopyOfGoogleDoc env fileID newTitle
        = (.err ("gdocsHelper: unable to create drive service: " ++ e),
           [Event.auth, Event.client conf.isNone, Event.newService .drive]) := by
  intro env fileID newTitle e conf tok hc hs
  unfold gdocsHelper.MakeCopyOfGoogleDoc
  rw [hc, hs]

/-- A service-construction failure makes `gdocsHelper.ExportGoogleDocAsText` return the wrapped error
at once, with no API call. -/
theorem ExportGoogleDocAsText_service_fail :
    ∀ env (fileID : String) e conf tok, env.getClient = .ok (conf, tok) →
      env.driveNewService = .error e →
      gdocsHelper.ExportGoogleDocAsText env fileID
        = (.err ("gdocsHelper: unable to create drive service: " ++ e),
           [Event.auth, Event.client conf.isNone, Event.newService .drive]) := by
  intro env fileID e conf tok hc hs
  unfold gdocsHelper.ExportGoogleDocAsText
  rw [hc, hs]

/-- A service-construction failure makes `gdocsHelper.RenameGoogleDoc` return the wrapped error
at once, with no API call. -/
theorem RenameGoogleDoc_service_fail :
    ∀ env (fileID newTitle : String) e conf tok, env.getClient = .ok (conf, tok) →
      env.driveNewService = .error e →
      gdocsHelper.RenameGoogleDoc env fileID newTitle
        = (.err ("gdocsHelper: unable to create drive service: " ++ e),
           [Event.auth, Event.client conf.isNone, Event.newService .drive]) := by
  intro env fileID newTitle e conf tok hc hs
  unfold gdocsHelper.RenameGoogleDoc
  rw [hc, hs]

/-- A service-construction failure makes `gdocsHelper.AddTextBetweenLines` return the wrapped error
at once, with no API call. -/
theorem AddTextBetweenLines_service_fail :
    ∀ env (docID startLine endLine textToAdd : String) e conf tok, env.getClient = .ok (conf, tok) →
      env.docsNewService = .error e →
      gdocsHelper.AddTextBetweenLines env docID startLine endLine textToAdd
        = (.err ("gdocsHelper: unable to create docs service: " ++ e),
           [Event.auth, Event.client conf.isNone, Event.newService .docs]) := by
  intro env docID startLine endLine textToAdd e conf tok hc hs
  unfold gdocsHelper.AddTextBetweenLines
  rw [hc, hs]

/-- A service-construction failure makes `gdocsHelper.AddTextAfterLine` return the wrapped error
at once, with no API call. -/
theorem AddTextAfterLine_service_fail :
    ∀ env (docID lineContent textToAdd : String) e conf tok, env.getClient = .ok (conf, tok) →
      env.docsNewService = .error e →
      gdocsHelper.AddTextAfterLine env docID lineContent textToAdd
        = (.err ("gdocsHelper: unable to create docs service: " ++ e),
           [Event.auth, Event.client conf.isNone, Event.newService .docs]) := by
  intro env docID lineContent textToAdd e conf tok hc hs
  unfold gdocsHelper.AddTextAfterLine
  rw [hc, hs]

/-- A service-construction failure makes `gdocsHelper.AddTextAfterPatternInLine` return the wrapped error
at once, with no API call. -/
theorem AddTextAfterPatternInLine_service_fail :
    ∀ env (docID pattern textToAdd : String) e conf tok, env.getClient = .ok (conf, tok) →
      env.docsNewService = .error e →
      gdocsHelper.AddTextAfterPatternInLine env docID pattern textToAdd
        = (.err ("gdocsHelper: unable to create docs service: " ++ e),
           [Event.auth, Event.client conf.isNone, Event.newService .docs]) := by
  intro env docID pattern textToAdd e conf tok hc hs
  unfold gdocsHelper.AddTextAfterPatternInLine
  rw [hc, hs]

/-- A service-construction failure makes `gdocsHelper.AddTable` return the wrapped error
at once, with no API call. -/
theorem AddTable_service_fail :
    ∀ env (docID : String) (rows columns : Int) e conf tok, env.getClient = .ok (conf, tok) →
      env.docsNewService = .error e →
      gdocsHelper.AddTable env docID rows columns
        = (.err ("gdocsHelper: unable to create docs service: " ++ e),
           [Event.auth, Event.client conf.isNone, Event.newService .docs]) := by
  intro env docID rows columns e conf tok hc hs
  unfold gdocsHelper.AddTable
  rw [hc, hs]

/-- A service-construction failure makes `gdocsHelper.AddTextToTableCell` return the wrapped error
at once, with no API call. -/
theorem AddTextToTableCell_service_fail :
    ∀ env (docID : String) (tableIndex rowIndex columnIndex : Int) (text : String) e conf tok, env.getClient = .ok (conf, tok) →
      env.docsNewService = .error e →
      gdocsHelper.AddTextToTableCell env docID tableIndex rowIndex columnIndex text
        = (.err ("gdocsHelper: unable to create docs service: " ++ e),
           [Event.auth, Event.client conf.isNone, Event.newService .docs]) := by
  intro env docID tableIndex rowIndex columnIndex text e conf tok hc hs
  unfold gdocsHelper.AddTextToTableCell
  rw [hc, hs]

/-- A service-construction failure makes `gdocsHelper.AddLinkToText` return the wrapped error
at once, with no API call. -/
theorem AddLinkToText_service_fail :
    ∀ env (docID searchText url : String) e conf tok, env.getClient = .ok (conf, tok) →
      env.docsNewService = .error e →
      gdocsHelper.AddLinkToText env docID searchText url
        = (.err ("gdocsHelper: unable to create docs service: " ++ e),
           [Event.auth, Event.client conf.isNone, Event.newService .docs]) := by
  intro env docID searchText url e conf tok hc hs
  unfold gdocsHelper.AddLinkToText
  rw [hc, hs]

/-- A service-construction failure makes `gdocsHelper.ReplaceMultipleTexts` return the wrapped error
at once, with no API call. -/
theorem ReplaceMultipleTexts_service_fail :
    ∀ env (docID : String) (replacements : List (String × String)) e conf tok, env.getClient = .ok (conf, tok) →
      env.docsNewService = .error e →
      gdocsHelper.ReplaceMultipleTexts env docID replacements
        = (.err ("gdocsHelper: unable to create docs service: " ++ e),
           [Event.auth, Event.client conf.isNone, Event.newService .docs]) := by
  intro env docID replacements e conf tok hc hs
  unfold gdocsHelper.ReplaceMultipleTexts
  rw [hc, hs]

/-- A service-construction failure makes `gdocsHelper.SetColorToTableCell` return the wrapped error
at once, with no API call. -/
theorem SetColorToTableCell_service_fail :
    ∀ env (docID : String) (tableIndex rowIndex columnIndex : Int) e conf tok, env.getClient = .ok (conf, tok) →
      env.docsNewService = .error e →
      gdocsHelper.SetColorToTableCell env docID tableIndex rowIndex columnIndex
        = (.err ("gdocsHelper: unable to create docs service: " ++ e),
           [Event.auth, Event.client conf.isNone, Event.newService .docs]) := by
  intro env docID tableIndex rowIndex columnIndex e conf tok hc hs
  unfold gdocsHelper.SetColorToTableCell
  rw [hc, hs]

/-- A service-construction failure makes `gdocsHelper.AddFilePermission` return the wrapped error
at once, with no API call. -/
theorem AddFilePermission_service_fail :
    ∀ env (fileID email role : String) e conf tok, env.getClient = .ok (conf, tok) →
      env.driveNewService = .error e →
      gdocsHelper.AddFilePermission env fileID email role
        = (.err ("gdocsHelper: unable to create drive service: " ++ e),
           [Event.auth, Event.client conf.isNone, Event.newService .drive]) := by
  intro env fileID email role e conf tok hc hs
  unfold gdocsHelper.AddFilePermission
  rw [hc, hs]

/-- A service-construction failure makes `gdocsHelper.InsertTextWithLinkAndRender` return the wrapped error
at once, with no API call. -/
theorem InsertTextWithLinkAndRender_service_fail :
    ∀ env (docID text url : String) (locationIndex : Int) e conf tok, env.getClient = .ok (conf, tok) →
      env.docsNewService = .error e →
      gdocsHelper.InsertTextWithLinkAndRender env docID text url locationIndex
        = (.err ("gdocsHelper: unable to create docs service: " ++ e),
           [Event.auth, Event.client conf.isNone, Event.newService .docs]) := by
  intro env docID text url locationIndex e conf tok hc hs
  unfold gdocsHelper.InsertTextWithLinkAndRender
  rw [hc, hs]

/-- A service-construction failure makes `gdocsHelper.GetDocumentEndIndex` return the wrapped error
at once, with no API call. -/
theorem GetDocumentEndIndex_service_fail :
    ∀ env (docID : String) e conf tok, env.getClient = .ok (conf, tok) →
      env.docsNewService = .error e →
      gdocsHelper.GetDocumentEndIndex env docID
        = (.err ("gdocsHelper: unable to create docs service: " ++ e),
           [Event.auth, Event.client conf.isNone, Event.newService .docs]) := by
  intro env docID e conf tok hc hs
  unfold gdocsHelper.GetDocumentEndIndex
  rw [hc, hs]

/-- A service-construction failure makes `gDriveHelper.CreateFolder` return the wrapped error
at once, with no API call. -/
theorem CreateFolder_service_fail :
    ∀ env (name : String) e conf tok, env.getClient = .ok (conf, tok) →
      env.driveNewService = .error e →
      gDriveHelper.CreateFolder env name
        = (.err ("gDriveHelper: unable to create drive service: " ++ e),
           [Event.auth, Event.client conf.isNone, Event.newService .drive]) := by
  intro env name e conf tok hc hs
  unfold gDriveHelper.CreateFolder
  rw [hc, hs]

/-- A service-construction failure makes `gDriveHelper.AddFolderPermission` return the wrapped error
at once, with no API call. -/
theorem AddFolderPermission_service_fail :
    ∀ env (folderID email role : String) e conf tok, env.getClient = .ok (conf, tok) →
      env.driveNewService = .error e →
      gDriveHelper.AddFolderPermission env folderID email role
        = (.err ("gDriveHelper: unable to create drive service: " ++ e),
           [Event.auth, Event.client conf.isNone, Event.newService .drive]) := by
  intro env folderID email role e conf tok hc hs
  unfold gDriveHelper.AddFolderPermission
  rw [hc, hs]

/-- A service-construction failure makes `gDriveHelper.CopyFileToFolder` return the wrapped error
at once, with no API call. -/
theorem CopyFileToFolder_service_fail :
    ∀ env (fileID folderID : String) e conf tok, env.getClient = .ok (conf, tok) →
      env.driveNewService = .error e →
      gDriveHelper.CopyFileToFolder env fileID folderID
        = (.err ("gDriveHelper: unable to create drive service: " ++ e),
           [Event.auth, Event.client conf.isNone, Event.newService .drive]) := by
  intro env fileID folderID e conf tok hc hs
  unfold gDriveHelper.CopyFileToFolder
  rw [hc, hs]

/-- A service-construction failure makes `gDriveHelper.RemoveFolderPermission` return the wrapped error
at once, with no API call. -/
theorem RemoveFolderPermission_service_fail :
    ∀ env (folderID email : String) e conf tok, env.getClient = .ok (conf, tok) →
      env.driveNewService = .error e →
      gDriveHelper.RemoveFolderPermission env folderID email
        = (.err ("gDriveHelper: unable to create drive service: " ++ e),
           [Event.auth, Event.client conf.isNone, Event.newService .drive]) := by
  intro env folderID email e conf tok hc hs
  unfold gDriveHelper.RemoveFolderPermission
  rw [hc, hs]

/-- A service-construction failure makes `gDriveHelper.RenameFolder` return the wrapped error
at once, with no API call. -/
theorem RenameFolder_service_fail :
    ∀ env (folderID newName : String) e conf tok, env.getClient = .ok (conf, tok) →
      env.driveNewService = .error e →
      gDriveHelper.RenameFolder env folderID newName
        = (.err ("gDriveHelper: unable to create drive service: " ++ e),
           [Event.auth, Event.client conf.isNone, Event.newService .drive]) := by
  intro env folderID newName e conf tok hc hs
  unfold gDriveHelper.RenameFolder
  rw [hc, hs]

/-- A service-construction failure makes `gDriveHelper.DeleteFileOrFolder` return the wrapped error
at once, with no API call. -/
theorem DeleteFileOrFolder_service_fail :
    ∀ env (folderFileID : String) e conf tok, env.getClient = .ok (conf, tok) →
      env.driveNewService = .error e →
      gDriveHelper.DeleteFileOrFolder env folderFileID
        = (.err ("gDriveHelper: unable to create drive service: " ++ e),
           [Event.auth, Event.client conf.isNone, Event.newService .drive]) := by
  intro env folderFileID e conf tok hc hs
  unfold gDriveHelper.DeleteFileOrFolder
  rw [hc, hs]

/-- A service-construction failure makes `gMeetHelper.CreateCalendarEvent` return the wrapped error
at once, with no API call. -/
theorem CreateCalendarEvent_service_fail :
    ∀ env (summary location description : String) (startTime endTime : GoTime) e conf tok, env.getClient = .ok (conf, tok) →
      env.calendarNewService = .error e →
      gMeetHelper.CreateCalendarEvent env summary location description startTime endTime
        = (.err ("gMeetHelper: unable to create calendar service: " ++ e),
           [Event.auth, Event.client conf.isNone, Event.newService .calendar]) := by
  intro env summary location description startTime endTime e conf tok hc hs
  unfold gMeetHelper.CreateCalendarEvent
  rw [hc, hs]

/-- A service-construction failure makes `gMeetHelper.AddAttendeesToEvent` return the wrapped error
at once, with no API call. -/
theorem AddAttendeesToEvent_service_fail :
    ∀ env (eventID : String) (attendees : List String) e conf tok, env.getClient = .ok (conf, tok) →
      env.calendarNewService = .error e →
      gMeetHelper.AddAttendeesToEvent env eventID attendees
        = (.err ("gMeetHelper: unable to create calendar service: " ++ e),
           [Event.auth, Event.client conf.isNone, Event.newService .calendar]) := by
  intro env eventID attendees e conf tok hc hs
  unfold gMeetHelper.AddAttendeesToEvent
  rw [hc, hs]

/-- A service-construction failure makes `gMeetHelper.AttachFileToEvent` return the wrapped error
at once, with no API call. -/
theorem AttachFileToEvent_service_fail :
    ∀ env (eventID fileID : String) e conf tok, env.getClient = .ok (conf, tok) →
      env.driveNewService = .error e →
      gMeetHelper.AttachFileToEvent env eventID fileID
        = (.err ("gMeetHelper: unable to create Drive service: " ++ e),
           [Event.auth, Event.client conf.isNone, Event.newService .drive]) := by
  intro env eventID fileID e conf tok hc hs
  unfold gMeetHelper.AttachFileToEvent
  rw [hc, hs]

/-- A document-fetch failure makes `gdocsHelper.AddText` return the wrapped
error at once, before any edit. -/
theorem AddText_get_fail :
    ∀ env (docID text : String) e conf tok, env.getClient = .ok (conf, tok) →
      env.docsNewService = .ok () → env.documentsGet = .error e →
      gdocsHelper.AddText env docID text
        = (.err ("gdocsHelper: unable to retrieve document: " ++ e),
           [Event.auth, Event.client conf.isNone, Event.newService .docs,
            Event.api (.documentsGet docID)]) := by
  intro env docID text e conf tok hc hs hd
  unfold gdocsHelper.AddText
  rw [hc, hs, hd]

/-- A document-fetch failure makes `gdocsHelper.AddTextBetweenLines` return the wrapped
error at once, before any edit. -/
theorem AddTextBetweenLines_get_fail :
    ∀ env (docID startLine endLine textToAdd : String) e conf tok, env.getClient = .ok (conf, tok) →
      env.docsNewService = .ok () → env.documentsGet = .error e →
      gdocsHelper.AddTextBetweenLines env docID startLine endLine textToAdd
        = (.err ("gdocsHelper: unable to retrieve document: " ++ e),
           [Event.auth, Event.client conf.isNone, Event.newService .docs,
            Event.api (.documentsGet docID)]) := by
  intro env docID startLine endLine textToAdd e conf tok hc hs hd
  unfold gdocsHelper.AddTextBetweenLines
  rw [hc, hs, hd]

/-- A document-fetch failure makes `gdocsHelper.AddTextAfterLine` return the wrapped
error at once, before any edit. -/
theorem AddTextAfterLine_get_fail :
    ∀ env (docID lineContent textToAdd : String) e conf tok, env.getClient = .ok (conf, tok) →
      env.docsNewService = .ok () → env.documentsGet = .error e →
      gdocsHelper.AddTextAfterLine env docID lineContent textToAdd
        = (.err ("gdocsHelper: unable to retrieve document: " ++ e),
           [Event.auth, Event.client conf.isNone, Event.newService .docs,
            Event.api (.documentsGet docID)]) := by
  intro env docID lineContent textToAdd e conf tok hc hs hd
  unfold gdocsHelper.AddTextAfterLine
  rw [hc, hs, hd]

/-- A document-fetch failure makes `gdocsHelper.AddTextAfterPatternInLine` return the wrapped
error at once, before any edit. -/
theorem AddTextAfterPatternInLine_get_fail :
    ∀ env (docID pattern textToAdd : String) e conf tok, env.getClient = .ok (conf, tok) →
      env.docsNewService = .ok () → env.documentsGet = .error e →
      gdocsHelper.AddTextAfterPatternInLine env docID pattern textToAdd
        = (.err ("gdocsHelper: unable to retrieve document: " ++ e),
           [Event.auth, Event.client conf.isNone, Event.newService .docs,
            Event.api (.documentsGet docID)]) := by
  intro env docID pattern textToAdd e conf tok hc hs hd
  unfold gdocsHelper.AddTextAfterPatternInLine
  rw [hc, hs, hd]

/-- A document-fetch failure makes `gdocsHelper.AddTable` return the wrapped
error at once, before any edit. -/
theorem AddTable_get_fail :
    ∀ env (docID : String) (rows columns : Int) e conf tok, env.getClient = .ok (conf, tok) →
      env.docsNewService = .ok () → env.documentsGet = .error e →
      gdocsHelper.AddTable env docID rows columns
        = (.err ("gdocsHelper: unable to retrieve document: " ++ e),
           [Event.auth, Event.client conf.isNone, Event.newService .docs,
            Event.api (.documentsGet docID)]) := by
  intro env docID rows columns e conf tok hc hs hd
  unfold gdocsHelper.AddTable
  rw [hc, hs, hd]

/-- A document-fetch failure makes `gdocsHelper.AddTextToTableCell` return the wrapped
error at once, before any edit. -/
theorem AddTextToTableCell_get_fail :
    ∀ env (docID : String) (tableIndex rowIndex columnIndex : Int) (text : String) e conf tok, env.getClient = .ok (conf, tok) →
      env.docsNewService = .ok () → env.documentsGet = .error e →
      gdocsHelper.AddTextToTableCell env docID tableIndex rowIndex columnIndex text
        = (.err ("gdocsHelper: unable to retrieve document: " ++ e),
           [Event.auth, Event.client conf.isNone, Event.newService .docs,
            Event.api (.documentsGet docID)]) := by
  intro env docID tableIndex rowIndex columnIndex text e conf tok hc hs hd
  unfold gdocsHelper.AddTextToTableCell
  rw [hc, hs, hd]

/-- A document-fetch failure makes `gdocsHelper.AddLinkToText` return the wrapped
error at once, before any edit. -/
theorem AddLinkToText_get_fail :
    ∀ env (docID searchText url : String) e conf tok, env.getClient = .ok (conf, tok) →
      env.docsNewService = .ok () → env.documentsGet = .error e →
      gdocsHelper.AddLinkToText env docID searchText url
        = (.err ("gdocsHelper: unable to retrieve document: " ++ e),
           [Event.auth, Event.client conf.isNone, Event.newService .docs,
            Event.api (.documentsGet docID)]) := by
  intro env docID searchText url e conf tok hc hs hd
  unfold gdocsHelper.AddLinkToText
  rw [hc, hs, hd]

/-- A document-fetch failure makes `gdocsHelper.SetColorToTableCell` return the wrapped
error at once, before any edit. -/
theorem SetColorToTableCell_get_fail :
    ∀ env (docID : String) (tableIndex rowIndex columnIndex : Int) e conf tok, env.getClient = .ok (conf, tok) →
      env.docsNewService = .ok () → env.documentsGet = .error e →
      gdocsHelper.SetColorToTableCell env docID tableIndex rowIndex columnIndex
        = (.err ("gdocsHelper: unable to retrieve document: " ++ e),
           [Event.auth, Event.client conf.isNone, Event.newService .docs,
            Event.api (.documentsGet docID)]) := by
  intro env docID tableIndex rowIndex columnIndex e conf tok hc hs hd
  unfold gdocsHelper.SetColorToTableCell
  rw [hc, hs, hd]


/-! ### Remaining per-step failure lemmas (claim C6) -/

/-- A failure of the API call inside `gdocsHelper.CreateGoogleDoc` returns the wrapped error at
once. -/
theorem CreateGoogleDoc_create_fail :
    ∀ env (title : String) e conf tok, env.getClient = .ok (conf, tok) →
      env.docsNewService = .ok () →
      env.documentsCreate = .error e →
      gdocsHelper.CreateGoogleDoc env title
        = (.err ("gdocsHelper: unable to create document: " ++ e),
           [Event.auth, Event.client conf.isNone, Event.newService .docs, Event.api (.documentsCreate title)]) := by
  intro env title e conf tok hc hs hop
  unfold gdocsHelper.CreateGoogleDoc
  rw [hc, hs, hop]
  (try rfl)

/-- A failure of the API call inside `gdocsHelper.ReplaceText` returns the wrapped error at
once. -/
theorem ReplaceText_batch_fail :
    ∀ env (docID oldText newText : String) e conf tok, env.getClient = .ok (conf, tok) →
      env.docsNewService = .ok () →
      env.batchUpdate = .error e →
      gdocsHelper.ReplaceText env docID oldText newText
        = (.err ("gdocsHelper: unable to replace text in document: " ++ e),
           [Event.auth, Event.client conf.isNone, Event.newService .docs,
             Event.api (.batchUpdate docID [DocsRequest.replaceAllText oldText newText true])]) := by
  intro env docID oldText newText e conf tok hc hs hop
  unfold gdocsHelper.ReplaceText
  rw [hc, hs, hop]
  (try rfl)

/-- A failure of the API call inside `gdocsHelper.MakeCopyOfGoogleDoc` returns the wrapped error at
once. -/
theorem MakeCopyOfGoogleDoc_copy_fail :
    ∀ env (fileID newTitle : String) e conf tok, env.getClient = .ok (conf, tok) →
      env.driveNewService = .ok () →
      env.filesCopy = .error e →
      gdocsHelper.MakeCopyOfGoogleDoc env fileID newTitle
        = (.err ("gdocsHelper: unable to copy file: " ++ e),
           [Event.auth, Event.client conf.isNone, Event.newService .drive, Event.api .filesCopy]) := by
  intro env fileID newTitle e conf tok hc hs hop
  unfold gdocsHelper.MakeCopyOfGoogleDoc
  rw [hc, hs, hop]
  (try rfl)

/-- A failure of the API call inside `gdocsHelper.ExportGoogleDocAsText` returns the wrapped error at
once. -/
theorem ExportGoogleDocAsText_export_fail :
    ∀ env (fileID : String) e conf tok, env.getClient = .ok (conf, tok) →
      env.driveNewService = .ok () →
      env.filesExportDownload = .error e →
      gdocsHelper.ExportGoogleDocAsText env fileID
        = (.err ("gdocsHelper: unable to export file: " ++ e),
           [Event.auth, Event.client conf.isNone, Event.newService .drive, Event.api .filesExportDownload]) := by
  intro env fileID e conf tok hc hs hop
  unfold gdocsHelper.ExportGoogleDocAsText
  rw [hc, hs, hop]
  (try rfl)

/-- A failure of the API call inside `gdocsHelper.ExportGoogleDocAsText` returns the wrapped error at
once. -/
theorem ExportGoogleDocAsText_read_fail :
    ∀ env (fileID : String) e conf tok, env.getClient = .ok (conf, tok) →
      env.driveNewService = .ok () →
      env.filesExportDownload = .ok () →
      env.readAllBody = .error e →
      gdocsHelper.ExportGoogleDocAsText env fileID
        = (.err ("gdocsHelper: unable to read exported content: " ++ e),
           [Event.auth, Event.client conf.isNone, Event.newService .drive, Event.api .filesExportDownload]) := by
  intro env fileID e conf tok hc hs hx0 hop
  unfold gdocsHelper.ExportGoogleDocAsText
  rw [hc, hs, hx0, hop]
  (try rfl)

/-- A failure of the API call inside `gdocsHelper.RenameGoogleDoc` returns the wrapped error at
once. -/
theorem RenameGoogleDoc_update_fail :
    ∀ env (fileID newTitle : String) e conf tok, env.getClient = .ok (conf, tok) →
      env.driveNewService = .ok () →
      env.filesUpdate = .error e →
      gdocsHelper.RenameGoogleDoc env fileID newTitle
        = (.err ("gdocsHelper: unable to rename file: " ++ e),
           [Event.auth, Event.client conf.isNone, Event.newService .drive, Event.api .filesUpdate]) := by
  intro env fileID newTitle e conf tok hc hs hop
  unfold gdocsHelper.RenameGoogleDoc
  rw [hc, hs, hop]
  (try rfl)

/-- A failure of the API call inside `gdocsHelper.ReplaceMultipleTexts` returns the wrapped error at
once. -/
theorem ReplaceMultipleTexts_batch_fail :
    ∀ env (docID : String) (replacements : List (String × String)) e conf tok, env.getClient = .ok (conf, tok) →
      env.docsNewService = .ok () →
      env.batchUpdate = .error e →
      gdocsHelper.ReplaceMultipleTexts env docID replacements
        = (.err ("gdocsHelper: unable to replace multiple texts: " ++ e),
           [Event.auth, Event.client conf.isNone, Event.newService .docs,
             Event.api (.batchUpdate docID
               (replacements.map (fun r => DocsRequest.replaceAllText r.1 r.2 true)))]) := by
  intro env docID replacements e conf tok hc hs hop
  unfold gdocsHelper.ReplaceMultipleTexts
  rw [hc, hs, hop]
  (try rfl)

/-- A failure of the API call inside `gdocsHelper.AddFilePermission` returns the wrapped error at
once. -/
theorem AddFilePermission_create_fail :
    ∀ env (fileID email role : String) e conf tok, env.getClient = .ok (conf, tok) →
      env.driveNewService = .ok () →
      env.permissionsCreate = .error e →
      gdocsHelper.AddFilePermission env fileID email role
        = (.err ("gdocsHelper: unable to add permission to file: " ++ e),
           [Event.auth, Event.client conf.isNone, Event.newService .drive, Event.api .permissionsCreate]) := by
  intro env fileID email role e conf tok hc hs hop
  unfold gdocsHelper.AddFilePermission
  rw [hc, hs, hop]
  (try rfl)

/-- A failure of the API call inside `gdocsHelper.InsertTextWithLinkAndRender` returns the wrapped error at
once. -/
theorem InsertTextWithLinkAndRender_batch_fail :
    ∀ env (docID text url : String) (locationIndex : Int) e conf tok, env.getClient = .ok (conf, tok) →
      env.docsNewService = .ok () →
      env.batchUpdate = .error e →
      gdocsHelper.InsertTextWithLinkAndRender env docID text url locationIndex
        = (.err ("gdocsHelper: unable to insert text with link: " ++ e),
           [Event.auth, Event.client conf.isNone, Event.newService .docs,
             Event.api (.batchUpdate docID
               [DocsRequest.insertText text locationIndex,
                DocsRequest.updateTextStyleLink locationIndex (locationIndex + goLen text) url])]) := by
  intro env docID text url locationIndex e conf tok hc hs hop
  unfold gdocsHelper.InsertTextWithLinkAndRender
  rw [hc, hs, hop]
  (try rfl)

/-- A failure of the API call inside `gDriveHelper.AddFolderPermission` returns the wrapped error at
once. -/
theorem AddFolderPermission_create_fail :
    ∀ env (folderID email role : String) e conf tok, env.getClient = .ok (conf, tok) →
      env.driveNewService = .ok () →
      env.permissionsCreate = .error e →
      gDriveHelper.AddFolderPermission env folderID email role
        = (.err ("gDriveHelper: unable to add permission to folder: " ++ e),
           [Event.auth, Event.client conf.isNone, Event.newService .drive, Event.api .permissionsCreate]) := by
  intro env folderID email role e conf tok hc hs hop
  unfold gDriveHelper.AddFolderPermission
  rw [hc, hs, hop]
  (try rfl)

/-- A failure of the API call inside `gDriveHelper.CopyFileToFolder` returns the wrapped error at
once. -/
theorem CopyFileToFolder_copy_fail :
    ∀ env (fileID folderID : String) e conf tok, env.getClient = .ok (conf, tok) →
      env.driveNewService = .ok () →
      env.filesCopy = .error e →
      gDriveHelper.CopyFileToFolder env fileID folderID
        = (.err ("gDriveHelper: unable to copy file to folder: " ++ e),
           [Event.auth, Event.client conf.isNone, Event.newService .drive, Event.api .filesCopy]) := by
  intro env fileID folderID e conf tok hc hs hop
  unfold gDriveHelper.CopyFileToFolder
  rw [hc, hs, hop]
  (try rfl)

/-- A failure of the API call inside `gDriveHelper.RemoveFolderPermission` returns the wrapped error at
once. -/
theorem RemoveFolderPermission_list_fail :
    ∀ env (folderID email : String) e conf tok, env.getClient = .ok (conf, tok) →
      env.driveNewService = .ok () →
      env.permissionsList = .error e →
      gDriveHelper.RemoveFolderPermission env folderID email
        = (.err ("gDriveHelper: unable to list permissions for folder: " ++ e),
           [Event.auth, Event.client conf.isNone, Event.newService .drive, Event.api .permissionsList]) := by
  intro env folderID email e conf tok hc hs hop
  unfold gDriveHelper.RemoveFolderPermission
  rw [hc, hs, hop]
  (try rfl)

/-- A failure of the API call inside `gDriveHelper.RenameFolder` returns the wrapped error at
once. -/
theorem RenameFolder_update_fail :
    ∀ env (folderID newName : String) e conf tok, env.getClient = .ok (conf, tok) →
      env.driveNewService = .ok () →
      env.filesUpdate = .error e →
      gDriveHelper.RenameFolder env folderID newName
        = (.err ("gDriveHelper: unable to rename folder: " ++ e),
           [Event.auth, Event.client conf.isNone, Event.newService .drive, Event.api .filesUpdate]) := by
  intro env folderID newName e conf tok hc hs hop
  unfold gDriveHelper.RenameFolder
  rw [hc, hs, hop]
  (try rfl)

/-- A failure of the API call inside `gDriveHelper.DeleteFileOrFolder` returns the wrapped error at
once. -/
theorem DeleteFileOrFolder_delete_fail :
    ∀ env (folderFileID : String) e conf tok, env.getClient = .ok (conf, tok) →
      env.driveNewService = .ok () →
      env.filesDelete = .error e →
      gDriveHelper.DeleteFileOrFolder env folderFileID
        = (.err ("gDriveHelper: unable to delete folder or file: " ++ e),
           [Event.auth, Event.client conf.isNone, Event.newService .drive, Event.api .filesDelete]) := by
  intro env folderFileID e conf tok hc hs hop
  unfold gDriveHelper.DeleteFileOrFolder
  rw [hc, hs, hop]
  (try rfl)


/-- `GetDocumentEndIndex` stops at once on a fetch failure. -/
theorem GetDocumentEndIndex_get_fail :
    ∀ env (docID : String) e conf tok, env.getClient = .ok (conf, tok) →
      env.docsNewService = .ok () → env.documentsGet = .error e →
      gdocsHelper.GetDocumentEndIndex env docID
        = (.err ("gdocsHelper: unable to retrieve document: " ++ e),
           [Event.auth, Event.client conf.isNone, Event.newService .docs,
            Event.api (.documentsGet docID)]) := by
  intro env docID e conf tok hc hs hd
  unfold gdocsHelper.GetDocumentEndIndex
  rw [hc, hs, hd]

/-- A batch-update failure inside `AddTextBetweenLines` (lines found)
returns the wrapped error at once. -/
theorem AddTextBetweenLines_batch_fail :
    ∀ env (docID startLine endLine textToAdd : String) e conf tok doc s eIdx,
      env.getClient = .ok (conf, tok) → env.docsNewService = .ok () →
      env.documentsGet = .ok doc →
      findBetweenIndices startLine endLine doc.body.content = (s, eIdx) →
      s ≠ -1 → eIdx ≠ -1 → s < eIdx → env.batchUpdate = .error e →
      gdocsHelper.AddTextBetweenLines env docID startLine endLine textToAdd
        = (.err ("gdocsHelper: unable to insert text between lines: " ++ e),
           [Event.auth, Event.client conf.isNone, Event.newService .docs,
            Event.api (.documentsGet docID),
            Event.api (.batchUpdate docID
              [DocsRequest.insertText (textToAdd ++ "\n") (s + goLen startLine + 1)])]) := by
  intro env docID startLine endLine textToAdd e conf tok doc s eIdx hc hs hd hf h1 h2 hlt hb
  unfold gdocsHelper.AddTextBetweenLines
  rw [hc, hs, hd]
  (try dsimp only)
  rw [hf]
  (try dsimp only)
  rw [hb]
  (repeat' split) <;> first | rfl | omega | simp_all

/-- A batch-update failure inside `AddTextAfterLine` (line found) returns
the wrapped error at once. -/
theorem AddTextAfterLine_batch_fail :
    ∀ env (docID lineContent textToAdd : String) e conf tok doc i,
      env.getClient = .ok (conf, tok) → env.docsNewService = .ok () →
      env.documentsGet = .ok doc →
      findInsertIndexAfterLine lineContent doc.body.content = i → i ≠ -1 →
      env.batchUpdate = .error e →
      gdocsHelper.AddTextAfterLine env docID lineContent textToAdd
        = (.err ("gdocsHelper: unable to insert text after line: " ++ e),
           [Event.auth, Event.client conf.isNone, Event.newService .docs,
            Event.api (.documentsGet docID),
            Event.api (.batchUpdate docID
              [DocsRequest.insertText (textToAdd ++ "\n") i])]) := by
  intro env docID lineContent textToAdd e conf tok doc i hc hs hd hf hne hb
  unfold gdocsHelper.AddTextAfterLine
  rw [hc, hs, hd]
  (try dsimp only)
  rw [hf]
  (try dsimp only)
  rw [hb]
  (repeat' split) <;> first | rfl | simp_all

/-- A batch-update failure inside `AddTextAfterPatternInLine` (pattern
found) returns the wrapped error at once. -/
theorem AddTextAfterPatternInLine_batch_fail :
    ∀ env (docID pattern textToAdd : String) e conf tok doc i,
      env.getClient = .ok (conf, tok) → env.docsNewService = .ok () →
      env.documentsGet = .ok doc →
      findInsertIndexAfterPattern pattern doc.body.content = i → i ≠ -1 →
      env.batchUpdate = .error e →
      gdocsHelper.AddTextAfterPatternInLine env docID pattern textToAdd
        = (.err ("gdocsHelper: unable to insert text after pattern: " ++ e),
           [Event.auth, Event.client conf.isNone, Event.newService .docs,
            Event.api (.documentsGet docID),
            Event.api (.batchUpdate docID [DocsRequest.insertText textToAdd i])]) := by
  intro env docID pattern textToAdd e conf tok doc i hc hs hd hf hne hb
  unfold gdocsHelper.AddTextAfterPatternInLine
  rw [hc, hs, hd]
  (try dsimp only)
  rw [hf]
  (try dsimp only)
  rw [hb]
  (repeat' split) <;> first | rfl | simp_all

/-- A batch-update failure inside `AddTable` (non-empty content) returns
the wrapped error at once. -/
theorem AddTable_batch_fail :
    ∀ env (docID : String) (rows columns : Int) e conf tok doc lastEl,
      env.getClient = .ok (conf, tok) → env.docsNewService = .ok () →
      env.documentsGet = .ok doc → doc.body.content.getLast? = some lastEl →
      env.batchUpdate = .error e →
      gdocsHelper.AddTable env docID rows columns
        = (.err ("gdocsHelper: unable to add table: " ++ e),
           [Event.auth, Event.client conf.isNone, Event.newService .docs,
            Event.api (.documentsGet docID),
            Event.api (.batchUpdate docID
              [DocsRequest.insertTable rows columns (lastEl.endIndex - 1)])]) := by
  intro env docID rows columns e conf tok doc lastEl hc hs hd hl hb
  unfold gdocsHelper.AddTable
  rw [hc, hs, hd]
  (try dsimp only)
  rw [hl]
  (try dsimp only)
  rw [hb]

/-- A batch-update failure inside `AddTextToTableCell` (table found,
indices in range) returns the wrapped error at once. -/
theorem AddTextToTableCell_batch_fail :
    ∀ env (docID : String) (tableIndex rowIndex columnIndex : Int) (text : String)
      e conf tok doc tc tb row cell,
      env.getClient = .ok (conf, tok) → env.docsNewService = .ok () →
      env.documentsGet = .ok doc →
      findTable tableIndex doc.body.content = some (tc, tb) →
      goSliceGet tb.tableRows rowIndex = some row →
      goSliceGet row.tableCells columnIndex = some cell →
      env.batchUpdate = .error e →
      gdocsHelper.AddTextToTableCell env docID tableIndex rowIndex columnIndex text
        = (.err ("gdocsHelper: unable to add text to table cell: " ++ e),
           [Event.auth, Event.client conf.isNone, Event.newService .docs,
            Event.api (.documentsGet docID),
            Event.api (.batchUpdate docID
              [DocsRequest.insertText text (cell.startIndex + 1)])]) := by
  intro env docID tableIndex rowIndex columnIndex text e conf tok doc tc tb row cell
    hc hs hd hft hrow hcell hb
  unfold gdocsHelper.AddTextToTableCell
  rw [hc, hs, hd]
  (try dsimp only)
  rw [hft]
  (try dsimp only)
  rw [hrow]
  (try dsimp only)
  rw [hcell]
  (try dsimp only)
  rw [hb]

/-- A batch-update failure inside `AddLinkToText` (text found) returns the
wrapped error at once. -/
theorem AddLinkToText_batch_fail :
    ∀ env (docID searchText url : String) e conf tok doc s eIdx,
      env.getClient = .ok (conf, tok) → env.docsNewService = .ok () →
      env.documentsGet = .ok doc →
      findLinkRange searchText doc.body.content = (s, eIdx) →
      s ≠ -1 → eIdx ≠ -1 → env.batchUpdate = .error e →
      gdocsHelper.AddLinkToText env docID searchText url
        = (.err ("gdocsHelper: unable to add link to text: " ++ e),
           [Event.auth, Event.client conf.isNone, Event.newService .docs,
            Event.api (.documentsGet docID),
            Event.api (.batchUpdate docID
              [DocsRequest.updateTextStyleLink s eIdx url])]) := by
  intro env docID searchText url e conf tok doc s eIdx hc hs hd hf h1 h2 hb
  unfold gdocsHelper.AddLinkToText
  rw [hc, hs, hd]
  (try dsimp only)
  rw [hf]
  (try dsimp only)
  rw [hb]
  (repeat' split) <;> first | rfl | simp_all

/-- A batch-update failure inside `SetColorToTableCell` (table found)
returns the wrapped error at once. -/
theorem SetColorToTableCell_batch_fail :
    ∀ env (docID : String) (tableIndex rowIndex columnIndex : Int) e conf tok doc tc tb,
      env.getClient = .ok (conf, tok) → env.docsNewService = .ok () →
      env.documentsGet = .ok doc →
      findTable tableIndex doc.body.content = some (tc, tb) →
      env.batchUpdate = .error e →
      gdocsHelper.SetColorToTableCell env docID tableIndex rowIndex columnIndex
        = (.err ("gdocsHelper: unable to set color to table cell: " ++ e),
           [Event.auth, Event.client conf.isNone, Event.newService .docs,
            Event.api (.documentsGet docID),
            Event.api (.batchUpdate docID
              [DocsRequest.updateTableCellStyle tc.startIndex rowIndex columnIndex])]) := by
  intro env docID tableIndex rowIndex columnIndex e conf tok doc tc tb hc hs hd hft hb
  unfold gdocsHelper.SetColorToTableCell
  rw [hc, hs, hd]
  (try dsimp only)
  rw [hft]
  (try dsimp only)
  rw [hb]

/-- A delete failure inside `RemoveFolderPermission` (permission found)
returns the wrapped error at once. -/
theorem RemoveFolderPermission_delete_fail :
    ∀ env (folderID email : String) e conf tok perms,
      env.getClient = .ok (conf, tok) → env.driveNewService = .ok () →
      env.permissionsList = .ok perms → gDriveHelper.findPermissionID email perms ≠ "" →
      env.permissionsDelete = .error e →
      gDriveHelper.RemoveFolderPermission env folderID email
        = (.err ("gDriveHelper: unable to remove permission: " ++ e),
           [Event.auth, Event.client conf.isNone, Event.newService .drive,
            Event.api .permissionsList, Event.api .permissionsDelete]) := by
  intro env folderID email e conf tok perms hc hs hl hne hd
  unfold gDriveHelper.RemoveFolderPermission
  rw [hc, hs, hl]
  (try dsimp only)
  rw [hd]
  (repeat' split) <;> first | rfl | simp_all

/-- A timezone-load failure inside `CreateCalendarEvent` returns the
wrapped error before any API call. -/
theorem CreateCalendarEvent_location_fail :
    ∀ env (summary location description : String) (startTime endTime : GoTime) e conf tok,
      env.getClient = .ok (conf, tok) → env.calendarNewService = .ok () →
      env.loadLocationJST = .error e →
      gMeetHelper.CreateCalendarEvent env summary location description startTime endTime
        = (.err ("gMeetHelper: unable to load Japanese timezone: " ++ e),
           [Event.auth, Event.client conf.isNone, Event.newService .calendar]) := by
  intro env summary location description startTime endTime e conf tok hc hs hl
  unfold gMeetHelper.CreateCalendarEvent
  rw [hc, hs, hl]

/-- An insert failure inside `CreateCalendarEvent` returns the wrapped
error at once. -/
theorem CreateCalendarEvent_insert_fail :
    ∀ env (summary location description : String) (startTime endTime : GoTime) e conf tok,
      env.getClient = .ok (conf, tok) → env.calendarNewService = .ok () →
      env.loadLocationJST = .ok () → env.eventsInsert = .error e →
      gMeetHelper.CreateCalendarEvent env summary location description startTime endTime
        = (.err ("gMeetHelper: unable to create calendar event: " ++ e),
           [Event.auth, Event.client conf.isNone, Event.newService .calendar,
            Event.api (.eventsInsert
              (gMeetHelper.buildCalendarEvent summary location description
                startTime endTime))]) := by
  intro env summary location description startTime endTime e conf tok hc hs hl hins
  unfold gMeetHelper.CreateCalendarEvent
  rw [hc, hs, hl]
  (try dsimp only)
  rw [hins]

/-- An event-fetch failure inside `AddAttendeesToEvent` returns the wrapped
error at once. -/
theorem AddAttendeesToEvent_get_fail :
    ∀ env (eventID : String) (attendees : List String) e conf tok,
      env.getClient = .ok (conf, tok) → env.calendarNewService = .ok () →
      env.eventsGet = .error e →
      gMeetHelper.AddAttendeesToEvent env eventID attendees
        = (.err ("gMeetHelper: unable to retrieve event: " ++ e),
           [Event.auth, Event.client conf.isNone, Event.newService .calendar,
            Event.api (.eventsGet eventID)]) := by
  intro env eventID attendees e conf tok hc hs hg
  unfold gMeetHelper.AddAttendeesToEvent
  rw [hc, hs, hg]

/-- An update failure inside `AddAttendeesToEvent` returns the wrapped
error at once. -/
theorem AddAttendeesToEvent_update_fail :
    ∀ env (eventID : String) (attendees : List String) e conf tok event,
      env.getClient = .ok (conf, tok) → env.calendarNewService = .ok () →
      env.eventsGet = .ok event → env.eventsUpdate = .error e →
      gMeetHelper.AddAttendeesToEvent env eventID attendees
        = (.err ("gMeetHelper: unable to add attendees to event: " ++ e),
           [Event.auth, Event.client conf.isNone, Event.newService .calendar,
            Event.api (.eventsGet eventID),
            Event.api (.eventsUpdate
              { event with attendees := event.attendees ++ attendees })]) := by
  intro env eventID attendees e conf tok event hc hs hg hu
  unfold gMeetHelper.AddAttendeesToEvent
  rw [hc, hs, hg]
  (try dsimp only)
  rw [hu]

/-- A file-metadata-fetch failure inside `AttachFileToEvent` returns the
wrapped error at once. -/
theorem AttachFileToEvent_filesGet_fail :
    ∀ env (eventID fileID : String) e conf tok,
      env.getClient = .ok (conf, tok) → env.driveNewService = .ok () →
      env.filesGet = .error e →
      gMeetHelper.AttachFileToEvent env eventID fileID
        = (.err ("gMeetHelper: unable to retrieve file metadata: " ++ e),
           [Event.auth, Event.client conf.isNone, Event.newService .drive,
            Event.api .filesGet]) := by
  intro env eventID fileID e conf tok hc hs hg
  unfold gMeetHelper.AttachFileToEvent
  rw [hc, hs, hg]

/-- A calendar-service construction failure inside `AttachFileToEvent`
(its SECOND service) returns the wrapped error at once. -/
theorem AttachFileToEvent_calendarService_fail :
    ∀ env (eventID fileID : String) e conf tok file,
      env.getClient = .ok (conf, tok) → env.driveNewService = .ok () →
      env.filesGet = .ok file → env.calendarNewService = .error e →
      gMeetHelper.AttachFileToEvent env eventID fileID
        = (.err ("gMeetHelper: unable to create Calendar service: " ++ e),
           [Event.auth, Event.client conf.isNone, Event.newService .drive,
            Event.api .filesGet, Event.newService .calendar]) := by
  intro env eventID fileID e conf tok file hc hs hg hcal
  unfold gMeetHelper.AttachFileToEvent
  rw [hc, hs, hg]
  (try dsimp only)
  rw [hcal]

/-- An event-fetch failure inside `AttachFileToEvent` returns the wrapped
error at once. -/
theorem AttachFileToEvent_eventsGet_fail :
    ∀ env (eventID fileID : String) e conf tok file,
      env.getClient = .ok (conf, tok) → env.driveNewService = .ok () →
      env.filesGet = .ok file → env.calendarNewService = .ok () →
      env.eventsGet = .error e →
      gMeetHelper.AttachFileToEvent env eventID fileID
        = (.err ("gMeetHelper: unable to retrieve event: " ++ e),
           [Event.auth, Event.client conf.isNone, Event.newService .drive,
            Event.api .filesGet, Event.newService .calendar,
            Event.api (.eventsGet eventID)]) := by
  intro env eventID fileID e conf tok file hc hs hg hcal heg
  unfold gMeetHelper.AttachFileToEvent
  rw [hc, hs, hg]
  (try dsimp only)
  rw [hcal, heg]

/-- An update failure inside `AttachFileToEvent` returns the wrapped error
at once. -/
theorem AttachFileToEvent_update_fail :
    ∀ env (eventID fileID : String) e conf tok file event,
      env.getClient = .ok (conf, tok) → env.driveNewService = .ok () →
      env.filesGet = .ok file → env.calendarNewService = .ok () →
      env.eventsGet = .ok event → env.eventsUpdate = .error e →
      gMeetHelper.AttachFileToEvent env eventID fileID
        = (.err ("gMeetHelper: unable to attach file to event: " ++ e),
           [Event.auth, Event.client conf.isNone, Event.newService .drive,
            Event.api .filesGet, Event.newService .calendar,
            Event.api (.eventsGet eventID),
            Event.api (.eventsUpdate
              { event with attachments := event.attachments ++
                  [{ fileId := fileID, fileUrl := file.webViewLink,
                     title := file.name, mimeType := file.mimeType }] })]) := by
  intro env eventID fileID e conf tok file event hc hs hg hcal heg hu
  unfold gMeetHelper.AttachFileToEvent
  rw [hc, hs, hg]
  (try dsimp only)
  rw [hcal, heg]
  (try dsimp only)
  rw [hu]

/-! ### Claim theorems C2, C3, C6, C8 -/

/-- C2 (amended): every exported helper except the pure `GetDocumentURL`
calls `auth.GetClient` exactly once per invocation, and each issues at most
its fixed number of API invocations — one for the single-call helpers, two
where a preparatory read precedes the edit, three for `AttachFileToEvent`;
`GetDocumentURL` is pure string formatting with no authentication and no
API call. -/
theorem C2_auth_once_api_bounded :
    (∀ env (title : String),
      authCount (gdocsHelper.CreateGoogleDoc env title).2 = 1 ∧ apiCount (gdocsHelper.CreateGoogleDoc env title).2 ≤ 1) ∧
    (∀ env (docID text : String),
      authCount (gdocsHelper.AddText env docID text).2 = 1 ∧ apiCount (gdocsHelper.AddText env docID text).2 ≤ 2) ∧
    (∀ env (docID oldText newText : String),
      authCount (gdocsHelper.ReplaceText env docID oldText newText).2 = 1 ∧ apiCount (gdocsHelper.ReplaceText env docID oldText newText).2 ≤ 1) ∧
    (∀ env (fileID newTitle : String),
      authCount (gdocsHelper.MakeCopyOfGoogleDoc env fileID newTitle).2 = 1 ∧ apiCount (gdocsHelper.MakeCopyOfGoogleDoc env fileID newTitle).2 ≤ 1) ∧
    (∀ env (fileID : String),
      authCount (gdocsHelper.ExportGoogleDocAsText env fileID).2 = 1 ∧ apiCount (gdocsHelper.ExportGoogleDocAsText env fileID).2 ≤ 1) ∧
    (∀ env (fileID newTitle : String),
      authCount (gdocsHelper.RenameGoogleDoc env fileID newTitle).2 = 1 ∧ apiCount (gdocsHelper.RenameGoogleDoc env fileID newTitle).2 ≤ 1) ∧
    (∀ env (docID startLine endLine textToAdd : String),
      authCount (gdocsHelper.AddTextBetweenLines env docID startLine endLine textToAdd).2 = 1 ∧ apiCount (gdocsHelper.AddTextBetweenLines env docID startLine endLine textToAdd).2 ≤ 2) ∧
    (∀ env (docID lineContent textToAdd : String),
      authCount (gdocsHelper.AddTextAfterLine env docID lineContent textToAdd).2 = 1 ∧ apiCount (gdocsHelper.AddTextAfterLine env docID lineContent textToAdd).2 ≤ 2) ∧
    (∀ env (docID pattern textToAdd : String),
      authCount (gdocsHelper.AddTextAfterPatternInLine env docID pattern textToAdd).2 = 1 ∧ apiCount (gdocsHelper.AddTextAfterPatternInLine env docID pattern textToAdd).2 ≤ 2) ∧
    (∀ env (docID : String) (rows columns : Int),
      authCount (gdocsHelper.AddTable env docID rows columns).2 = 1 ∧ apiCount (gdocsHelper.AddTable env docID rows columns).2 ≤ 2) ∧
    (∀ env (docID : String) (tableIndex rowIndex columnIndex : Int) (text : String),
      authCount (gdocsHelper.AddTextToTableCell env docID tableIndex rowIndex columnIndex text).2 = 1 ∧ apiCount (gdocsHelper.AddTextToTableCell env docID tableIndex rowIndex columnIndex text).2 ≤ 2) ∧
    (∀ env (docID searchText url : String),
      authCount (gdocsHelper.AddLinkToText env docID searchText url).2 = 1 ∧ apiCount (gdocsHelper.AddLinkToText env docID searchText url).2 ≤ 2) ∧
    (∀ env (docID : String) (replacements : List (String × String)),
      authCount (gdocsHelper.ReplaceMultipleTexts env docID replacements).2 = 1 ∧ apiCount (gdocsHelper.ReplaceMultipleTexts env docID replacements).2 ≤ 1) ∧
    (∀ env (docID : String) (tableIndex rowIndex columnIndex : Int),
      authCount (gdocsHelper.SetColorToTableCell env docID tableIndex rowIndex columnIndex).2 = 1 ∧ apiCount (gdocsHelper.SetColorToTableCell env docID tableIndex rowIndex columnIndex).2 ≤ 2) ∧
    (∀ env (fileID email role : String),
      authCount (gdocsHelper.AddFilePermission env fileID email role).2 = 1 ∧ apiCount (gdocsHelper.AddFilePermission env fileID email role).2 ≤ 1) ∧
    (∀ env (docID text url : String) (locationIndex : Int),
      authCount (gdocsHelper.InsertTextWithLinkAndRender env docID text url locationIndex).2 = 1 ∧ apiCount (gdocsHelper.InsertTextWithLinkAndRender env docID text url locationIndex).2 ≤ 1) ∧
    (∀ env (docID : String),
      authCount (gdocsHelper.GetDocumentEndIndex env docID).2 = 1 ∧ apiCount (gdocsHelper.GetDocumentEndIndex env docID).2 ≤ 1) ∧
    (∀ env (name : String),
      authCount (gDriveHelper.CreateFolder env name).2 = 1 ∧ apiCount (gDriveHelper.CreateFolder env name).2 ≤ 1) ∧
    (∀ env (folderID email role : String),
      authCount (gDriveHelper.AddFolderPermission env folderID email role).2 = 1 ∧ apiCount (gDriveHelper.AddFolderPermission env folderID email role).2 ≤ 1) ∧
    (∀ env (fileID folderID : String),
      authCount (gDriveHelper.CopyFileToFolder env fileID folderID).2 = 1 ∧ apiCount (gDriveHelper.CopyFileToFolder env fileID folderID).2 ≤ 1) ∧
    (∀ env (folderID email : String),
      authCount (gDriveHelper.RemoveFolderPermission env folderID email).2 = 1 ∧ apiCount (gDriveHelper.RemoveFolderPermission env folderID email).2 ≤ 2) ∧
    (∀ env (folderID newName : String),
      authCount (gDriveHelper.RenameFolder env folderID newName).2 = 1 ∧ apiCount (gDriveHelper.RenameFolder env folderID newName).2 ≤ 1) ∧
    (∀ env (folderFileID : String),
      authCount (gDriveHelper.DeleteFileOrFolder env folderFileID).2 = 1 ∧ apiCount (gDriveHelper.DeleteFileOrFolder env folderFileID).2 ≤ 1) ∧
    (∀ env (summary location description : String) (startTime endTime : GoTime),
      authCount (gMeetHelper.CreateCalendarEvent env summary location description startTime endTime).2 = 1 ∧ apiCount (gMeetHelper.CreateCalendarEvent env summary location description startTime endTime).2 ≤ 1) ∧
    (∀ env (eventID : String) (attendees : List String),
      authCount (gMeetHelper.AddAttendeesToEvent env eventID attendees).2 = 1 ∧ apiCount (gMeetHelper.AddAttendeesToEvent env eventID attendees).2 ≤ 2) ∧
    (∀ env (eventID fileID : String),
      authCount (gMeetHelper.AttachFileToEvent env eventID fileID).2 = 1 ∧ apiCount (gMeetHelper.AttachFileToEvent env eventID fileID).2 ≤ 3) ∧
    (∀ fileID, gdocsHelper.GetDocumentURL fileID
      = "https://docs.google.com/document/d/" ++ fileID ++ "/edit") :=
  ⟨fun env title => ⟨(CreateGoogleDoc_profile).2.1 env title, (CreateGoogleDoc_profile).2.2.1 env title⟩,
   fun env docID text => ⟨(AddText_profile).2.1 env docID text, (AddText_profile).2.2.1 env docID text⟩,
   fun env docID oldText newText => ⟨(ReplaceText_profile).2.1 env docID oldText newText, (ReplaceText_profile).2.2.1 env docID oldText newText⟩,
   fun env fileID newTitle => ⟨(MakeCopyOfGoogleDoc_profile).2.1 env fileID newTitle, (MakeCopyOfGoogleDoc_profile).2.2.1 env fileID newTitle⟩,
   fun env fileID => ⟨(ExportGoogleDocAsText_profile).2.1 env fileID, (ExportGoogleDocAsText_profile).2.2.1 env fileID⟩,
   fun env fileID newTitle => ⟨(RenameGoogleDoc_profile).2.1 env fileID newTitle, (RenameGoogleDoc_profile).2.2.1 env fileID newTitle⟩,
   fun env docID startLine endLine textToAdd => ⟨(AddTextBetweenLines_profile).2.1 env docID startLine endLine textToAdd, (AddTextBetweenLines_profile).2.2.1 env docID startLine endLine textToAdd⟩,
   fun env docID lineContent textToAdd => ⟨(AddTextAfterLine_profile).2.1 env docID lineContent textToAdd, (AddTextAfterLine_profile).2.2.1 env docID lineContent textToAdd⟩,
   fun env docID pattern textToAdd => ⟨(AddTextAfterPatternInLine_profile).2.1 env docID pattern textToAdd, (AddTextAfterPatternInLine_profile).2.2.1 env docID pattern textToAdd⟩,
   fun env docID rows columns => ⟨(AddTable_profile).2.1 env docID rows columns, (AddTable_profile).2.2.1 env docID rows columns⟩,
   fun env docID tableIndex rowIndex columnIndex text => ⟨(AddTextToTableCell_profile).2.1 env docID tableIndex rowIndex columnIndex text, (AddTextToTableCell_profile).2.2.1 env docID tableIndex rowIndex columnIndex text⟩,
   fun env docID searchText url => ⟨(AddLinkToText_profile).2.1 env docID searchText url, (AddLinkToText_profile).2.2.1 env docID searchText url⟩,
   fun env docID replacements => ⟨(ReplaceMultipleTexts_profile).2.1 env docID replacements, (ReplaceMultipleTexts_profile).2.2.1 env docID replacements⟩,
   fun env docID tableIndex rowIndex columnIndex => ⟨(SetColorToTableCell_profile).2.1 env docID tableIndex rowIndex columnIndex, (SetColorToTableCell_profile).2.2.1 env docID tableIndex rowIndex columnIndex⟩,
   fun env fileID email role => ⟨(AddFilePermission_profile).2.1 env fileID email role, (AddFilePermission_profile).2.2.1 env fileID email role⟩,
   fun env docID text url locationIndex => ⟨(InsertTextWithLinkAndRender_profile).2.1 env docID text url locationIndex, (InsertTextWithLinkAndRender_profile).2.2.1 env docID text url locationIndex⟩,
   fun env docID => ⟨(GetDocumentEndIndex_profile).2.1 env docID, (GetDocumentEndIndex_profile).2.2.1 env docID⟩,
   fun env name => ⟨(CreateFolder_profile).2.1 env name, (CreateFolder_profile).2.2.1 env name⟩,
   fun env folderID email role => ⟨(AddFolderPermission_profile).2.1 env folderID email role, (AddFolderPermission_profile).2.2.1 env folderID email role⟩,
   fun env fileID folderID => ⟨(CopyFileToFolder_profile).2.1 env fileID folderID, (CopyFileToFolder_profile).2.2.1 env fileID folderID⟩,
   fun env folderID email => ⟨(RemoveFolderPermission_profile).2.1 env folderID email, (RemoveFolderPermission_profile).2.2.1 env folderID email⟩,
   fun env folderID newName => ⟨(RenameFolder_profile).2.1 env folderID newName, (RenameFolder_profile).2.2.1 env folderID newName⟩,
   fun env folderFileID => ⟨(DeleteFileOrFolder_profile).2.1 env folderFileID, (DeleteFileOrFolder_profile).2.2.1 env folderFileID⟩,
   fun env summary location description startTime endTime => ⟨(CreateCalendarEvent_profile).2.1 env summary location description startTime endTime, (CreateCalendarEvent_profile).2.2.1 env summary location description startTime endTime⟩,
   fun env eventID attendees => ⟨(AddAttendeesToEvent_profile).2.1 env eventID attendees, (AddAttendeesToEvent_profile).2.2.1 env eventID attendees⟩,
   fun env eventID fileID => ⟨(AttachFileToEvent_profile).2.1 env eventID fileID, (AttachFileToEvent_profile).2.2.1 env eventID fileID⟩,
   fun fileID => rfl⟩

/-- C3 (amended): every exported helper that performs I/O calls
`auth.GetClient` first on each invocation (the pure `GetDocumentURL` calls
nothing); the document-editing functions that derive positions from
document content (`AddText`, `AddTextBetweenLines`, `AddTextAfterLine`,
`AddTextAfterPatternInLine`, `AddTable`, `AddTextToTableCell`,
`AddLinkToText`, `SetColorToTableCell`) re-fetch the document from the
remote service — exactly one `Documents.Get`, issued right after the
prologue and before the edit — while `ReplaceText`, `RenameGoogleDoc`,
`ReplaceMultipleTexts` and `InsertTextWithLinkAndRender` issue their edits
without any fetch. -/
theorem C3_reauth_and_refetch :
    (      (∀ env (title : String),
        ((gdocsHelper.CreateGoogleDoc env title).2).head? = some Event.auth) ∧
      (∀ env (docID text : String),
        ((gdocsHelper.AddText env docID text).2).head? = some Event.auth) ∧
      (∀ env (docID oldText newText : String),
        ((gdocsHelper.ReplaceText env docID oldText newText).2).head? = some Event.auth) ∧
      (∀ env (fileID newTitle : String),
        ((gdocsHelper.MakeCopyOfGoogleDoc env fileID newTitle).2).head? = some Event.auth) ∧
      (∀ env (fileID : String),
        ((gdocsHelper.ExportGoogleDocAsText env fileID).2).head? = some Event.auth) ∧
      (∀ env (fileID newTitle : String),
        ((gdocsHelper.RenameGoogleDoc env fileID newTitle).2).head? = some Event.auth) ∧
      (∀ env (docID startLine endLine textToAdd : String),
        ((gdocsHelper.AddTextBetweenLines env docID startLine endLine textToAdd).2).head? = some Event.auth) ∧
      (∀ env (docID lineContent textToAdd : String),
        ((gdocsHelper.AddTextAfterLine env docID lineContent textToAdd).2).head? = some Event.auth) ∧
      (∀ env (docID pattern textToAdd : String),
        ((gdocsHelper.AddTextAfterPatternInLine env docID pattern textToAdd).2).head? = some Event.auth) ∧
      (∀ env (docID : String) (rows columns : Int),
        ((gdocsHelper.AddTable env docID rows columns).2).head? = some Event.auth) ∧
      (∀ env (docID : String) (tableIndex rowIndex columnIndex : Int) (text : String),
        ((gdocsHelper.AddTextToTableCell env docID tableIndex rowIndex columnIndex text).2).head? = some Event.auth) ∧
      (∀ env (docID searchText url : String),
        ((gdocsHelper.AddLinkToText env docID searchText url).2).head? = some Event.auth) ∧
      (∀ env (docID : String) (replacements : List (String × String)),
        ((gdocsHelper.ReplaceMultipleTexts env docID replacements).2).head? = some Event.auth) ∧
      (∀ env (docID : String) (tableIndex rowIndex columnIndex : Int),
        ((gdocsHelper.SetColorToTableCell env docID tableIndex rowIndex columnIndex).2).head? = some Event.auth) ∧
      (∀ env (fileID email role : String),
        ((gdocsHelper.AddFilePermission env fileID email role).2).head? = some Event.auth) ∧
      (∀ env (docID text url : String) (locationIndex : Int),
        ((gdocsHelper.InsertTextWithLinkAndRender env docID text url locationIndex).2).head? = some Event.auth) ∧
      (∀ env (docID : String),
        ((gdocsHelper.GetDocumentEndIndex env docID).2).head? = some Event.auth) ∧
      (∀ env (name : String),
        ((gDriveHelper.CreateFolder env name).2).head? = some Event.auth) ∧
      (∀ env (folderID email role : String),
        ((gDriveHelper.AddFolderPermission env folderID email role).2).head? = some Event.auth) ∧
      (∀ env (fileID folderID : String),
        ((gDriveHelper.CopyFileToFolder env fileID folderID).2).head? = some Event.auth) ∧
      (∀ env (folderID email : String),
        ((gDriveHelper.RemoveFolderPermission env folderID email).2).head? = some Event.auth) ∧
      (∀ env (folderID newName : String),
        ((gDriveHelper.RenameFolder env folderID newName).2).head? = some Event.auth) ∧
      (∀ env (folderFileID : String),
        ((gDriveHelper.DeleteFileOrFolder env folderFileID).2).head? = some Event.auth) ∧
      (∀ env (summary location description : String) (startTime endTime : GoTime),
        ((gMeetHelper.CreateCalendarEvent env summary location description startTime endTime).2).head? = some Event.auth) ∧
      (∀ env (eventID : String) (attendees : List String),
        ((gMeetHelper.AddAttendeesToEvent env eventID attendees).2).head? = some Event.auth) ∧
      (∀ env (eventID fileID : String),
        ((gMeetHelper.AttachFileToEvent env eventID fileID).2).head? = some Event.auth)) ∧
    (      (∀ env (docID text : String) conf tok doc, env.getClient = .ok (conf, tok) →
        env.docsNewService = .ok () → env.documentsGet = .ok doc →
        ((gdocsHelper.AddText env docID text).2.take 4
            = [Event.auth, Event.client conf.isNone, Event.newService .docs,
               Event.api (.documentsGet docID)]) ∧
          docGetCount (gdocsHelper.AddText env docID text).2 = 1) ∧
      (∀ env (docID startLine endLine textToAdd : String) conf tok doc, env.getClient = .ok (conf, tok) →
        env.docsNewService = .ok () → env.documentsGet = .ok doc →
        ((gdocsHelper.AddTextBetweenLines env docID startLine endLine textToAdd).2.take 4
            = [Event.auth, Event.client conf.isNone, Event.newService .docs,
               Event.api (.documentsGet docID)]) ∧
          docGetCount (gdocsHelper.AddTextBetweenLines env docID startLine endLine textToAdd).2 = 1) ∧
      (∀ env (docID lineContent textToAdd : String) conf tok doc, env.getClient = .ok (conf, tok) →
        env.docsNewService = .ok () → env.documentsGet = .ok doc →
        ((gdocsHelper.AddTextAfterLine env docID lineContent textToAdd).2.take 4
            = [Event.auth, Event.client conf.isNone, Event.newService .docs,
               Event.api (.documentsGet docID)]) ∧
          docGetCount (gdocsHelper.AddTextAfterLine env docID lineContent textToAdd).2 = 1) ∧
      (∀ env (docID pattern textToAdd : String) conf tok doc, env.getClient = .ok (conf, tok) →
        env.docsNewService = .ok () → env.documentsGet = .ok doc →
        ((gdocsHelper.AddTextAfterPatternInLine env docID pattern textToAdd).2.take 4
            = [Event.auth, Event.client conf.isNone, Event.newService .docs,
               Event.api (.documentsGet docID)]) ∧
          docGetCount (gdocsHelper.AddTextAfterPatternInLine env docID pattern textToAdd).2 = 1) ∧
      (∀ env (docID : String) (rows columns : Int) conf tok doc, env.getClient = .ok (conf, tok) →
        env.docsNewService = .ok () → env.documentsGet = .ok doc →
        ((gdocsHelper.AddTable env docID rows columns).2.take 4
            = [Event.auth, Event.client conf.isNone, Event.newService .docs,
               Event.api (.documentsGet docID)]) ∧
          docGetCount (gdocsHelper.AddTable env docID rows columns).2 = 1) ∧
      (∀ env (docID : String) (tableIndex rowIndex columnIndex : Int) (text : String) conf tok doc, env.getClient = .ok (conf, tok) →
        env.docsNewService = .ok () → env.documentsGet = .ok doc →
        ((gdocsHelper.AddTextToTableCell env docID tableIndex rowIndex columnIndex text).2.take 4
            = [Event.auth, Event.client conf.isNone, Event.newService .docs,
               Event.api (.documentsGet docID)]) ∧
          docGetCount (gdocsHelper.AddTextToTableCell env docID tableIndex rowIndex columnIndex text).2 = 1) ∧
      (∀ env (docID searchText url : String) conf tok doc, env.getClient = .ok (conf, tok) →
        env.docsNewService = .ok () → env.documentsGet = .ok doc →
        ((gdocsHelper.AddLinkToText env docID searchText url).2.take 4
            = [Event.auth, Event.client conf.isNone, Event.newService .docs,
               Event.api (.documentsGet docID)]) ∧
          docGetCount (gdocsHelper.AddLinkToText env docID searchText url).2 = 1) ∧
      (∀ env (docID : String) (tableIndex rowIndex columnIndex : Int) conf tok doc, env.getClient = .ok (conf, tok) →
        env.docsNewService = .ok () → env.documentsGet = .ok doc →
        ((gdocsHelper.SetColorToTableCell env docID tableIndex rowIndex columnIndex).2.take 4
            = [Event.auth, Event.client conf.isNone, Event.newService .docs,
               Event.api (.documentsGet docID)]) ∧
          docGetCount (gdocsHelper.SetColorToTableCell env docID tableIndex rowIndex columnIndex).2 = 1)) ∧
    (      (∀ env (docID oldText newText : String), docGetCount (gdocsHelper.ReplaceText env docID oldText newText).2 = 0) ∧
      (∀ env (fileID newTitle : String), docGetCount (gdocsHelper.RenameGoogleDoc env fileID newTitle).2 = 0) ∧
      (∀ env (docID : String) (replacements : List (String × String)), docGetCount (gdocsHelper.ReplaceMultipleTexts env docID replacements).2 = 0) ∧
      (∀ env (docID text url : String) (locationIndex : Int), docGetCount (gdocsHelper.InsertTextWithLinkAndRender env docID text url locationIndex).2 = 0)) :=
  ⟨⟨(CreateGoogleDoc_profile).1,
    (AddText_profile).1,
    (ReplaceText_profile).1,
    (MakeCopyOfGoogleDoc_profile).1,
    (ExportGoogleDocAsText_profile).1,
    (RenameGoogleDoc_profile).1,
    (AddTextBetweenLines_profile).1,
    (AddTextAfterLine_profile).1,
    (AddTextAfterPatternInLine_profile).1,
    (AddTable_profile).1,
    (AddTextToTableCell_profile).1,
    (AddLinkToText_profile).1,
    (ReplaceMultipleTexts_profile).1,
    (SetColorToTableCell_profile).1,
    (AddFilePermission_profile).1,
    (InsertTextWithLinkAndRender_profile).1,
    (GetDocumentEndIndex_profile).1,
    (CreateFolder_profile).1,
    (AddFolderPermission_profile).1,
    (CopyFileToFolder_profile).1,
    (RemoveFolderPermission_profile).1,
    (RenameFolder_profile).1,
    (DeleteFileOrFolder_profile).1,
    (CreateCalendarEvent_profile).1,
    (AddAttendeesToEvent_profile).1,
    (AttachFileToEvent_profile).1⟩,
   ⟨AddText_fetches_first,
    AddTextBetweenLines_fetches_first,
    AddTextAfterLine_fetches_first,
    AddTextAfterPatternInLine_fetches_first,
    AddTable_fetches_first,
    AddTextToTableCell_fetches_first,
    AddLinkToText_fetches_first,
    SetColorToTableCell_fetches_first⟩,
   ⟨ReplaceText_no_fetch,
    RenameGoogleDoc_no_fetch,
    ReplaceMultipleTexts_no_fetch,
    InsertTextWithLinkAndRender_no_fetch⟩⟩

/-- C6: single-call error propagation with no retry, for EVERY exported
helper and EVERY step. If `auth.GetClient` fails, each helper returns at
once with the wrapped error and no API call is issued at all; if a service
construction fails (including `AttachFileToEvent`'s second, calendar
service), the helper stops before the next call; if a document fetch fails,
every fetching helper (and `GetDocumentEndIndex`) stops; and if the final
API operation fails — the create / copy / update / delete / export /
batch-update / permission / event call of each helper, or the body read of
`ExportGoogleDocAsText`, or the timezone load of `CreateCalendarEvent` —
the helper returns the wrapped error immediately. Each trace records every
step at most once: there is no retry. -/
theorem C6_error_propagation :
    (      (∀ env (title : String) e, env.getClient = .error e →
        gdocsHelper.CreateGoogleDoc env title
          = (.err ("gdocsHelper: failed to get authenticated client: " ++ e), [Event.auth])) ∧
      (∀ env (docID text : String) e, env.getClient = .error e →
        gdocsHelper.AddText env docID text
          = (.err ("gdocsHelper: failed to get authenticated client: " ++ e), [Event.auth])) ∧
      (∀ env (docID oldText newText : String) e, env.getClient = .error e →
        gdocsHelper.ReplaceText env docID oldText newText
          = (.err ("gdocsHelper: failed to get authenticated client: " ++ e), [Event.auth])) ∧
      (∀ env (fileID newTitle : String) e, env.getClient = .error e →
        gdocsHelper.MakeCopyOfGoogleDoc env fileID newTitle
          = (.err ("gdocsHelper: failed to get authenticated client: " ++ e), [Event.auth])) ∧
      (∀ env (fileID : String) e, env.getClient = .error e →
        gdocsHelper.ExportGoogleDocAsText env fileID
          = (.err ("gdocsHelper: failed to get authenticated client: " ++ e), [Event.auth])) ∧
      (∀ env (fileID newTitle : String) e, env.getClient = .error e →
        gdocsHelper.RenameGoogleDoc env fileID newTitle
          = (.err ("gdocsHelper: failed to get authenticated client: " ++ e), [Event.auth])) ∧
      (∀ env (docID startLine endLine textToAdd : String) e, env.getClient = .error e →
        gdocsHelper.AddTextBetweenLines env docID startLine endLine textToAdd
          = (.err ("gdocsHelper: failed to get authenticated client: " ++ e), [Event.auth])) ∧
      (∀ env (docID lineContent textToAdd : String) e, env.getClient = .error e →
        gdocsHelper.AddTextAfterLine env docID lineContent textToAdd
          = (.err ("gdocsHelper: failed to get authenticated client: " ++ e), [Event.auth])) ∧
      (∀ env (docID pattern textToAdd : String) e, env.getClient = .error e →
        gdocsHelper.AddTextAfterPatternInLine env docID pattern textToAdd
          = (.err ("gdocsHelper: failed to get authenticated client: " ++ e), [Event.auth])) ∧
      (∀ env (docID : String) (rows columns : Int) e, env.getClient = .error e →
        gdocsHelper.AddTable env docID rows columns
          = (.err ("gdocsHelper: failed to get authenticated client: " ++ e), [Event.auth])) ∧
      (∀ env (docID : String) (tableIndex rowIndex columnIndex : Int) (text : String) e, env.getClient = .error e →
        gdocsHelper.AddTextToTableCell env docID tableIndex rowIndex columnIndex text
          = (.err ("gdocsHelper: failed to get authenticated client: " ++ e), [Event.auth])) ∧
      (∀ env (docID searchText url : String) e, env.getClient = .error e →
        gdocsHelper.AddLinkToText env docID searchText url
          = (.err ("gdocsHelper: failed to get authenticated client: " ++ e), [Event.auth])) ∧
      (∀ env (docID : String) (replacements : List (String × String)) e, env.getClient = .error e →
        gdocsHelper.ReplaceMultipleTexts env docID replacements
          = (.err ("gdocsHelper: failed to get authenticated client: " ++ e), [Event.auth])) ∧
      (∀ env (docID : String) (tableIndex rowIndex columnIndex : Int) e, env.getClient = .error e →
        gdocsHelper.SetColorToTableCell env docID tableIndex rowIndex columnIndex
          = (.err ("gdocsHelper: failed to get authenticated client: " ++ e), [Event.auth])) ∧
      (∀ env (fileID email role : String) e, env.getClient = .error e →
        gdocsHelper.AddFilePermission env fileID email role
          = (.err ("gdocsHelper: failed to get authenticated client: " ++ e), [Event.auth])) ∧
      (∀ env (docID text url : String) (locationIndex : Int) e, env.getClient = .error e →
        gdocsHelper.InsertTextWithLinkAndRender env docID text url locationIndex
          = (.err ("gdocsHelper: failed to get authenticated client: " ++ e), [Event.auth])) ∧
      (∀ env (docID : String) e, env.getClient = .error e →
        gdocsHelper.GetDocumentEndIndex env docID
          = (.err ("gdocsHelper: failed to get authenticated client: " ++ e), [Event.auth])) ∧
      (∀ env (name : String) e, env.getClient = .error e →
        gDriveHelper.CreateFolder env name
          = (.err ("gDriveHelper: failed to get authenticated client: " ++ e), [Event.auth])) ∧
      (∀ env (folderID email role : String) e, env.getClient = .error e →
        gDriveHelper.AddFolderPermission env folderID email role
          = (.err ("gDriveHelper: failed to get authenticated client: " ++ e), [Event.auth])) ∧
      (∀ env (fileID folderID : String) e, env.getClient = .error e →
        gDriveHelper.CopyFileToFolder env fileID folderID
          = (.err ("gDriveHelper: failed to get authenticated client: " ++ e), [Event.auth])) ∧
      (∀ env (folderID email : String) e, env.getClient = .error e →
        gDriveHelper.RemoveFolderPermission env folderID email
          = (.err ("gDriveHelper: failed to get authenticated client: " ++ e), [Event.auth])) ∧
      (∀ env (folderID newName : String) e, env.getClient = .error e →
        gDriveHelper.RenameFolder env folderID newName
          = (.err ("gDriveHelper: failed to get authenticated client: " ++ e), [Event.auth])) ∧
      (∀ env (folderFileID : String) e, env.getClient = .error e →
        gDriveHelper.DeleteFileOrFolder env folderFileID
          = (.err ("gDriveHelper: failed to get authenticated client: " ++ e), [Event.auth])) ∧
      (∀ env (summary location description : String) (startTime endTime : GoTime) e, env.getClient = .error e →
        gMeetHelper.CreateCalendarEvent env summary location description startTime endTime
          = (.err ("gMeetHelper: failed to get authenticated client: " ++ e), [Event.auth])) ∧
      (∀ env (eventID : String) (attendees : List String) e, env.getClient = .error e →
        gMeetHelper.AddAttendeesToEvent env eventID attendees
          = (.err ("gMeetHelper: failed to get authenticated client: " ++ e), [Event.auth])) ∧
      (∀ env (eventID fileID : String) e, env.getClient = .error e →
        gMeetHelper.AttachFileToEvent env eventID fileID
          = (.err ("gMeetHelper: failed to get authenticated client: " ++ e), [Event.auth]))) ∧
    (      (∀ env (title : String) e conf tok, env.getClient = .ok (conf, tok) →
        env.docsNewService = .error e →
        gdocsHelper.CreateGoogleDoc env title
          = (.err ("gdocsHelper: unable to create docs service: " ++ e),
             [Event.auth, Event.client conf.isNone, Event.newService .docs])) ∧
      (∀ env (docID text : String) e conf tok, env.getClient = .ok (conf, tok) →
        env.docsNewService = .error e →
        gdocsHelper.AddText env docID text
          = (.err ("gdocsHelper: unable to create docs service: " ++ e),
             [Event.auth, Event.client conf.isNone, Event.newService .docs])) ∧
      (∀ env (docID oldText newText : String) e conf tok, env.getClient = .ok (conf, tok) →
        env.docsNewService = .error e →
        gdocsHelper.ReplaceText env docID oldText newText
          = (.err ("gdocsHelper: unable to create docs service: " ++ e),
             [Event.auth, Event.client conf.isNone, Event.newService .docs])) ∧
      (∀ env (fileID newTitle : String) e conf tok, env.getClient = .ok (conf, tok) →
        env.driveNewService = .error e →
        gdocsHelper.MakeCopyOfGoogleDoc env fileID newTitle
          = (.err ("gdocsHelper: unable to create drive service: " ++ e),
             [Event.auth, Event.client conf.isNone, Event.newService .drive])) ∧
      (∀ env (fileID : String) e conf tok, env.getClient = .ok (conf, tok) →
        env.driveNewService = .error e →
        gdocsHelper.ExportGoogleDocAsText env fileID
          = (.err ("gdocsHelper: unable to create drive service: " ++ e),
             [Event.auth, Event.client conf.isNone, Event.newService .drive])) ∧
      (∀ env (fileID newTitle : String) e conf tok, env.getClient = .ok (conf, tok) →
        env.driveNewService = .error e →
        gdocsHelper.RenameGoogleDoc env fileID newTitle
          = (.err ("gdocsHelper: unable to create drive service: " ++ e),
             [Event.auth, Event.client conf.isNone, Event.newService .drive])) ∧
      (∀ env (docID startLine endLine textToAdd : String) e conf tok, env.getClient = .ok (conf, tok) →
        env.docsNewService = .error e →
        gdocsHelper.AddTextBetweenLines env docID startLine endLine textToAdd
          = (.err ("gdocsHelper: unable to create docs service: " ++ e),
             [Event.auth, Event.client conf.isNone, Event.newService .docs])) ∧
      (∀ env (docID lineContent textToAdd : String) e conf tok, env.getClient = .ok (conf, tok) →
        env.docsNewService = .error e →
        gdocsHelper.AddTextAfterLine env docID lineContent textToAdd
          = (.err ("gdocsHelper: unable to create docs service: " ++ e),
             [Event.auth, Event.client conf.isNone, Event.newService .docs])) ∧
      (∀ env (docID pattern textToAdd : String) e conf tok, env.getClient = .ok (conf, tok) →
        env.docsNewService = .error e →
        gdocsHelper.AddTextAfterPatternInLine env docID pattern textToAdd
          = (.err ("gdocsHelper: unable to create docs service: " ++ e),
             [Event.auth, Event.client conf.isNone, Event.newService .docs])) ∧
      (∀ env (docID : String) (rows columns : Int) e conf tok, env.getClient = .ok (conf, tok) →
        env.docsNewService = .error e →
        gdocsHelper.AddTable env docID rows columns
          = (.err ("gdocsHelper: unable to create docs service: " ++ e),
             [Event.auth, Event.client conf.isNone, Event.newService .docs])) ∧
      (∀ env (docID : String) (tableIndex rowIndex columnIndex : Int) (text : String) e conf tok, env.getClient = .ok (conf, tok) →
        env.docsNewService = .error e →
        gdocsHelper.AddTextToTableCell env docID tableIndex rowIndex columnIndex text
          = (.err ("gdocsHelper: unable to create docs service: " ++ e),
             [Event.auth, Event.client conf.isNone, Event.newService .docs])) ∧
      (∀ env (docID searchText url : String) e conf tok, env.getClient = .ok (conf, tok) →
        env.docsNewService = .error e →
        gdocsHelper.AddLinkToText env docID searchText url
          = (.err ("gdocsHelper: unable to create docs service: " ++ e),
             [Event.auth, Event.client conf.isNone, Event.newService .docs])) ∧
      (∀ env (docID : String) (replacements : List (String × String)) e conf tok, env.getClient = .ok (conf, tok) →
        env.docsNewService = .error e →
        gdocsHelper.ReplaceMultipleTexts env docID replacements
          = (.err ("gdocsHelper: unable to create docs service: " ++ e),
             [Event.auth, Event.client conf.isNone, Event.newService .docs])) ∧
      (∀ env (docID : String) (tableIndex rowIndex columnIndex : Int) e conf tok, env.getClient = .ok (conf, tok) →
        env.docsNewService = .error e →
        gdocsHelper.SetColorToTableCell env docID tableIndex rowIndex columnIndex
          = (.err ("gdocsHelper: unable to create docs service: " ++ e),
             [Event.auth, Event.client conf.isNone, Event.newService .docs])) ∧
      (∀ env (fileID email role : String) e conf tok, env.getClient = .ok (conf, tok) →
        env.driveNewService = .error e →
        gdocsHelper.AddFilePermission env fileID email role
          = (.err ("gdocsHelper: unable to create drive service: " ++ e),
             [Event.auth, Event.client conf.isNone, Event.newService .drive])) ∧
      (∀ env (docID text url : String) (locationIndex : Int) e conf tok, env.getClient = .ok (conf, tok) →
        env.docsNewService = .error e →
        gdocsHelper.InsertTextWithLinkAndRender env docID text url locationIndex
          = (.err ("gdocsHelper: unable to create docs service: " ++ e),
             [Event.auth, Event.client conf.isNone, Event.newService .docs])) ∧
      (∀ env (docID : String) e conf tok, env.getClient = .ok (conf, tok) →
        env.docsNewService = .error e →
        gdocsHelper.GetDocumentEndIndex env docID
          = (.err ("gdocsHelper: unable to create docs service: " ++ e),
             [Event.auth, Event.client conf.isNone, Event.newService .docs])) ∧
      (∀ env (name : String) e conf tok, env.getClient = .ok (conf, tok) →
        env.driveNewService = .error e →
        gDriveHelper.CreateFolder env name
          = (.err ("gDriveHelper: unable to create drive service: " ++ e),
             [Event.auth, Event.client conf.isNone, Event.newService .drive])) ∧
      (∀ env (folderID email role : String) e conf tok, env.getClient = .ok (conf, tok) →
        env.driveNewService = .error e →
        gDriveHelper.AddFolderPermission env folderID email role
          = (.err ("gDriveHelper: unable to create drive service: " ++ e),
             [Event.auth, Event.client conf.isNone, Event.newService .drive])) ∧
      (∀ env (fileID folderID : String) e conf tok, env.getClient = .ok (conf, tok) →
        env.driveNewService = .error e →
        gDriveHelper.CopyFileToFolder env fileID folderID
          = (.err ("gDriveHelper: unable to create drive service: " ++ e),
             [Event.auth, Event.client conf.isNone, Event.newService .drive])) ∧
      (∀ env (folderID email : String) e conf tok, env.getClient = .ok (conf, tok) →
        env.driveNewService = .error e →
        gDriveHelper.RemoveFolderPermission env folderID email
          = (.err ("gDriveHelper: unable to create drive service: " ++ e),
             [Event.auth, Event.client conf.isNone, Event.newService .drive])) ∧
      (∀ env (folderID newName : String) e conf tok, env.getClient = .ok (conf, tok) →
        env.driveNewService = .error e →
        gDriveHelper.RenameFolder env folderID newName
          = (.err ("gDriveHelper: unable to create drive service: " ++ e),
             [Event.auth, Event.client conf.isNone, Event.newService .drive])) ∧
      (∀ env (folderFileID : String) e conf tok, env.getClient = .ok (conf, tok) →
        env.driveNewService = .error e →
        gDriveHelper.DeleteFileOrFolder env folderFileID
          = (.err ("gDriveHelper: unable to create drive service: " ++ e),
             [Event.auth, Event.client conf.isNone, Event.newService .drive])) ∧
      (∀ env (summary location description : String) (startTime endTime : GoTime) e conf tok, env.getClient = .ok (conf, tok) →
        env.calendarNewService = .error e →
        gMeetHelper.CreateCalendarEvent env summary location description startTime endTime
          = (.err ("gMeetHelper: unable to create calendar service: " ++ e),
             [Event.auth, Event.client conf.isNone, Event.newService .calendar])) ∧
      (∀ env (eventID : String) (attendees : List String) e conf tok, env.getClient = .ok (conf, tok) →
        env.calendarNewService = .error e →
        gMeetHelper.AddAttendeesToEvent env eventID attendees
          = (.err ("gMeetHelper: unable to create calendar service: " ++ e),
             [Event.auth, Event.client conf.isNone, Event.newService .calendar])) ∧
      (∀ env (eventID fileID : String) e conf tok, env.getClient = .ok (conf, tok) →
        env.driveNewService = .error e →
        gMeetHelper.AttachFileToEvent env eventID fileID
          = (.err ("gMeetHelper: unable to create Drive service: " ++ e),
             [Event.auth, Event.client conf.isNone, Event.newService .drive]))) ∧
    (      (∀ env (docID text : String) e conf tok, env.getClient = .ok (conf, tok) →
        env.docsNewService = .ok () → env.documentsGet = .error e →
        gdocsHelper.AddText env docID text
          = (.err ("gdocsHelper: unable to retrieve document: " ++ e),
             [Event.auth, Event.client conf.isNone, Event.newService .docs,
              Event.api (.documentsGet docID)])) ∧
      (∀ env (docID startLine endLine textToAdd : String) e conf tok, env.getClient = .ok (conf, tok) →
        env.docsNewService = .ok () → env.documentsGet = .error e →
        gdocsHelper.AddTextBetweenLines env docID startLine endLine textToAdd
          = (.err ("gdocsHelper: unable to retrieve document: " ++ e),
             [Event.auth, Event.client conf.isNone, Event.newService .docs,
              Event.api (.documentsGet docID)])) ∧
      (∀ env (docID lineContent textToAdd : String) e conf tok, env.getClient = .ok (conf, tok) →
        env.docsNewService = .ok () → env.documentsGet = .error e →
        gdocsHelper.AddTextAfterLine env docID lineContent textToAdd
          = (.err ("gdocsHelper: unable to retrieve document: " ++ e),
             [Event.auth, Event.client conf.isNone, Event.newService .docs,
              Event.api (.documentsGet docID)])) ∧
      (∀ env (docID pattern textToAdd : String) e conf tok, env.getClient = .ok (conf, tok) →
        env.docsNewService = .ok () → env.documentsGet = .error e →
        gdocsHelper.AddTextAfterPatternInLine env docID pattern textToAdd
          = (.err ("gdocsHelper: unable to retrieve document: " ++ e),
             [Event.auth, Event.client conf.isNone, Event.newService .docs,
              Event.api (.documentsGet docID)])) ∧
      (∀ env (docID : String) (rows columns : Int) e conf tok, env.getClient = .ok (conf, tok) →
        env.docsNewService = .ok () → env.documentsGet = .error e →
        gdocsHelper.AddTable env docID rows columns
          = (.err ("gdocsHelper: unable to retrieve document: " ++ e),
             [Event.auth, Event.client conf.isNone, Event.newService .docs,
              Event.api (.documentsGet docID)])) ∧
      (∀ env (docID : String) (tableIndex rowIndex columnIndex : Int) (text : String) e conf tok, env.getClient = .ok (conf, tok) →
        env.docsNewService = .ok () → env.documentsGet = .error e →
        gdocsHelper.AddTextToTableCell env docID tableIndex rowIndex columnIndex text
          = (.err ("gdocsHelper: unable to retrieve document: " ++ e),
             [Event.auth, Event.client conf.isNone, Event.newService .docs,
              Event.api (.documentsGet docID)])) ∧
      (∀ env (docID searchText url : String) e conf tok, env.getClient = .ok (conf, tok) →
        env.docsNewService = .ok () → env.documentsGet = .error e →
        gdocsHelper.AddLinkToText env docID searchText url
          = (.err ("gdocsHelper: unable to retrieve document: " ++ e),
             [Event.auth, Event.client conf.isNone, Event.newService .docs,
              Event.api (.documentsGet docID)])) ∧
      (∀ env (docID : String) (tableIndex rowIndex columnIndex : Int) e conf tok, env.getClient = .ok (conf, tok) →
        env.docsNewService = .ok () → env.documentsGet = .error e →
        gdocsHelper.SetColorToTableCell env docID tableIndex rowIndex columnIndex
          = (.err ("gdocsHelper: unable to retrieve document: " ++ e),
             [Event.auth, Event.client conf.isNone, Event.newService .docs,
              Event.api (.documentsGet docID)])) ∧
      (∀ env (docID : String) e conf tok, env.getClient = .ok (conf, tok) →
        env.docsNewService = .ok () → env.documentsGet = .error e →
        gdocsHelper.GetDocumentEndIndex env docID
          = (.err ("gdocsHelper: unable to retrieve document: " ++ e),
             [Event.auth, Event.client conf.isNone, Event.newService .docs,
              Event.api (.documentsGet docID)]))) ∧
    (      (∀ env docID text conf tok doc lastEl e, env.getClient = .ok (conf, tok) →
        env.docsNewService = .ok () → env.documentsGet = .ok doc →
        doc.body.content.getLast? = some lastEl → env.batchUpdate = .error e →
        gdocsHelper.AddText env docID text
          = (.err ("gdocsHelper: unable to add text to document: " ++ e),
             [Event.auth, Event.client conf.isNone, Event.newService .docs,
              Event.api (.documentsGet docID),
              Event.api (.batchUpdate docID
                [DocsRequest.insertText text (lastEl.endIndex - 1)])])) ∧
      (∀ env name conf tok e, env.getClient = .ok (conf, tok) →
        env.driveNewService = .ok () → env.filesCreate = .error e →
        gDriveHelper.CreateFolder env name
          = (.err ("gDriveHelper: unable to create folder: " ++ e),
             [Event.auth, Event.client conf.isNone, Event.newService .drive,
              Event.api .filesCreate])) ∧
      (∀ env (title : String) e conf tok, env.getClient = .ok (conf, tok) →
        env.docsNewService = .ok () →
        env.documentsCreate = .error e →
        gdocsHelper.CreateGoogleDoc env title
          = (.err ("gdocsHelper: unable to create document: " ++ e),
             [Event.auth, Event.client conf.isNone, Event.newService .docs, Event.api (.documentsCreate title)])) ∧
      (∀ env (docID oldText newText : String) e conf tok, env.getClient = .ok (conf, tok) →
        env.docsNewService = .ok () →
        env.batchUpdate = .error e →
        gdocsHelper.ReplaceText env docID oldText newText
          = (.err ("gdocsHelper: unable to replace text in document: " ++ e),
             [Event.auth, Event.client conf.isNone, Event.newService .docs,
               Event.api (.batchUpdate docID [DocsRequest.replaceAllText oldText newText true])])) ∧
      (∀ env (fileID newTitle : String) e conf tok, env.getClient = .ok (conf, tok) →
        env.driveNewService = .ok () →
        env.filesCopy = .error e →
        gdocsHelper.MakeCopyOfGoogleDoc env fileID newTitle
          = (.err ("gdocsHelper: unable to copy file: " ++ e),
             [Event.auth, Event.client conf.isNone, Event.newService .drive, Event.api .filesCopy])) ∧
      (∀ env (fileID : String) e conf tok, env.getClient = .ok (conf, tok) →
        env.driveNewService = .ok () →
        env.filesExportDownload = .error e →
        gdocsHelper.ExportGoogleDocAsText env fileID
          = (.err ("gdocsHelper: unable to export file: " ++ e),
             [Event.auth, Event.client conf.isNone, Event.newService .drive, Event.api .filesExportDownload])) ∧
      (∀ env (fileID : String) e conf tok, env.getClient = .ok (conf, tok) →
        env.driveNewService = .ok () →
        env.filesExportDownload = .ok () →
        env.readAllBody = .error e →
        gdocsHelper.ExportGoogleDocAsText env fileID
          = (.err ("gdocsHelper: unable to read exported content: " ++ e),
             [Event.auth, Event.client conf.isNone, Event.newService .drive, Event.api .filesExportDownload])) ∧
      (∀ env (fileID newTitle : String) e conf tok, env.getClient = .ok (conf, tok) →
        env.driveNewService = .ok () →
        env.filesUpdate = .error e →
        gdocsHelper.RenameGoogleDoc env fileID newTitle
          = (.err ("gdocsHelper: unable to rename file: " ++ e),
             [Event.auth, Event.client conf.isNone, Event.newService .drive, Event.api .filesUpdate])) ∧
      (∀ env (docID startLine endLine textToAdd : String) e conf tok doc s eIdx,
        env.getClient = .ok (conf, tok) → env.docsNewService = .ok () →
        env.documentsGet = .ok doc →
        findBetweenIndices startLine endLine doc.body.content = (s, eIdx) →
        s ≠ -1 → eIdx ≠ -1 → s < eIdx → env.batchUpdate = .error e →
        gdocsHelper.AddTextBetweenLines env docID startLine endLine textToAdd
          = (.err ("gdocsHelper: unable to insert text between lines: " ++ e),
             [Event.auth, Event.client conf.isNone, Event.newService .docs,
              Event.api (.documentsGet docID),
              Event.api (.batchUpdate docID
                [DocsRequest.insertText (textToAdd ++ "\n") (s + goLen startLine + 1)])])) ∧
      (∀ env (docID lineContent textToAdd : String) e conf tok doc i,
        env.getClient = .ok (conf, tok) → env.docsNewService = .ok () →
        env.documentsGet = .ok doc →
        findInsertIndexAfterLine lineContent doc.body.content = i → i ≠ -1 →
        env.batchUpdate = .error e →
        gdocsHelper.AddTextAfterLine env docID lineContent textToAdd
          = (.err ("gdocsHelper: unable to insert text after line: " ++ e),
             [Event.auth, Event.client conf.isNone, Event.newService .docs,
              Event.api (.documentsGet docID),
              Event.api (.batchUpdate docID
                [DocsRequest.insertText (textToAdd ++ "\n") i])])) ∧
      (∀ env (docID pattern textToAdd : String) e conf tok doc i,
        env.getClient = .ok (conf, tok) → env.docsNewService = .ok () →
        env.documentsGet = .ok doc →
        findInsertIndexAfterPattern pattern doc.body.content = i → i ≠ -1 →
        env.batchUpdate = .error e →
        gdocsHelper.AddTextAfterPatternInLine env docID pattern textToAdd
          = (.err ("gdocsHelper: unable to insert text after pattern: " ++ e),
             [Event.auth, Event.client conf.isNone, Event.newService .docs,
              Event.api (.documentsGet docID),
              Event.api (.batchUpdate docID [DocsRequest.insertText textToAdd i])])) ∧
      (∀ env (docID : String) (rows columns : Int) e conf tok doc lastEl,
        env.getClient = .ok (conf, tok) → env.docsNewService = .ok () →
        env.documentsGet = .ok doc → doc.body.content.getLast? = some lastEl →
        env.batchUpdate = .error e →
        gdocsHelper.AddTable env docID rows columns
          = (.err ("gdocsHelper: unable to add table: " ++ e),
             [Event.auth, Event.client conf.isNone, Event.newService .docs,
              Event.api (.documentsGet docID),
              Event.api (.batchUpdate docID
                [DocsRequest.insertTable rows columns (lastEl.endIndex - 1)])])) ∧
      (∀ env (docID : String) (tableIndex rowIndex columnIndex : Int) (text : String)
        e conf tok doc tc tb row cell,
        env.getClient = .ok (conf, tok) → env.docsNewService = .ok () →
        env.documentsGet = .ok doc →
        findTable tableIndex doc.body.content = some (tc, tb) →
        goSliceGet tb.tableRows rowIndex = some row →
        goSliceGet row.tableCells columnIndex = some cell →
        env.batchUpdate = .error e →
        gdocsHelper.AddTextToTableCell env docID tableIndex rowIndex columnIndex text
          = (.err ("gdocsHelper: unable to add text to table cell: " ++ e),
             [Event.auth, Event.client conf.isNone, Event.newService .docs,
              Event.api (.documentsGet docID),
              Event.api (.batchUpdate docID
                [DocsRequest.insertText text (cell.startIndex + 1)])])) ∧
      (∀ env (docID searchText url : String) e conf tok doc s eIdx,
        env.getClient = .ok (conf, tok) → env.docsNewService = .ok () →
        env.documentsGet = .ok doc →
        findLinkRange searchText doc.body.content = (s, eIdx) →
        s ≠ -1 → eIdx ≠ -1 → env.batchUpdate = .error e →
        gdocsHelper.AddLinkToText env docID searchText url
          = (.err ("gdocsHelper: unable to add link to text: " ++ e),
             [Event.auth, Event.client conf.isNone, Event.newService .docs,
              Event.api (.documentsGet docID),
              Event.api (.batchUpdate docID
                [DocsRequest.updateTextStyleLink s eIdx url])])) ∧
      (∀ env (docID : String) (replacements : List (String × String)) e conf tok, env.getClient = .ok (conf, tok) →
        env.docsNewService = .ok () →
        env.batchUpdate = .error e →
        gdocsHelper.ReplaceMultipleTexts env docID replacements
          = (.err ("gdocsHelper: unable to replace multiple texts: " ++ e),
             [Event.auth, Event.client conf.isNone, Event.newService .docs,
               Event.api (.batchUpdate docID
                 (replacements.map (fun r => DocsRequest.replaceAllText r.1 r.2 true)))])) ∧
      (∀ env (docID : String) (tableIndex rowIndex columnIndex : Int) e conf tok doc tc tb,
        env.getClient = .ok (conf, tok) → env.docsNewService = .ok () →
        env.documentsGet = .ok doc →
        findTable tableIndex doc.body.content = some (tc, tb) →
        env.batchUpdate = .error e →
        gdocsHelper.SetColorToTableCell env docID tableIndex rowIndex columnIndex
          = (.err ("gdocsHelper: unable to set color to table cell: " ++ e),
             [Event.auth, Event.client conf.isNone, Event.newService .docs,
              Event.api (.documentsGet docID),
              Event.api (.batchUpdate docID
                [DocsRequest.updateTableCellStyle tc.startIndex rowIndex columnIndex])])) ∧
      (∀ env (fileID email role : String) e conf tok, env.getClient = .ok (conf, tok) →
        env.driveNewService = .ok () →
        env.permissionsCreate = .error e →
        gdocsHelper.AddFilePermission env fileID email role
          = (.err ("gdocsHelper: unable to add permission to file: " ++ e),
             [Event.auth, Event.client conf.isNone, Event.newService .drive, Event.api .permissionsCreate])) ∧
      (∀ env (docID text url : String) (locationIndex : Int) e conf tok, env.getClient = .ok (conf, tok) →
        env.docsNewService = .ok () →
        env.batchUpdate = .error e →
        gdocsHelper.InsertTextWithLinkAndRender env docID text url locationIndex
          = (.err ("gdocsHelper: unable to insert text with link: " ++ e),
             [Event.auth, Event.client conf.isNone, Event.newService .docs,
               Event.api (.batchUpdate docID
                 [DocsRequest.insertText text locationIndex,
                  DocsRequest.updateTextStyleLink locationIndex (locationIndex + goLen text) url])])) ∧
      (∀ env (folderID email role : String) e conf tok, env.getClient = .ok (conf, tok) →
        env.driveNewService = .ok () →
        env.permissionsCreate = .error e →
        gDriveHelper.AddFolderPermission env folderID email role
          = (.err ("gDriveHelper: unable to add permission to folder: " ++ e),
             [Event.auth, Event.client conf.isNone, Event.newService .drive, Event.api .permissionsCreate])) ∧
      (∀ env (fileID folderID : String) e conf tok, env.getClient = .ok (conf, tok) →
        env.driveNewService = .ok () →
        env.filesCopy = .error e →
        gDriveHelper.CopyFileToFolder env fileID folderID
          = (.err ("gDriveHelper: unable to copy file to folder: " ++ e),
             [Event.auth, Event.client conf.isNone, Event.newService .drive, Event.api .filesCopy])) ∧
      (∀ env (folderID email : String) e conf tok, env.getClient = .ok (conf, tok) →
        env.driveNewService = .ok () →
        env.permissionsList = .error e →
        gDriveHelper.RemoveFolderPermission env folderID email
          = (.err ("gDriveHelper: unable to list permissions for folder: " ++ e),
             [Event.auth, Event.client conf.isNone, Event.newService .drive, Event.api .permissionsList])) ∧
      (∀ env (folderID email : String) e conf tok perms,
        env.getClient = .ok (conf, tok) → env.driveNewService = .ok () →
        env.permissionsList = .ok perms → gDriveHelper.findPermissionID email perms ≠ "" →
        env.permissionsDelete = .error e →
        gDriveHelper.RemoveFolderPermission env folderID email
          = (.err ("gDriveHelper: unable to remove permission: " ++ e),
             [Event.auth, Event.client conf.isNone, Event.newService .drive,
              Event.api .permissionsList, Event.api .permissionsDelete])) ∧
      (∀ env (folderID newName : String) e conf tok, env.getClient = .ok (conf, tok) →
        env.driveNewService = .ok () →
        env.filesUpdate = .error e →
        gDriveHelper.RenameFolder env folderID newName
          = (.err ("gDriveHelper: unable to rename folder: " ++ e),
             [Event.auth, Event.client conf.isNone, Event.newService .drive, Event.api .filesUpdate])) ∧
      (∀ env (folderFileID : String) e conf tok, env.getClient = .ok (conf, tok) →
        env.driveNewService = .ok () →
        env.filesDelete = .error e →
        gDriveHelper.DeleteFileOrFolder env folderFileID
          = (.err ("gDriveHelper: unable to delete folder or file: " ++ e),
             [Event.auth, Event.client conf.isNone, Event.newService .drive, Event.api .filesDelete])) ∧
      (∀ env (summary location description : String) (startTime endTime : GoTime) e conf tok,
        env.getClient = .ok (conf, tok) → env.calendarNewService = .ok () →
        env.loadLocationJST = .error e →
        gMeetHelper.CreateCalendarEvent env summary location description startTime endTime
          = (.err ("gMeetHelper: unable to load Japanese timezone: " ++ e),
             [Event.auth, Event.client conf.isNone, Event.newService .calendar])) ∧
      (∀ env (summary location description : String) (startTime endTime : GoTime) e conf tok,
        env.getClient = .ok (conf, tok) → env.calendarNewService = .ok () →
        env.loadLocationJST = .ok () → env.eventsInsert = .error e →
        gMeetHelper.CreateCalendarEvent env summary location description startTime endTime
          = (.err ("gMeetHelper: unable to create calendar event: " ++ e),
             [Event.auth, Event.client conf.isNone, Event.newService .calendar,
              Event.api (.eventsInsert
                (gMeetHelper.buildCalendarEvent summary location description
                  startTime endTime))])) ∧
      (∀ env (eventID : String) (attendees : List String) e conf tok,
        env.getClient = .ok (conf, tok) → env.calendarNewService = .ok () →
        env.eventsGet = .error e →
        gMeetHelper.AddAttendeesToEvent env eventID attendees
          = (.err ("gMeetHelper: unable to retrieve event: " ++ e),
             [Event.auth, Event.client conf.isNone, Event.newService .calendar,
              Event.api (.eventsGet eventID)])) ∧
      (∀ env (eventID : String) (attendees : List String) e conf tok event,
        env.getClient = .ok (conf, tok) → env.calendarNewService = .ok () →
        env.eventsGet = .ok event → env.eventsUpdate = .error e →
        gMeetHelper.AddAttendeesToEvent env eventID attendees
          = (.err ("gMeetHelper: unable to add attendees to event: " ++ e),
             [Event.auth, Event.client conf.isNone, Event.newService .calendar,
              Event.api (.eventsGet eventID),
              Event.api (.eventsUpdate
                { event with attendees := event.attendees ++ attendees })])) ∧
      (∀ env (eventID fileID : String) e conf tok,
        env.getClient = .ok (conf, tok) → env.driveNewService = .ok () →
        env.filesGet = .error e →
        gMeetHelper.AttachFileToEvent env eventID fileID
          = (.err ("gMeetHelper: unable to retrieve file metadata: " ++ e),
             [Event.auth, Event.client conf.isNone, Event.newService .drive,
              Event.api .filesGet])) ∧
      (∀ env (eventID fileID : String) e conf tok file,
        env.getClient = .ok (conf, tok) → env.driveNewService = .ok () →
        env.filesGet = .ok file → env.calendarNewService = .error e →
        gMeetHelper.AttachFileToEvent env eventID fileID
          = (.err ("gMeetHelper: unable to create Calendar service: " ++ e),
             [Event.auth, Event.client conf.isNone, Event.newService .drive,
              Event.api .filesGet, Event.newService .calendar])) ∧
      (∀ env (eventID fileID : String) e conf tok file,
        env.getClient = .ok (conf, tok) → env.driveNewService = .ok () →
        env.filesGet = .ok file → env.calendarNewService = .ok () →
        env.eventsGet = .error e →
        gMeetHelper.AttachFileToEvent env eventID fileID
          = (.err ("gMeetHelper: unable to retrieve event: " ++ e),
             [Event.auth, Event.client conf.isNone, Event.newService .drive,
              Event.api .filesGet, Event.newService .calendar,
              Event.api (.eventsGet eventID)])) ∧
      (∀ env (eventID fileID : String) e conf tok file event,
        env.getClient = .ok (conf, tok) → env.driveNewService = .ok () →
        env.filesGet = .ok file → env.calendarNewService = .ok () →
        env.eventsGet = .ok event → env.eventsUpdate = .error e →
        gMeetHelper.AttachFileToEvent env eventID fileID
          = (.err ("gMeetHelper: unable to attach file to event: " ++ e),
             [Event.auth, Event.client conf.isNone, Event.newService .drive,
              Event.api .filesGet, Event.newService .calendar,
              Event.api (.eventsGet eventID),
              Event.api (.eventsUpdate
                { event with attachments := event.attachments ++
                    [{ fileId := fileID, fileUrl := file.webViewLink,
                       title := file.name, mimeType := file.mimeType }] })]))) :=
  ⟨⟨(CreateGoogleDoc_profile).2.2.2.1,
    (AddText_profile).2.2.2.1,
    (ReplaceText_profile).2.2.2.1,
    (MakeCopyOfGoogleDoc_profile).2.2.2.1,
    (ExportGoogleDocAsText_profile).2.2.2.1,
    (RenameGoogleDoc_profile).2.2.2.1,
    (AddTextBetweenLines_profile).2.2.2.1,
    (AddTextAfterLine_profile).2.2.2.1,
    (AddTextAfterPatternInLine_profile).2.2.2.1,
    (AddTable_profile).2.2.2.1,
    (AddTextToTableCell_profile).2.2.2.1,
    (AddLinkToText_profile).2.2.2.1,
    (ReplaceMultipleTexts_profile).2.2.2.1,
    (SetColorToTableCell_profile).2.2.2.1,
    (AddFilePermission_profile).2.2.2.1,
    (InsertTextWithLinkAndRender_profile).2.2.2.1,
    (GetDocumentEndIndex_profile).2.2.2.1,
    (CreateFolder_profile).2.2.2.1,
    (AddFolderPermission_profile).2.2.2.1,
    (CopyFileToFolder_profile).2.2.2.1,
    (RemoveFolderPermission_profile).2.2.2.1,
    (RenameFolder_profile).2.2.2.1,
    (DeleteFileOrFolder_profile).2.2.2.1,
    (CreateCalendarEvent_profile).2.2.2.1,
    (AddAttendeesToEvent_profile).2.2.2.1,
    (AttachFileToEvent_profile).2.2.2.1⟩,
   ⟨CreateGoogleDoc_service_fail,
    AddText_service_fail,
    ReplaceText_service_fail,
    MakeCopyOfGoogleDoc_service_fail,
    ExportGoogleDocAsText_service_fail,
    RenameGoogleDoc_service_fail,
    AddTextBetweenLines_service_fail,
    AddTextAfterLine_service_fail,
    AddTextAfterPatternInLine_service_fail,
    AddTable_service_fail,
    AddTextToTableCell_service_fail,
    AddLinkToText_service_fail,
    ReplaceMultipleTexts_service_fail,
    SetColorToTableCell_service_fail,
    AddFilePermission_service_fail,
    InsertTextWithLinkAndRender_service_fail,
    GetDocumentEndIndex_service_fail,
    CreateFolder_service_fail,
    AddFolderPermission_service_fail,
    CopyFileToFolder_service_fail,
    RemoveFolderPermission_service_fail,
    RenameFolder_service_fail,
    DeleteFileOrFolder_service_fail,
    CreateCalendarEvent_service_fail,
    AddAttendeesToEvent_service_fail,
    AttachFileToEvent_service_fail⟩,
   ⟨AddText_get_fail,
    AddTextBetweenLines_get_fail,
    AddTextAfterLine_get_fail,
    AddTextAfterPatternInLine_get_fail,
    AddTable_get_fail,
    AddTextToTableCell_get_fail,
    AddLinkToText_get_fail,
    SetColorToTableCell_get_fail,
    GetDocumentEndIndex_get_fail⟩,
   ⟨AddText_cascade.2.2,
    CreateFolder_cascade.2,
    CreateGoogleDoc_create_fail,
    ReplaceText_batch_fail,
    MakeCopyOfGoogleDoc_copy_fail,
    ExportGoogleDocAsText_export_fail,
    ExportGoogleDocAsText_read_fail,
    RenameGoogleDoc_update_fail,
    AddTextBetweenLines_batch_fail,
    AddTextAfterLine_batch_fail,
    AddTextAfterPatternInLine_batch_fail,
    AddTable_batch_fail,
    AddTextToTableCell_batch_fail,
    AddLinkToText_batch_fail,
    ReplaceMultipleTexts_batch_fail,
    SetColorToTableCell_batch_fail,
    AddFilePermission_create_fail,
    InsertTextWithLinkAndRender_batch_fail,
    AddFolderPermission_create_fail,
    CopyFileToFolder_copy_fail,
    RemoveFolderPermission_list_fail,
    RemoveFolderPermission_delete_fail,
    RenameFolder_update_fail,
    DeleteFileOrFolder_delete_fail,
    CreateCalendarEvent_location_fail,
    CreateCalendarEvent_insert_fail,
    AddAttendeesToEvent_get_fail,
    AddAttendeesToEvent_update_fail,
    AttachFileToEvent_filesGet_fail,
    AttachFileToEvent_calendarService_fail,
    AttachFileToEvent_eventsGet_fail,
    AttachFileToEvent_update_fail⟩⟩

/-- C8: under the service-account configuration, a successful `GetClient`
returns a NIL `*oauth2.Config` together with a (non-nil) token, and every
helper then calls `conf.Client` on that nil config unguarded: the trace of
every helper run against such an auth result contains a client construction
from a nil config. -/
theorem C8_nil_config_flow :
    (∀ (cfg : AuthConfig) (aenv : AuthEnv) (st : AuthState) (data : String) (tok : Token),
      cfg.useServiceAccount = true →
      aenv.readCredentialsFile = .ok data →
      aenv.credentialsFromJSON = .ok () →
      aenv.tokenSourceToken = .ok tok →
      GetClient cfg aenv st = (.ok (none, tok), st, [.readCredFile])) ∧
    (      (∀ env (title : String) tok, env.getClient = .ok (none, tok) →
        Event.client true ∈ (gdocsHelper.CreateGoogleDoc env title).2) ∧
      (∀ env (docID text : String) tok, env.getClient = .ok (none, tok) →
        Event.client true ∈ (gdocsHelper.AddText env docID text).2) ∧
      (∀ env (docID oldText newText : String) tok, env.getClient = .ok (none, tok) →
        Event.client true ∈ (gdocsHelper.ReplaceText env docID oldText newText).2) ∧
      (∀ env (fileID newTitle : String) tok, env.getClient = .ok (none, tok) →
        Event.client true ∈ (gdocsHelper.MakeCopyOfGoogleDoc env fileID newTitle).2) ∧
      (∀ env (fileID : String) tok, env.getClient = .ok (none, tok) →
        Event.client true ∈ (gdocsHelper.ExportGoogleDocAsText env fileID).2) ∧
      (∀ env (fileID newTitle : String) tok, env.getClient = .ok (none, tok) →
        Event.client true ∈ (gdocsHelper.RenameGoogleDoc env fileID newTitle).2) ∧
      (∀ env (docID startLine endLine textToAdd : String) tok, env.getClient = .ok (none, tok) →
        Event.client true ∈ (gdocsHelper.AddTextBetweenLines env docID startLine endLine textToAdd).2) ∧
      (∀ env (docID lineContent textToAdd : String) tok, env.getClient = .ok (none, tok) →
        Event.client true ∈ (gdocsHelper.AddTextAfterLine env docID lineContent textToAdd).2) ∧
      (∀ env (docID pattern textToAdd : String) tok, env.getClient = .ok (none, tok) →
        Event.client true ∈ (gdocsHelper.AddTextAfterPatternInLine env docID pattern textToAdd).2) ∧
      (∀ env (docID : String) (rows columns : Int) tok, env.getClient = .ok (none, tok) →
        Event.client true ∈ (gdocsHelper.AddTable env docID rows columns).2) ∧
      (∀ env (docID : String) (tableIndex rowIndex columnIndex : Int) (text : String) tok, env.getClient = .ok (none, tok) →
        Event.client true ∈ (gdocsHelper.AddTextToTableCell env docID tableIndex rowIndex columnIndex text).2) ∧
      (∀ env (docID searchText url : String) tok, env.getClient = .ok (none, tok) →
        Event.client true ∈ (gdocsHelper.AddLinkToText env docID searchText url).2) ∧
      (∀ env (docID : String) (replacements : List (String × String)) tok, env.getClient = .ok (none, tok) →
        Event.client true ∈ (gdocsHelper.ReplaceMultipleTexts env docID replacements).2) ∧
      (∀ env (docID : String) (tableIndex rowIndex columnIndex : Int) tok, env.getClient = .ok (none, tok) →
        Event.client true ∈ (gdocsHelper.SetColorToTableCell env docID tableIndex rowIndex columnIndex).2) ∧
      (∀ env (fileID email role : String) tok, env.getClient = .ok (none, tok) →
        Event.client true ∈ (gdocsHelper.AddFilePermission env fileID email role).2) ∧
      (∀ env (docID text url : String) (locationIndex : Int) tok, env.getClient = .ok (none, tok) →
        Event.client true ∈ (gdocsHelper.InsertTextWithLinkAndRender env docID text url locationIndex).2) ∧
      (∀ env (docID : String) tok, env.getClient = .ok (none, tok) →
        Event.client true ∈ (gdocsHelper.GetDocumentEndIndex env docID).2) ∧
      (∀ env (name : String) tok, env.getClient = .ok (none, tok) →
        Event.client true ∈ (gDriveHelper.CreateFolder env name).2) ∧
      (∀ env (folderID email role : String) tok, env.getClient = .ok (none, tok) →
        Event.client true ∈ (gDriveHelper.AddFolderPermission env folderID email role).2) ∧
      (∀ env (fileID folderID : String) tok, env.getClient = .ok (none, tok) →
        Event.client true ∈ (gDriveHelper.CopyFileToFolder env fileID folderID).2) ∧
      (∀ env (folderID email : String) tok, env.getClient = .ok (none, tok) →
        Event.client true ∈ (gDriveHelper.RemoveFolderPermission env folderID email).2) ∧
      (∀ env (folderID newName : String) tok, env.getClient = .ok (none, tok) →
        Event.client true ∈ (gDriveHelper.RenameFolder env folderID newName).2) ∧
      (∀ env (folderFileID : String) tok, env.getClient = .ok (none, tok) →
        Event.client true ∈ (gDriveHelper.DeleteFileOrFolder env folderFileID).2) ∧
      (∀ env (summary location description : String) (startTime endTime : GoTime) tok, env.getClient = .ok (none, tok) →
        Event.client true ∈ (gMeetHelper.CreateCalendarEvent env summary location description startTime endTime).2) ∧
      (∀ env (eventID : String) (attendees : List String) tok, env.getClient = .ok (none, tok) →
        Event.client true ∈ (gMeetHelper.AddAttendeesToEvent env eventID attendees).2) ∧
      (∀ env (eventID fileID : String) tok, env.getClient = .ok (none, tok) →
        Event.client true ∈ (gMeetHelper.AttachFileToEvent env eventID fileID).2)) :=
  ⟨GetClient_serviceAccount_nil_conf,
   ⟨(CreateGoogleDoc_profile).2.2.2.2,
    (AddText_profile).2.2.2.2,
    (ReplaceText_profile).2.2.2.2,
    (MakeCopyOfGoogleDoc_profile).2.2.2.2,
    (ExportGoogleDocAsText_profile).2.2.2.2,
    (RenameGoogleDoc_profile).2.2.2.2,
    (AddTextBetweenLines_profile).2.2.2.2,
    (AddTextAfterLine_profile).2.2.2.2,
    (AddTextAfterPatternInLine_profile).2.2.2.2,
    (AddTable_profile).2.2.2.2,
    (AddTextToTableCell_profile).2.2.2.2,
    (AddLinkToText_profile).2.2.2.2,
    (ReplaceMultipleTexts_profile).2.2.2.2,
    (SetColorToTableCell_profile).2.2.2.2,
    (AddFilePermission_profile).2.2.2.2,
    (InsertTextWithLinkAndRender_profile).2.2.2.2,
    (GetDocumentEndIndex_profile).2.2.2.2,
    (CreateFolder_profile).2.2.2.2,
    (AddFolderPermission_profile).2.2.2.2,
    (CopyFileToFolder_profile).2.2.2.2,
    (RemoveFolderPermission_profile).2.2.2.2,
    (RenameFolder_profile).2.2.2.2,
    (DeleteFileOrFolder_profile).2.2.2.2,
    (CreateCalendarEvent_profile).2.2.2.2,
    (AddAttendeesToEvent_profile).2.2.2.2,
    (AttachFileToEvent_profile).2.2.2.2⟩⟩


/-! ### Claim theorems C5, C9, C10 -/

/-- C5: multi-operation edits are bundled into ONE batch-update call:
`ReplaceMultipleTexts` puts one `ReplaceAllText` operation per replacement
entry into a single `BatchUpdate`, and `InsertTextWithLinkAndRender` puts
its `InsertText` and the link `UpdateTextStyle` over exactly
`[locationIndex, locationIndex + len(text))` into a single `BatchUpdate`;
each function issues exactly one API call. -/
theorem C5_single_batch_call :
    (∀ env docID replacements conf tok, env.getClient = .ok (conf, tok) →
      env.docsNewService = .ok () →
      apiCount (gdocsHelper.ReplaceMultipleTexts env docID replacements).2 = 1 ∧
        Event.api (.batchUpdate docID
            (replacements.map (fun r => DocsRequest.replaceAllText r.1 r.2 true)))
          ∈ (gdocsHelper.ReplaceMultipleTexts env docID replacements).2) ∧
    (∀ env docID text url locationIndex conf tok, env.getClient = .ok (conf, tok) →
      env.docsNewService = .ok () →
      apiCount (gdocsHelper.InsertTextWithLinkAndRender env docID text url locationIndex).2 = 1 ∧
        Event.api (.batchUpdate docID
            [DocsRequest.insertText text locationIndex,
             DocsRequest.updateTextStyleLink locationIndex (locationIndex + goLen text) url])
          ∈ (gdocsHelper.InsertTextWithLinkAndRender env docID text url locationIndex).2) := by
  refine ⟨fun env docID replacements conf tok hc hs => ?_,
    fun env docID text url locationIndex conf tok hc hs => ?_⟩
  · unfold gdocsHelper.ReplaceMultipleTexts
    rw [hc, hs]
    (try dsimp only)
    cases env.batchUpdate <;> exact ⟨rfl, by simp⟩
  · unfold gdocsHelper.InsertTextWithLinkAndRender
    rw [hc, hs]
    (try dsimp only)
    cases env.batchUpdate <;> exact ⟨rfl, by simp⟩

/-- Witness for C5 at a concrete successful environment. -/
theorem C5_single_batch_call_witness :
    (apiCount (gdocsHelper.ReplaceMultipleTexts okEnv "doc1" [("a", "b"), ("c", "d")]).2 = 1 ∧
      Event.api (.batchUpdate "doc1"
          ([("a", "b"), ("c", "d")].map (fun r => DocsRequest.replaceAllText r.1 r.2 true)))
        ∈ (gdocsHelper.ReplaceMultipleTexts okEnv "doc1" [("a", "b"), ("c", "d")]).2) ∧
    (apiCount (gdocsHelper.InsertTextWithLinkAndRender okEnv "doc1" "hi" "http://x" 4).2 = 1 ∧
      Event.api (.batchUpdate "doc1"
          [DocsRequest.insertText "hi" 4,
           DocsRequest.updateTextStyleLink 4 (4 + goLen "hi") "http://x"])
        ∈ (gdocsHelper.InsertTextWithLinkAndRender okEnv "doc1" "hi" "http://x" 4).2) :=
  ⟨C5_single_batch_call.1 okEnv "doc1" [("a", "b"), ("c", "d")] _ _ rfl rfl,
   C5_single_batch_call.2 okEnv "doc1" "hi" "http://x" 4 _ _ rfl rfl⟩

/-- C9: `AddText`, `AddTable` and `GetDocumentEndIndex` index the last body
content element without an emptiness check and PANIC on a document with
empty body content, and `AddTextToTableCell` bounds-checks neither
`rowIndex` nor `columnIndex` (panicking on out-of-range values) even though
a missing table is reported as an ordinary error; under the precondition
that the fetched document provides those elements, none of these accesses
panics. -/
theorem C9_unguarded_indexing :
    (∀ env docID text rows columns conf tok, env.getClient = .ok (conf, tok) →
      env.docsNewService = .ok () → env.documentsGet = .ok emptyDoc →
      (gdocsHelper.AddText env docID text).1 = .panicked ∧
      (gdocsHelper.AddTable env docID rows columns).1 = .panicked ∧
      (gdocsHelper.GetDocumentEndIndex env docID).1 = .panicked) ∧
    (∀ env docID text rows columns conf tok doc, env.getClient = .ok (conf, tok) →
      env.docsNewService = .ok () → env.documentsGet = .ok doc →
      doc.body.content ≠ [] →
      (gdocsHelper.AddText env docID text).1 ≠ .panicked ∧
      (gdocsHelper.AddTable env docID rows columns).1 ≠ .panicked ∧
      (gdocsHelper.GetDocumentEndIndex env docID).1 ≠ .panicked) ∧
    (∀ env docID conf tok, env.getClient = .ok (conf, tok) →
      env.docsNewService = .ok () → env.documentsGet = .ok oneCellDoc →
      (gdocsHelper.AddTextToTableCell env docID 1 0 0 "x").1
          = .err ("gdocsHelper: table at index " ++ toString (1 : Int) ++ " not found") ∧
      (gdocsHelper.AddTextToTableCell env docID 0 5 0 "x").1 = .panicked ∧
      (gdocsHelper.AddTextToTableCell env docID 0 0 5 "x").1 = .panicked) ∧
    (∀ env docID text tableIndex rowIndex columnIndex conf tok doc tc tb row cell,
      env.getClient = .ok (conf, tok) → env.docsNewService = .ok () →
      env.documentsGet = .ok doc →
      findTable tableIndex doc.body.content = some (tc, tb) →
      goSliceGet tb.tableRows rowIndex = some row →
      goSliceGet row.tableCells columnIndex = some cell →
      (gdocsHelper.AddTextToTableCell env docID tableIndex rowIndex columnIndex text).1
        ≠ .panicked) := by
  refine ⟨fun env docID text rows columns conf tok hc hs hd => ?_,
    fun env docID text rows columns conf tok doc hc hs hd hne => ?_,
    fun env docID conf tok hc hs hd => ?_,
    fun env docID text tableIndex rowIndex columnIndex conf tok doc tc tb row cell
      hc hs hd hft hrow hcell => ?_⟩
  · refine ⟨?_, ?_, ?_⟩
    · unfold gdocsHelper.AddText
      rw [hc, hs, hd]
      rfl
    · unfold gdocsHelper.AddTable
      rw [hc, hs, hd]
      rfl
    · unfold gdocsHelper.GetDocumentEndIndex
      rw [hc, hs, hd]
      rfl
  · rcases hl : doc.body.content.getLast? with _ | lastEl
    · exact absurd (List.getLast?_eq_none_iff.mp hl) hne
    · refine ⟨?_, ?_, ?_⟩
      · unfold gdocsHelper.AddText
        rw [hc, hs, hd]
        (try dsimp only)
        rw [hl]
        (try dsimp only)
        cases env.batchUpdate <;> simp
      · unfold gdocsHelper.AddTable
        rw [hc, hs, hd]
        (try dsimp only)
        rw [hl]
        (try dsimp only)
        cases env.batchUpdate <;> simp
      · unfold gdocsHelper.GetDocumentEndIndex
        rw [hc, hs, hd]
        (try dsimp only)
        rw [hl]
        (try dsimp only)
        simp
  · refine ⟨?_, ?_, ?_⟩ <;>
      (unfold gdocsHelper.AddTextToTableCell
       rw [hc, hs, hd]
       (try dsimp only)
       rfl)
  · unfold gdocsHelper.AddTextToTableCell
    rw [hc, hs, hd]
    (try dsimp only)
    rw [hft]
    (try dsimp only)
    rw [hrow]
    (try dsimp only)
    rw [hcell]
    (try dsimp only)
    cases env.batchUpdate <;> simp

/-- The all-successful environment delivering an empty document. -/
def emptyDocEnv : Env := { okEnv with documentsGet := .ok emptyDoc }

/-- The all-successful environment delivering the one-table document. -/
def tableDocEnv : Env := { okEnv with documentsGet := .ok oneCellDoc }

/-- Witness for C9: concrete panics and a concrete safe access. -/
theorem C9_unguarded_indexing_witness :
    (gdocsHelper.AddText emptyDocEnv "d" "t").1 = .panicked ∧
    (gdocsHelper.AddTextToTableCell tableDocEnv "d" 0 5 0 "x").1 = .panicked ∧
    (gdocsHelper.AddTextToTableCell tableDocEnv "d" 0 0 0 "x").1 ≠ .panicked :=
  ⟨(C9_unguarded_indexing.1 emptyDocEnv "d" "t" 1 1 _ _ rfl rfl rfl).1,
   (C9_unguarded_indexing.2.2.1 tableDocEnv "d" _ _ rfl rfl rfl).2.1,
   C9_unguarded_indexing.2.2.2 tableDocEnv "d" "x" 0 0 0 _ _ oneCellDoc _ _ _ _
     rfl rfl rfl rfl rfl rfl⟩

/-- C10: `CreateCalendarEvent` converts both input times to Asia/Tokyo
before building the event: whatever timezone the caller supplied, the
inserted event's Start and End carry `TimeZone = "Asia/Tokyo"` and RFC3339
datetimes denoting exactly the input instants. -/
theorem C10_always_tokyo :
    ∀ env summary location description startTime endTime conf tok,
      env.getClient = .ok (conf, tok) → env.calendarNewService = .ok () →
      env.loadLocationJST = .ok () →
      ∃ ev, Event.api (.eventsInsert ev)
          ∈ (gMeetHelper.CreateCalendarEvent env summary location description
              startTime endTime).2 ∧
        ev.start.timeZone = "Asia/Tokyo" ∧ ev.endTime.timeZone = "Asia/Tokyo" ∧
        ev.start.dateTime.instant = startTime.unixSec ∧
        ev.endTime.dateTime.instant = endTime.unixSec := by
  intro env summary location description startTime endTime conf tok hc hs hl
  refine ⟨gMeetHelper.buildCalendarEvent summary location description startTime endTime,
    ?_, rfl, rfl, ?_, ?_⟩
  · unfold gMeetHelper.CreateCalendarEvent
    rw [hc, hs, hl]
    (try dsimp only)
    cases env.eventsInsert <;> simp
  · simp [gMeetHelper.buildCalendarEvent, FormattedTime.instant, formatRFC3339, GoTime.inLoc]
  · simp [gMeetHelper.buildCalendarEvent, FormattedTime.instant, formatRFC3339, GoTime.inLoc]

/-- A caller-supplied time in a non-Tokyo timezone. -/
def nycStart : GoTime :=
  { unixSec := 1000, loc := { name := "America/New_York", offsetSec := -5 * 3600 } }

/-- One hour later, same non-Tokyo timezone. -/
def nycEnd : GoTime :=
  { unixSec := 4600, loc := { name := "America/New_York", offsetSec := -5 * 3600 } }

/-- Witness for C10 at concrete non-Tokyo inputs. -/
theorem C10_always_tokyo_witness :
    ∃ ev, Event.api (.eventsInsert ev)
        ∈ (gMeetHelper.CreateCalendarEvent okEnv "Meeting" "Virtual" "d" nycStart nycEnd).2 ∧
      ev.start.timeZone = "Asia/Tokyo" ∧ ev.endTime.timeZone = "Asia/Tokyo" ∧
      ev.start.dateTime.instant = nycStart.unixSec ∧
      ev.endTime.dateTime.instant = nycEnd.unixSec :=
  C10_always_tokyo okEnv "Meeting" "Virtual" "d" nycStart nycEnd _ _ rfl rfl rfl


/-! ### Claim theorem C7: the end-to-end workflow order of main -/

/-- C7: on a fully successful run, `main` performs exactly this sequence of
helper calls, each applied to identifiers produced by earlier steps, and
the claimed workflow (create doc → add text → create folder → copy doc →
create event → attach file → style table → add/remove permissions →
rename → delete) is a subsequence of it in that order. -/
theorem C7_main_order :
    ∀ env docID folderID copiedID eventID copied2ID endIndex exported,
      env.createDoc = .ok docID → env.addText = .ok () → env.createFolder = .ok folderID →
      env.copyFileToFolder = .ok copiedID → env.createEvent = .ok eventID →
      env.addAttendees = .ok () → env.attachFile = .ok () → env.makeCopy = .ok copied2ID →
      env.exportDoc = .ok exported → env.addTable = .ok () → env.addCellText = .ok () →
      env.setCellColor = .ok () → env.getEndIndex = .ok endIndex → env.insertLink = .ok () →
      env.addPermission = .ok () → env.removePermission = .ok () → env.renameFolder = .ok () →
      env.deleteFile = .ok () →
      mainRun env
        = [.createDoc "Sample Document", .addText docID "Hello, World!",
           .createFolder "Sample Folder", .copyFileToFolder docID folderID,
           .createEvent "Meeting", .addAttendees eventID ["user@gmail.com"],
           .attachFile eventID copiedID, .makeCopy docID "Copy of Document",
           .exportDoc docID, .addTable copied2ID 3 3,
           .addCellText copied2ID 0 1 1 "Cell Text",
           .setCellColor copied2ID 0 1 1, .getEndIndex copied2ID,
           .insertLink copied2ID (gdocsHelper.GetDocumentURL docID)
             (gdocsHelper.GetDocumentURL docID) (endIndex - 1),
           .addPermission copied2ID "user@gmail.com" "reader",
           .removePermission copied2ID "user@gmail.com",
           .renameFolder folderID "New folder name", .deleteFile docID] ∧
      List.Sublist
        [MainStep.createDoc "Sample Document", .addText docID "Hello, World!",
         .createFolder "Sample Folder", .copyFileToFolder docID folderID,
         .createEvent "Meeting", .attachFile eventID copiedID,
         .setCellColor copied2ID 0 1 1,
         .addPermission copied2ID "user@gmail.com" "reader",
         .removePermission copied2ID "user@gmail.com",
         .renameFolder folderID "New folder name", .deleteFile docID]
        (mainRun env) := by
  intro env docID folderID copiedID eventID copied2ID endIndex exported
    h1 h2 h3 h4 h5 h6 h7 h8 h9 h10 h11 h12 h13 h14 h15 h16 h17 h18
  have htrace : mainRun env
      = [.createDoc "Sample Document", .addText docID "Hello, World!",
         .createFolder "Sample Folder", .copyFileToFolder docID folderID,
         .createEvent "Meeting", .addAttendees eventID ["user@gmail.com"],
         .attachFile eventID copiedID, .makeCopy docID "Copy of Document",
         .exportDoc docID, .addTable copied2ID 3 3,
         .addCellText copied2ID 0 1 1 "Cell Text",
         .setCellColor copied2ID 0 1 1, .getEndIndex copied2ID,
         .insertLink copied2ID (gdocsHelper.GetDocumentURL docID)
           (gdocsHelper.GetDocumentURL docID) (endIndex - 1),
         .addPermission copied2ID "user@gmail.com" "reader",
         .removePermission copied2ID "user@gmail.com",
         .renameFolder folderID "New folder name", .deleteFile docID] := by
    unfold mainRun
    simp only [h1, h2, h3, h4, h5, h6, h7, h8, h9, h10, h11, h12, h13, h14, h15, h16, h17, h18]
    rfl
  refine ⟨htrace, ?_⟩
  rw [htrace]
  repeat
    first
      | apply List.Sublist.cons₂
      | apply List.Sublist.cons
  exact List.Sublist.slnil

/-- A fully successful driver environment. -/
def okMainEnv : MainEnv :=
  { createDoc := .ok "doc1", addText := .ok (), createFolder := .ok "folder1",
    copyFileToFolder := .ok "copied1", createEvent := .ok "ev1", addAttendees := .ok (),
    attachFile := .ok (), makeCopy := .ok "copy2", exportDoc := .ok "contents",
    addTable := .ok (), addCellText := .ok (), setCellColor := .ok (),
    getEndIndex := .ok 7, insertLink := .ok (), addPermission := .ok (),
    removePermission := .ok (), renameFolder := .ok (), deleteFile := .ok () }

/-- Witness for C7 at the concrete successful driver environment. -/
theorem C7_main_order_witness :
    mainRun okMainEnv
      = [.createDoc "Sample Document", .addText "doc1" "Hello, World!",
         .createFolder "Sample Folder", .copyFileToFolder "doc1" "folder1",
         .createEvent "Meeting", .addAttendees "ev1" ["user@gmail.com"],
         .attachFile "ev1" "copied1", .makeCopy "doc1" "Copy of Document",
         .exportDoc "doc1", .addTable "copy2" 3 3,
         .addCellText "copy2" 0 1 1 "Cell Text",
         .setCellColor "copy2" 0 1 1, .getEndIndex "copy2",
         .insertLink "copy2" (gdocsHelper.GetDocumentURL "doc1")
           (gdocsHelper.GetDocumentURL "doc1") (7 - 1),
         .addPermission "copy2" "user@gmail.com" "reader",
         .removePermission "copy2" "user@gmail.com",
         .renameFolder "folder1" "New folder name", .deleteFile "doc1"] ∧
      List.Sublist
        [MainStep.createDoc "Sample Document", .addText "doc1" "Hello, World!",
         .createFolder "Sample Folder", .copyFileToFolder "doc1" "folder1",
         .createEvent "Meeting", .attachFile "ev1" "copied1",
         .setCellColor "copy2" 0 1 1,
         .addPermission "copy2" "user@gmail.com" "reader",
         .removePermission "copy2" "user@gmail.com",
         .renameFolder "folder1" "New folder name", .deleteFile "doc1"]
        (mainRun okMainEnv) :=
  C7_main_order okMainEnv "doc1" "folder1" "copied1" "ev1" "copy2" 7 "contents"
    rfl rfl rfl rfl rfl rfl rfl rfl rfl rfl rfl rfl rfl rfl rfl rfl rfl rfl

/-! ### Claim theorems C4 and the counterexamples for C2, C3 -/

/-- C4, counterexample: with no token file, a first OAuth invocation runs
the web exchange and SAVES the token (state change); a second invocation
with the same configuration then succeeds even though the web exchange is
down — while the very same invocation without the persisted state fails.
State written by the first call influences the second. -/
theorem C4_counterexample :
    GetClient oauthCfg oauthEnvOk noTokenState
      = (.ok (some { id := 7 }, { id := 42 }), cachedState,
         [.readCredFile, .readTokenFile, .webExchange, .saveTokenFile]) ∧
    GetClient oauthCfg oauthEnvWebDown cachedState
      = (.ok (some { id := 7 }, { id := 42 }), cachedState, [.readCredFile, .readTokenFile]) ∧
    GetClient oauthCfg oauthEnvWebDown noTokenState
      = (.error ("auth: unable to retrieve token from web: " ++ "web unreachable"),
         noTokenState, [.readCredFile, .readTokenFile, .webExchange]) :=
  ⟨rfl, rfl, rfl⟩

/-- Witness for C4 (amended): the first invocation's saved token, concretely. -/
theorem C4_token_cache_witness :
    getOAuthClient oauthEnvOk noTokenState
      = (.ok (some { id := 7 }, { id := 42 }),
         { tokenFileContents := some { id := 42 } },
         [.readCredFile, .readTokenFile, .webExchange, .saveTokenFile]) ∧
    getOAuthClient oauthEnvOk cachedState
      = (.ok (some { id := 7 }, { id := 42 }), cachedState,
         [.readCredFile, .readTokenFile]) :=
  ⟨getOAuthClient_cache.2.1 oauthEnvOk noTokenState { id := 7 } "secret" { id := 42 }
      rfl rfl rfl rfl,
   getOAuthClient_cache.1 oauthEnvOk cachedState { id := 7 } "secret" { id := 42 }
      rfl rfl rfl⟩

/-- C2, counterexample: `AddText` constructs and issues TWO API requests in
a single invocation (the `Documents.Get` fetch and the `BatchUpdate`), and
the exported `GetDocumentURL` performs no authentication and no API call at
all — it is pure string formatting. -/
theorem C2_counterexample :
    apiCount (gdocsHelper.AddText okEnv "doc1" "hi").2 = 2 ∧
      gdocsHelper.GetDocumentURL "doc1" = "https://docs.google.com/document/d/doc1/edit" :=
  ⟨rfl, rfl⟩

/-- C3, counterexample: `ReplaceText` is a document-editing function that
issues its edit WITHOUT re-fetching the document — its whole trace contains
no `Documents.Get`. -/
theorem C3_counterexample :
    (gdocsHelper.ReplaceText okEnv "doc1" "old" "new").2
      = [Event.auth, Event.client false, Event.newService .docs,
         Event.api (.batchUpdate "doc1" [DocsRequest.replaceAllText "old" "new" true])] ∧
      docGetCount (gdocsHelper.ReplaceText okEnv "doc1" "old" "new").2 = 0 :=
  ⟨rfl, rfl⟩

/-- Witness for C3 (amended) at the concrete successful environment. -/
theorem C3_reauth_and_refetch_witness :
    ((gdocsHelper.AddText okEnv "doc1" "hi").2.take 4
        = [Event.auth, Event.client false, Event.newService .docs,
           Event.api (.documentsGet "doc1")]) ∧
      docGetCount (gdocsHelper.AddText okEnv "doc1" "hi").2 = 1 :=
  C3_reauth_and_refetch.2.1.1 okEnv "doc1" "hi" (some { id := 0 }) { id := 0 } okDoc
    rfl rfl rfl

/-- Witness for C6: a concrete failing `GetClient` propagates and no API
call is made. -/
theorem C6_error_propagation_witness :
    gdocsHelper.AddText authFailEnv "doc1" "hi"
      = (.err ("gdocsHelper: failed to get authenticated client: " ++ "boom"), [Event.auth]) :=
  C6_error_propagation.1.2.1 authFailEnv "doc1" "hi" "boom" rfl

/-- Witness for C8: the concrete service-account result and the nil config
reaching a helper's client construction. -/
theorem C8_nil_config_flow_witness :
    (GetClient
        { useServiceAccount := true, credentialsFile := "c", tokenFile := "t", scopes := [] }
        { readCredentialsFile := .ok "data", credentialsFromJSON := .ok (),
          tokenSourceToken := .ok { id := 5 }, configFromJSON := .error "unused",
          webToken := .error "unused" }
        { tokenFileContents := none }
      = (.ok (none, { id := 5 }), { tokenFileContents := none }, [.readCredFile])) ∧
      Event.client true ∈ (gdocsHelper.CreateGoogleDoc nilConfEnv "Sample Document").2 :=
  ⟨C8_nil_config_flow.1 _ _ _ "data" { id := 5 } rfl rfl rfl rfl,
   C8_nil_config_flow.2.1 nilConfEnv "Sample Document" { id := 0 } rfl⟩

end GW






